import Mathlib

/-! Plandex proposal pipeline: model catalog, prompt assembly, describe phase,
repository lock.

A shallow embedding of

* `app/shared/ai_models.go`: the model catalog, the capability table per role,
  `FilterCompatibleModels`, and the built-in model packs assembled by `init`;
* `server/model/proposal/create.go`: `CreateProposal`, with the goroutine that reads
  the provider stream;
* `app/server/handlers/fs_helper.go`: `lockRepo`, the release function it returns, and
  `RollbackRepoIfErr`.

Go maps are held as association lists with unique keys, a Go `int` as the `Int` it
holds, with the sums and differences that `CreateProposal` takes of token counts
wrapping around at `2^63` as they do in Go, and a nil dereference or an early
`return err` as `Option` / `Except`.
-/

set_option autoImplicit false

namespace Plandex

/-! ## Go maps -/

/-- A Go `map[string]V`: an association list in which every key occurs once. -/
abbrev GoMap (V : Type) := List (String × V)

/-- The assignment `m[k] = v`: overwrite the entry of `k`, or add one. -/
def GoMap.set {V : Type} : GoMap V → String → V → GoMap V
  | [], k, v => [(k, v)]
  | (k', v') :: rest, k, v =>
    if k' = k then (k, v) :: rest else (k', v') :: GoMap.set rest k v

/-- The lookup `v, ok := m[k]`. -/
def GoMap.get? {V : Type} : GoMap V → String → Option V
  | [], _ => none
  | (k', v') :: rest, k => if k' = k then some v' else GoMap.get? rest k

/-! ## Go integers -/

/-- The value a Go `int` (64 bits, two's complement) takes for the exact result `x` of an
addition or subtraction: the representative of `x` modulo `2^64` in
`[-2^63, 2^63)`. -/
def GoInt.wrap (x : Int) : Int :=
  (x + 2 ^ 63) % 2 ^ 64 - 2 ^ 63

/-- Go's `a + b` on `int`. -/
def GoInt.add (a b : Int) : Int :=
  GoInt.wrap (a + b)

/-- Go's `a - b` on `int`. -/
def GoInt.sub (a b : Int) : Int :=
  GoInt.wrap (a - b)

/-! ## `ai_models.go` -/

/-- The struct `ModelCompatibility`; a field left out of a Go literal is `false`. -/
structure ModelCompatibility where
  IsOpenAICompatible : Bool := false
  HasJsonResponseMode : Bool := false
  HasStreaming : Bool := false
  HasFunctionCalling : Bool := false
  HasStreamingFunctionCalls : Bool := false
  HasImageSupport : Bool := false
  deriving DecidableEq, Repr

/-- Modelled from the spec: the type `ModelRole` is declared outside `src/`; the spec
enumerates its eight values. -/
inductive ModelRole where
  | ModelRolePlanner
  | ModelRolePlanSummary
  | ModelRoleBuilder
  | ModelRoleName
  | ModelRoleCommitMsg
  | ModelRoleExecStatus
  | ModelRoleVerifier
  | ModelRoleAutoFix
  deriving DecidableEq, Repr

open ModelRole

/-- The three provider constants the catalog uses (`ModelProviderOpenAI`, ...); the
type is declared outside `src/`. -/
inductive ModelProvider where
  | ModelProviderOpenAI
  | ModelProviderOpenRouter
  | ModelProviderTogether
  deriving DecidableEq, Repr

open ModelProvider

/-- The two provider tables `ApiKeyByProvider` and `BaseUrlByProvider`, declared outside
`src/`; the catalog is read relative to them. -/
structure ProviderTables where
  ApiKeyByProvider : ModelProvider → String
  BaseUrlByProvider : ModelProvider → String

def OpenAIEnvVar : String := "OPENAI_API_KEY"
def OpenAIV1BaseUrl : String := "https://api.openai.com/v1"

/-! Model-name constants of the `go-openai` client library. -/

def openai.GPT4o : String := "gpt-4o"
def openai.GPT4Turbo : String := "gpt-4-turbo"
def openai.GPT4Turbo20240409 : String := "gpt-4-turbo-2024-04-09"
def openai.GPT4 : String := "gpt-4"
def openai.GPT3Dot5Turbo : String := "gpt-3.5-turbo"
def openai.GPT3Dot5Turbo0125 : String := "gpt-3.5-turbo-0125"
def openai.GPT3Dot5Turbo1106 : String := "gpt-3.5-turbo-1106"

structure BaseModelConfig where
  Provider : ModelProvider
  ModelName : String
  MaxTokens : Int
  ApiKeyEnvVar : String
  ModelCompatibility : ModelCompatibility
  BaseUrl : String
  deriving DecidableEq, Repr

structure AvailableModel where
  Description : String
  DefaultMaxConvoTokens : Int
  DefaultReservedOutputTokens : Int
  BaseModelConfig : BaseModelConfig
  deriving DecidableEq, Repr

/-- The map literal `RequiredCompatibilityByRole`. -/
def RequiredCompatibilityByRole : ModelRole → ModelCompatibility
  | ModelRolePlanner => { IsOpenAICompatible := true, HasStreaming := true }
  | ModelRolePlanSummary => { IsOpenAICompatible := true, HasStreaming := true }
  | ModelRoleBuilder =>
    { IsOpenAICompatible := true, HasStreaming := true, HasFunctionCalling := true }
  | ModelRoleName => { IsOpenAICompatible := true }
  | ModelRoleCommitMsg => { IsOpenAICompatible := true, HasFunctionCalling := true }
  | ModelRoleExecStatus => { IsOpenAICompatible := true, HasFunctionCalling := true }
  | ModelRoleVerifier =>
    { IsOpenAICompatible := true, HasStreaming := true, HasFunctionCalling := true }
  | ModelRoleAutoFix =>
    { IsOpenAICompatible := true, HasStreaming := true, HasFunctionCalling := true }

/-- The loop body of `FilterCompatibleModels`: `false` where the loop hits a `continue`. -/
def FilterCompatibleModels.keep (required : ModelCompatibility) (model : AvailableModel) :
    Bool :=
  if required.IsOpenAICompatible && !model.BaseModelConfig.ModelCompatibility.IsOpenAICompatible
  then false
  else if required.HasJsonResponseMode &&
      !model.BaseModelConfig.ModelCompatibility.HasJsonResponseMode then false
  else if required.HasStreaming && !model.BaseModelConfig.ModelCompatibility.HasStreaming
  then false
  else if required.HasFunctionCalling &&
      !model.BaseModelConfig.ModelCompatibility.HasFunctionCalling then false
  else if required.HasStreamingFunctionCalls &&
      !model.BaseModelConfig.ModelCompatibility.HasStreamingFunctionCalls then false
  else true

/-- The loop of `FilterCompatibleModels`, `compatibleModels` being the accumulator. -/
def FilterCompatibleModels.loop (required : ModelCompatibility) :
    List AvailableModel → List AvailableModel → List AvailableModel
  | [], compatibleModels => compatibleModels
  | model :: rest, compatibleModels =>
    if FilterCompatibleModels.keep required model then
      FilterCompatibleModels.loop required rest (compatibleModels ++ [model])
    else
      FilterCompatibleModels.loop required rest compatibleModels

def FilterCompatibleModels (models : List AvailableModel) (role : ModelRole) :
    List AvailableModel :=
  FilterCompatibleModels.loop (RequiredCompatibilityByRole role) models []

def fullCompatibility : ModelCompatibility :=
  { IsOpenAICompatible := true, HasJsonResponseMode := true, HasStreaming := true,
    HasFunctionCalling := true, HasStreamingFunctionCalls := true, HasImageSupport := true }

def fullCompatibilityExceptImage : ModelCompatibility :=
  { IsOpenAICompatible := true, HasJsonResponseMode := true, HasStreaming := true,
    HasFunctionCalling := true, HasStreamingFunctionCalls := true, HasImageSupport := false }

/-- The slice literal `AvailableModels`. -/
def AvailableModels (P : ProviderTables) : List AvailableModel :=
  [
    { Description := "OpenAI's latest gpt-4o model, first released on 2024-08-06",
      DefaultMaxConvoTokens := 10000,
      DefaultReservedOutputTokens := 4096,
      BaseModelConfig :=
        { Provider := ModelProviderOpenAI,
          ModelName := "gpt-4o-2024-08-06",
          MaxTokens := 128000,
          ApiKeyEnvVar := OpenAIEnvVar,
          ModelCompatibility := fullCompatibility,
          BaseUrl := OpenAIV1BaseUrl } },
    { Description := "OpenAI's GPT-4o mini model",
      DefaultMaxConvoTokens := 10000,
      DefaultReservedOutputTokens := 4096,
      BaseModelConfig :=
        { Provider := ModelProviderOpenAI,
          ModelName := "gpt-4o-mini",
          MaxTokens := 128000,
          ApiKeyEnvVar := OpenAIEnvVar,
          ModelCompatibility := fullCompatibility,
          BaseUrl := OpenAIV1BaseUrl } },
    { Description := "OpenAI's older gpt-4o model, first released on 2024-05-13",
      DefaultMaxConvoTokens := 10000,
      DefaultReservedOutputTokens := 4096,
      BaseModelConfig :=
        { Provider := ModelProviderOpenAI,
          ModelName := openai.GPT4o,
          MaxTokens := 128000,
          ApiKeyEnvVar := OpenAIEnvVar,
          ModelCompatibility := fullCompatibility,
          BaseUrl := OpenAIV1BaseUrl } },
    { Description := "OpenAI's gpt-4o model, pinned to version released on 2024-05-13",
      DefaultMaxConvoTokens := 10000,
      DefaultReservedOutputTokens := 4096,
      BaseModelConfig :=
        { Provider := ModelProviderOpenAI,
          ModelName := "gpt-4o-2024-05-13",
          MaxTokens := 128000,
          ApiKeyEnvVar := OpenAIEnvVar,
          ModelCompatibility := fullCompatibility,
          BaseUrl := OpenAIV1BaseUrl } },
    { Description := "OpenAI's latest gpt-4-turbo model, first released on 2024-04-09",
      DefaultMaxConvoTokens := 10000,
      DefaultReservedOutputTokens := 4096,
      BaseModelConfig :=
        { Provider := ModelProviderOpenAI,
          ModelName := openai.GPT4Turbo,
          MaxTokens := 128000,
          ApiKeyEnvVar := OpenAIEnvVar,
          ModelCompatibility := fullCompatibilityExceptImage,
          BaseUrl := OpenAIV1BaseUrl } },
    { Description := "OpenAI's gpt-4-turbo, pinned to version released on 2024-04-09",
      DefaultMaxConvoTokens := 10000,
      DefaultReservedOutputTokens := 4096,
      BaseModelConfig :=
        { Provider := ModelProviderOpenAI,
          ModelName := openai.GPT4Turbo20240409,
          MaxTokens := 128000,
          ApiKeyEnvVar := OpenAIEnvVar,
          ModelCompatibility := fullCompatibilityExceptImage,
          BaseUrl := OpenAIV1BaseUrl } },
    { Description := "OpenAI's gpt-4 model",
      DefaultMaxConvoTokens := 2500,
      DefaultReservedOutputTokens := 1000,
      BaseModelConfig :=
        { Provider := ModelProviderOpenAI,
          ModelName := openai.GPT4,
          MaxTokens := 8000,
          ApiKeyEnvVar := OpenAIEnvVar,
          ModelCompatibility :=
            { IsOpenAICompatible := true, HasJsonResponseMode := false, HasStreaming := true,
              HasFunctionCalling := true, HasStreamingFunctionCalls := true },
          BaseUrl := OpenAIV1BaseUrl } },
    { Description := "OpenAI's latest gpt-3.5-turbo model",
      DefaultMaxConvoTokens := 5000,
      DefaultReservedOutputTokens := 2000,
      BaseModelConfig :=
        { Provider := ModelProviderOpenAI,
          ModelName := openai.GPT3Dot5Turbo,
          MaxTokens := 16385,
          ApiKeyEnvVar := OpenAIEnvVar,
          ModelCompatibility := fullCompatibilityExceptImage,
          BaseUrl := OpenAIV1BaseUrl } },
    { Description := "OpenAI's gpt-3.5-turbo, pinned to version released on 2024-01-25",
      DefaultMaxConvoTokens := 5000,
      DefaultReservedOutputTokens := 2000,
      BaseModelConfig :=
        { Provider := ModelProviderOpenAI,
          ModelName := openai.GPT3Dot5Turbo0125,
          MaxTokens := 16385,
          ApiKeyEnvVar := OpenAIEnvVar,
          ModelCompatibility := fullCompatibilityExceptImage,
          BaseUrl := OpenAIV1BaseUrl } },
    { Description := "OpenAI's gpt-3.5-turbo, pinned to version released on 2023-11-06",
      DefaultMaxConvoTokens := 5000,
      DefaultReservedOutputTokens := 2000,
      BaseModelConfig :=
        { Provider := ModelProviderOpenAI,
          ModelName := openai.GPT3Dot5Turbo1106,
          MaxTokens := 16385,
          ApiKeyEnvVar := OpenAIEnvVar,
          ModelCompatibility := fullCompatibilityExceptImage,
          BaseUrl := OpenAIV1BaseUrl } },
    { Description := "Anthropic Claude 3.5 Sonnet via OpenRouter",
      DefaultMaxConvoTokens := 15000,
      DefaultReservedOutputTokens := 4096,
      BaseModelConfig :=
        { Provider := ModelProviderOpenRouter,
          ModelName := "anthropic/claude-3.5-sonnet",
          MaxTokens := 200000,
          ApiKeyEnvVar := P.ApiKeyByProvider ModelProviderOpenRouter,
          ModelCompatibility :=
            { IsOpenAICompatible := true, HasJsonResponseMode := true, HasStreaming := true,
              HasFunctionCalling := true, HasStreamingFunctionCalls := false, HasImageSupport := true },
          BaseUrl := P.BaseUrlByProvider ModelProviderOpenRouter } },
    { Description := "Anthropic Claude 3 Opus via OpenRouter",
      DefaultMaxConvoTokens := 15000,
      DefaultReservedOutputTokens := 4096,
      BaseModelConfig :=
        { Provider := ModelProviderOpenRouter,
          ModelName := "anthropic/claude-3-opus",
          MaxTokens := 200000,
          ApiKeyEnvVar := P.ApiKeyByProvider ModelProviderOpenRouter,
          ModelCompatibility :=
            { IsOpenAICompatible := true, HasJsonResponseMode := true, HasStreaming := true,
              HasFunctionCalling := true, HasStreamingFunctionCalls := false },
          BaseUrl := P.BaseUrlByProvider ModelProviderOpenRouter } },
    { Description := "Anthropic Claude 3 Sonnet via OpenRouter",
      DefaultMaxConvoTokens := 15000,
      DefaultReservedOutputTokens := 4096,
      BaseModelConfig :=
        { Provider := ModelProviderOpenRouter,
          ModelName := "anthropic/claude-3-sonnet",
          MaxTokens := 200000,
          ApiKeyEnvVar := P.ApiKeyByProvider ModelProviderOpenRouter,
          ModelCompatibility :=
            { IsOpenAICompatible := true, HasJsonResponseMode := true, HasStreaming := true,
              HasFunctionCalling := true, HasStreamingFunctionCalls := false },
          BaseUrl := P.BaseUrlByProvider ModelProviderOpenRouter } },
    { Description := "Anthropic Claude 3 Haiku via OpenRouter",
      DefaultMaxConvoTokens := 15000,
      DefaultReservedOutputTokens := 4096,
      BaseModelConfig :=
        { Provider := ModelProviderOpenRouter,
          ModelName := "anthropic/claude-3-haiku",
          MaxTokens := 200000,
          ApiKeyEnvVar := P.ApiKeyByProvider ModelProviderOpenRouter,
          ModelCompatibility :=
            { IsOpenAICompatible := true, HasJsonResponseMode := true, HasStreaming := true,
              HasFunctionCalling := true, HasStreamingFunctionCalls := false, HasImageSupport := true },
          BaseUrl := P.BaseUrlByProvider ModelProviderOpenRouter } },
    { Description := "Mixtral-8x22B via Together.ai",
      DefaultMaxConvoTokens := 10000,
      DefaultReservedOutputTokens := 4096,
      BaseModelConfig :=
        { Provider := ModelProviderTogether,
          ModelName := "mistralai/Mixtral-8x22B-Instruct-v0.1",
          MaxTokens := 65536,
          ApiKeyEnvVar := P.ApiKeyByProvider ModelProviderTogether,
          ModelCompatibility :=
            { IsOpenAICompatible := true, HasJsonResponseMode := false, HasStreaming := true,
              HasFunctionCalling := false, HasStreamingFunctionCalls := false },
          BaseUrl := P.BaseUrlByProvider ModelProviderTogether } },
    { Description := "Mixtral-8x7B via Together.ai",
      DefaultMaxConvoTokens := 5000,
      DefaultReservedOutputTokens := 4096,
      BaseModelConfig :=
        { Provider := ModelProviderTogether,
          ModelName := "mistralai/Mixtral-8x7B-Instruct-v0.1",
          MaxTokens := 32768,
          ApiKeyEnvVar := P.ApiKeyByProvider ModelProviderTogether,
          ModelCompatibility :=
            { IsOpenAICompatible := true, HasJsonResponseMode := true, HasStreaming := true,
              HasFunctionCalling := true, HasStreamingFunctionCalls := false },
          BaseUrl := P.BaseUrlByProvider ModelProviderTogether } },
    { Description := "CodeLLama-34b via Together.ai",
      DefaultMaxConvoTokens := 10000,
      DefaultReservedOutputTokens := 4096,
      BaseModelConfig :=
        { Provider := ModelProviderTogether,
          ModelName := "togethercomputer/CodeLlama-34b-Instruct",
          MaxTokens := 16384,
          ApiKeyEnvVar := P.ApiKeyByProvider ModelProviderTogether,
          ModelCompatibility :=
            { IsOpenAICompatible := true, HasJsonResponseMode := true, HasStreaming := true,
              HasFunctionCalling := true, HasStreamingFunctionCalls := false },
          BaseUrl := P.BaseUrlByProvider ModelProviderTogether } },
    { Description := "Google Gemini Pro 1.5 preview via OpenRouter",
      DefaultMaxConvoTokens := 100000,
      DefaultReservedOutputTokens := 22937,
      BaseModelConfig :=
        { Provider := ModelProviderOpenRouter,
          ModelName := "google/gemini-pro-1.5",
          MaxTokens := 2800000,
          ApiKeyEnvVar := P.ApiKeyByProvider ModelProviderOpenRouter,
          ModelCompatibility :=
            { IsOpenAICompatible := true, HasJsonResponseMode := true, HasStreaming := true,
              HasFunctionCalling := true, HasStreamingFunctionCalls := false, HasImageSupport := true },
          BaseUrl := P.BaseUrlByProvider ModelProviderOpenRouter } },
    { Description := "Google Gemini Pro 1.5 Experimental 0801 via OpenRouter",
      DefaultMaxConvoTokens := 100000,
      DefaultReservedOutputTokens := 22937,
      BaseModelConfig :=
        { Provider := ModelProviderOpenRouter,
          ModelName := "google/gemini-pro-1.5-exp",
          MaxTokens := 2800000,
          ApiKeyEnvVar := P.ApiKeyByProvider ModelProviderOpenRouter,
          ModelCompatibility :=
            { IsOpenAICompatible := true, HasJsonResponseMode := true, HasStreaming := true,
              HasFunctionCalling := true, HasStreamingFunctionCalls := false, HasImageSupport := true },
          BaseUrl := P.BaseUrlByProvider ModelProviderOpenRouter } } ]

/-- The float literals of `DefaultConfigByRole`, read as decimals. -/
structure RoleDefaults where
  Temperature : ℚ
  TopP : ℚ

/-- The map literal `DefaultConfigByRole` (its entries set `Temperature` and `TopP` only). -/
def DefaultConfigByRole : ModelRole → RoleDefaults
  | ModelRolePlanner => { Temperature := 0.3, TopP := 0.3 }
  | ModelRolePlanSummary => { Temperature := 0.2, TopP := 0.2 }
  | ModelRoleBuilder => { Temperature := 0.1, TopP := 0.1 }
  | ModelRoleName => { Temperature := 0.8, TopP := 0.5 }
  | ModelRoleCommitMsg => { Temperature := 0.8, TopP := 0.5 }
  | ModelRoleExecStatus => { Temperature := 0.1, TopP := 0.1 }
  | ModelRoleVerifier => { Temperature := 0.2, TopP := 0.2 }
  | ModelRoleAutoFix => { Temperature := 0.1, TopP := 0.1 }

structure ModelRoleConfig where
  Role : ModelRole
  BaseModelConfig : BaseModelConfig
  Temperature : ℚ
  TopP : ℚ

structure PlannerModelConfig where
  MaxConvoTokens : Int
  ReservedOutputTokens : Int

structure PlannerRoleConfig where
  ModelRoleConfig : ModelRoleConfig
  PlannerModelConfig : PlannerModelConfig

structure ModelPack where
  Name : String
  Description : String
  Planner : PlannerRoleConfig
  PlanSummary : ModelRoleConfig
  Builder : ModelRoleConfig
  Namer : ModelRoleConfig
  CommitMsg : ModelRoleConfig
  ExecStatus : ModelRoleConfig

/-- The first loop of `init`: `AvailableModelsByName[model.BaseModelConfig.ModelName] = model`
for every catalog model, starting from the empty map. -/
def init.AvailableModelsByName (P : ProviderTables) : GoMap AvailableModel :=
  (AvailableModels P).foldl (fun byName model => byName.set model.BaseModelConfig.ModelName model)
    []

/-- The function `getPlannerModelConfig`, reading the map it is given; `none` is the nil
dereference of a name the map does not hold. -/
def getPlannerModelConfig (AvailableModelsByName : GoMap AvailableModel) (name : String) :
    Option PlannerModelConfig :=
  (AvailableModelsByName.get? name).map fun model =>
    { MaxConvoTokens := model.DefaultMaxConvoTokens,
      ReservedOutputTokens := model.DefaultReservedOutputTokens }

/-- One `ModelRoleConfig` literal of `init`: the role, the `BaseModelConfig` of the catalog
model of that name, and the role's default temperature and top-p; `none` is the nil
dereference of a name the map does not hold. -/
def init.roleConfig (AvailableModelsByName : GoMap AvailableModel) (role : ModelRole)
    (name : String) : Option ModelRoleConfig :=
  (AvailableModelsByName.get? name).map fun model =>
    { Role := role,
      BaseModelConfig := model.BaseModelConfig,
      Temperature := (DefaultConfigByRole role).Temperature,
      TopP := (DefaultConfigByRole role).TopP }

/-- One `ModelPack` literal of `init`. Every literal has this shape; they differ in the two
texts, in the model name of each of the six slots, and in the name handed to
`getPlannerModelConfig`. The fields are evaluated in the order of the literal. -/
def init.modelPack (AvailableModelsByName : GoMap AvailableModel) (Name Description : String)
    (planner plannerConfig planSummary builder namer commitMsg execStatus : String) :
    Option ModelPack := do
  let plannerRole ← init.roleConfig AvailableModelsByName ModelRolePlanner planner
  let plannerModel ← getPlannerModelConfig AvailableModelsByName plannerConfig
  let planSummaryRole ← init.roleConfig AvailableModelsByName ModelRolePlanSummary planSummary
  let builderRole ← init.roleConfig AvailableModelsByName ModelRoleBuilder builder
  let namerRole ← init.roleConfig AvailableModelsByName ModelRoleName namer
  let commitMsgRole ← init.roleConfig AvailableModelsByName ModelRoleCommitMsg commitMsg
  let execStatusRole ← init.roleConfig AvailableModelsByName ModelRoleExecStatus execStatus
  pure
    { Name := Name,
      Description := Description,
      Planner := { ModelRoleConfig := plannerRole, PlannerModelConfig := plannerModel },
      PlanSummary := planSummaryRole,
      Builder := builderRole,
      Namer := namerRole,
      CommitMsg := commitMsgRole,
      ExecStatus := execStatusRole }

def init.Gpt4oLatestModelPack (byName : GoMap AvailableModel) : Option ModelPack :=
  init.modelPack byName "GPT-4o Latest" "Latest GPT-4o model for optimal performance"
    "gpt-4o-2024-08-06" "gpt-4o-2024-08-06" "gpt-4o-2024-08-06" "gpt-4o-2024-08-06"
    "gpt-4o-2024-08-06" "gpt-4o-2024-08-06" "gpt-4o-2024-08-06"

def init.Gpt4TurboLatestModelPack (byName : GoMap AvailableModel) : Option ModelPack :=
  init.modelPack byName "GPT-4 Turbo Latest" "Fast and efficient GPT-4 Turbo model"
    "gpt-4-turbo" openai.GPT4o "gpt-4-turbo" "gpt-4-turbo" "gpt-4-turbo" "gpt-4-turbo"
    "gpt-4-turbo"

def init.OpenRouterClaude3Dot5SonnetModelPack (byName : GoMap AvailableModel) :
    Option ModelPack :=
  init.modelPack byName "Claude 3.5 Sonnet" "Anthropic's Claude 3.5 Sonnet via OpenRouter"
    "anthropic/claude-3.5-sonnet" "anthropic/claude-3.5-sonnet" "anthropic/claude-3.5-sonnet"
    "anthropic/claude-3.5-sonnet" "anthropic/claude-3.5-sonnet" "anthropic/claude-3.5-sonnet"
    "anthropic/claude-3.5-sonnet"

def init.OpenRouterClaude3Dot5SonnetGPT4oModelPack (byName : GoMap AvailableModel) :
    Option ModelPack :=
  init.modelPack byName "Claude 3.5 Sonnet + GPT-4o" "Powerful combo of Claude and GPT-4o"
    "anthropic/claude-3.5-sonnet" "anthropic/claude-3.5-sonnet" "anthropic/claude-3.5-sonnet"
    "anthropic/claude-3.5-sonnet" "gpt-4o-2024-08-06" "gpt-4o-2024-08-06" "gpt-4o-2024-08-06"

def init.TogetherMixtral8x22BModelPack (byName : GoMap AvailableModel) : Option ModelPack :=
  init.modelPack byName "Mixtral 8x22B" "Mixtral 8x22B model via Together.ai"
    "mistralai/Mixtral-8x22B-Instruct-v0.1" "mistralai/Mixtral-8x22B-Instruct-v0.1"
    "mistralai/Mixtral-8x22B-Instruct-v0.1" "mistralai/Mixtral-8x22B-Instruct-v0.1"
    "mistralai/Mixtral-8x22B-Instruct-v0.1" "mistralai/Mixtral-8x22B-Instruct-v0.1"
    "mistralai/Mixtral-8x22B-Instruct-v0.1"

def init.GeminiGpt4oMiniModelPack (byName : GoMap AvailableModel) : Option ModelPack :=
  init.modelPack byName "Gemini Pro 1.5 + GPT-4o Mini" "Google's Gemini Pro 1.5 with GPT-4o Mini"
    "google/gemini-pro-1.5-exp" "google/gemini-pro-1.5-exp" "google/gemini-pro-1.5-exp"
    "gpt-4o-mini" "gpt-4o-mini" "gpt-4o-mini" "gpt-4o-mini"

def init.GeminiModelPack (byName : GoMap AvailableModel) : Option ModelPack :=
  init.modelPack byName "Gemini Pro 1.5 Experimental" "Google's Gemini Pro 1.5 Eperimental only"
    "google/gemini-pro-1.5-exp" "google/gemini-pro-1.5-exp" "google/gemini-pro-1.5-exp"
    "google/gemini-pro-1.5-exp" "google/gemini-pro-1.5-exp" "google/gemini-pro-1.5-exp"
    "google/gemini-pro-1.5-exp"

def init.Gpt4oMiniModelPack (byName : GoMap AvailableModel) : Option ModelPack :=
  init.modelPack byName "GPT-4o Mini" "Compact GPT-4o for efficient processing"
    "gpt-4o-mini" "gpt-4o-mini" "gpt-4o-mini" "gpt-4o-mini" "gpt-4o-mini" "gpt-4o-mini"
    "gpt-4o-mini"

def init.Claude3HaikuModelPack (byName : GoMap AvailableModel) : Option ModelPack :=
  init.modelPack byName "Claude 3 Haiku" "Anthropic's Claude 3 Haiku model for all roles"
    "anthropic/claude-3-haiku" "anthropic/claude-3-haiku" "anthropic/claude-3-haiku"
    "anthropic/claude-3-haiku" "anthropic/claude-3-haiku" "anthropic/claude-3-haiku"
    "anthropic/claude-3-haiku"

/-- The globals `init` leaves behind. -/
structure Globals where
  AvailableModelsByName : GoMap AvailableModel
  BuiltInModelPacks : List ModelPack
  DefaultModelPack : ModelPack

/-- The function `init`; `none` is a panic on a nil dereference. -/
def init (P : ProviderTables) : Option Globals := do
  let byName := init.AvailableModelsByName P
  let Gpt4oLatestModelPack ← init.Gpt4oLatestModelPack byName
  let Gpt4TurboLatestModelPack ← init.Gpt4TurboLatestModelPack byName
  let OpenRouterClaude3Dot5SonnetModelPack ← init.OpenRouterClaude3Dot5SonnetModelPack byName
  let OpenRouterClaude3Dot5SonnetGPT4oModelPack ←
    init.OpenRouterClaude3Dot5SonnetGPT4oModelPack byName
  let TogetherMixtral8x22BModelPack ← init.TogetherMixtral8x22BModelPack byName
  let GeminiGpt4oMiniModelPack ← init.GeminiGpt4oMiniModelPack byName
  let GeminiModelPack ← init.GeminiModelPack byName
  let Gpt4oMiniModelPack ← init.Gpt4oMiniModelPack byName
  let Claude3HaikuModelPack ← init.Claude3HaikuModelPack byName
  pure
    { AvailableModelsByName := byName,
      BuiltInModelPacks :=
        [Gpt4oLatestModelPack, Gpt4TurboLatestModelPack, OpenRouterClaude3Dot5SonnetModelPack,
          OpenRouterClaude3Dot5SonnetGPT4oModelPack, TogetherMixtral8x22BModelPack,
          GeminiGpt4oMiniModelPack, GeminiModelPack, Gpt4oMiniModelPack, Claude3HaikuModelPack],
      DefaultModelPack := Gpt4oLatestModelPack }

/-- The six role slots of a pack, in the order of the struct. -/
def ModelPack.slots (pack : ModelPack) : List ModelRoleConfig :=
  [pack.Planner.ModelRoleConfig, pack.PlanSummary, pack.Builder, pack.Namer, pack.CommitMsg,
    pack.ExecStatus]

/-! ## `create.go` -/

/-- Go's `<` on strings, on the characters of the two strings: the order of the UTF-8
bytes, which is the order of the code points. -/
def stringLess.go : List Char → List Char → Bool
  | _, [] => false
  | [], _ :: _ => true
  | a :: as, b :: bs =>
    if a.toNat < b.toNat then true
    else if a.toNat = b.toNat then stringLess.go as bs
    else false

/-- Go's `a < b` on strings; the source's `x > y` is `stringLess y x`. -/
def stringLess (a b : String) : Bool :=
  stringLess.go a.data b.data

/-- The fields of `openai.ChatCompletionMessage` that `CreateProposal` sets. -/
structure ChatCompletionMessage where
  Role : String
  Content : String
  deriving DecidableEq, Repr

def openai.ChatMessageRoleSystem : String := "system"
def openai.ChatMessageRoleUser : String := "user"
def openai.ChatMessageRoleAssistant : String := "assistant"

/-- An element of `req.Conversation`, with the fields `CreateProposal` reads. -/
structure ConversationMessage where
  Message : ChatCompletionMessage
  Tokens : Int
  Timestamp : String
  deriving DecidableEq, Repr

/-- The struct `shared.ConversationSummary`. -/
structure ConversationSummary where
  LastMessageTimestamp : String
  NumMessages : Int
  Summary : String
  Tokens : Int
  deriving DecidableEq, Repr

/-- The fields of `shared.PromptRequest` that `CreateProposal` reads. `Ctx` is the type of
`req.ModelContext`, declared outside `src/` and read only by `lib.FormatModelContext`. -/
structure PromptRequest (Ctx : Type) where
  Prompt : String
  ModelContext : Ctx
  Conversation : List ConversationMessage
  ConversationSummaries : List ConversationSummary
  ParentProposalId : String
  RootProposalId : String

/-- What `CreateProposal` takes from outside `src/`: the text constant `systemMessageHead`
(it starts with `shared.IdentityPrompt`), the tokenizer `shared.GetNumTokens`, the
formatter `lib.FormatModelContext` and the budget `shared.MaxTokens`. -/
structure Externals (Ctx : Type) where
  systemMessageHead : String
  GetNumTokens : String → Int
  FormatModelContext : Ctx → String × Int
  MaxTokens : Int

/-- The call `fmt.Sprintf(promptWrapperFormatStr, prompt)`: the format string has one
verb, `%s`, where the prompt goes. -/
def promptWrapperFormatStr (prompt : String) : String :=
  "The user's latest prompt:\n```\n" ++ prompt ++
    "\n```\n\n Please respond according to the 'Your instructions' section above. Remember to precede code blocks with the file path *exactly* as described in 2a. Do not use any other formatting for file paths."

def systemHeadNumTokens {Ctx : Type} (E : Externals Ctx) : Int :=
  E.GetNumTokens E.systemMessageHead

def promptWrapperTokens {Ctx : Type} (E : Externals Ctx) : Int :=
  E.GetNumTokens (promptWrapperFormatStr "")

/-- The fields of `types.Proposal` that `CreateProposal` fills in (the cancel function of
its `ProposalStage` is left out). -/
structure Proposal (Ctx : Type) where
  Id : String
  ParentId : String
  IsRoot : Bool
  RootId : String
  Request : PromptRequest Ctx
  Content : String

namespace CreateProposal

/-- The variable `totalTokens` of lines 113-114: the budget used before the conversation,
`systemHeadNumTokens + contextTokens + promptTokens`. -/
def totalTokens {Ctx : Type} (E : Externals Ctx) (req : PromptRequest Ctx) : Int :=
  let contextTokens := (E.FormatModelContext req.ModelContext).2
  let promptTokens := GoInt.add (promptWrapperTokens E) (E.GetNumTokens req.Prompt)
  GoInt.add (GoInt.add (systemHeadNumTokens E) contextTokens) promptTokens

/-- The loop of lines 131-135 from a given state: it adds up `conversationTokens` and
records the running sum under each message's timestamp. -/
def convoLoop :
    List ConversationMessage → Int → GoMap Int → Int × GoMap Int
  | [], conversationTokens, tokensUpToTimestamp => (conversationTokens, tokensUpToTimestamp)
  | convoMessage :: rest, conversationTokens, tokensUpToTimestamp =>
    let conversationTokens := GoInt.add conversationTokens convoMessage.Tokens
    convoLoop rest conversationTokens
      (tokensUpToTimestamp.set convoMessage.Timestamp conversationTokens)

/-- The variable `conversationTokens` after the loop of lines 129-135. -/
def conversationTokens (conversation : List ConversationMessage) : Int :=
  (convoLoop conversation 0 []).1

/-- The map `tokensUpToTimestamp` after the loop of lines 129-135. -/
def tokensUpToTimestamp (conversation : List ConversationMessage) : GoMap Int :=
  (convoLoop conversation 0 []).2

/-- The loop of lines 145-168 over the summaries still to be read: `.error` is the
early return of line 153, `.ok (some s)` the `break` of line 166 with `summary = &s`,
`.ok none` the end of the list with `summary` still nil. -/
def selectSummary (MaxTokens totalTokens conversationTokens : Int)
    (tokensUpToTimestamp : GoMap Int) :
    List ConversationSummary → Except String (Option ConversationSummary)
  | [] => .ok none
  | s :: rest =>
    match tokensUpToTimestamp.get? s.LastMessageTimestamp with
    | none => .error "conversation summary timestamp not found in conversation"
    | some tokens =>
      let updatedConversationTokens :=
        GoInt.add (GoInt.sub conversationTokens tokens) s.Tokens
      if GoInt.add totalTokens updatedConversationTokens ≤ MaxTokens then .ok (some s)
      else selectSummary MaxTokens totalTokens conversationTokens tokensUpToTimestamp rest

/-- The loop of lines 178-180: append every conversation message. -/
def appendAll :
    List ConversationMessage → List ChatCompletionMessage → List ChatCompletionMessage
  | [], messages => messages
  | convoMessage :: rest, messages => appendAll rest (messages ++ [convoMessage.Message])

/-- The loop of lines 193-197: append the messages whose timestamp is greater than the
summary's. -/
def appendAfter (summary : ConversationSummary) :
    List ConversationMessage → List ChatCompletionMessage → List ChatCompletionMessage
  | [], messages => messages
  | convoMessage :: rest, messages =>
    if stringLess summary.LastMessageTimestamp convoMessage.Timestamp then
      appendAfter summary rest (messages ++ [convoMessage.Message])
    else appendAfter summary rest messages

/-- What lines 102-205 leave behind when they do not return early. -/
structure Assembled where
  messages : List ChatCompletionMessage
  summary : Option ConversationSummary
  deriving DecidableEq, Repr

/-- Lines 102-205 of `CreateProposal`, prompt assembly: `.error` is an early `return err`. -/
def assemble {Ctx : Type} (E : Externals Ctx) (req : PromptRequest Ctx) :
    Except String Assembled :=
  let contextText := (E.FormatModelContext req.ModelContext).1
  let systemMessageText := E.systemMessageHead ++ contextText
  let systemMessage : ChatCompletionMessage :=
    { Role := openai.ChatMessageRoleSystem, Content := systemMessageText }
  let messages := [systemMessage]
  let totalTokens := totalTokens E req
  if totalTokens > E.MaxTokens then
    .error "token limit exceeded before adding conversation"
  else
    let conversationTokens := conversationTokens req.Conversation
    let tokensUpToTimestamp := tokensUpToTimestamp req.Conversation
    let selected : Except String (Option ConversationSummary) :=
      if GoInt.add totalTokens conversationTokens > E.MaxTokens then
        match selectSummary E.MaxTokens totalTokens conversationTokens tokensUpToTimestamp
            req.ConversationSummaries with
        | .error err => .error err
        | .ok none => .error "couldn't get under token limit with conversation summary"
        | .ok (some s) => .ok (some s)
      else .ok none
    let promptMessage : ChatCompletionMessage :=
      { Role := openai.ChatMessageRoleUser, Content := promptWrapperFormatStr req.Prompt }
    match selected with
    | .error err => .error err
    | .ok none =>
      let messages := appendAll req.Conversation messages
      .ok { messages := messages ++ [promptMessage], summary := none }
    | .ok (some summary) =>
      if GoInt.add totalTokens summary.Tokens > E.MaxTokens then
        .error "token limit still exceeded after summarizing conversation"
      else
        let messages := messages ++
          [{ Role := openai.ChatMessageRoleAssistant, Content := summary.Summary }]
        let messages := appendAfter summary req.Conversation messages
        .ok { messages := messages ++ [promptMessage], summary := some summary }

/-- What one run of `CreateProposal` reads from its surroundings before it starts the
goroutine: the environment variable `GOENV`, the result of `uuid.NewRandom()` (the id as
text, or the error), and the error of `model.Client.CreateChatCompletionStream` (`none`
for nil). -/
structure Run where
  goEnv : String
  NewRandom : Except String String
  CreateChatCompletionStream : Option String

/-- The fields of `openai.ChatCompletionStreamChoice` that the goroutine reads;
`Content` is `Delta.Content`. -/
structure ChatCompletionStreamChoice where
  FinishReason : String
  Content : String
  deriving DecidableEq, Repr

/-- The field of `openai.ChatCompletionStreamResponse` that the goroutine reads. -/
structure ChatCompletionStreamResponse where
  Choices : List ChatCompletionStreamChoice
  deriving DecidableEq, Repr

/-- The struct `shared.PlanDescription`, declared outside `src/`: the four fields
`CreateProposal` sets, and the commit message the specification gives it. -/
structure PlanDescription where
  MadePlan : Bool
  CommitMsg : String
  Files : List String
  ResponseTimestamp : String
  SummarizedToTimestamp : String
  deriving DecidableEq, Repr

/-- The first three results of `replyInfo.FinishAndRead()`. -/
structure ReplyFiles where
  files : List String
  fileContents : GoMap String
  numTokensByFile : GoMap Int
  deriving DecidableEq, Repr

/-- What the goroutine of `CreateProposal` takes from outside `src/`: the text of the
sentinel `shared.STREAM_FINISHED`, the clock `shared.StringTs`, the reply parser
(`FinishAndRead` after the contents handed to `AddToken`, in order),
`genPlanDescriptionJson`, `json.Marshal`, and `buildPlan` (the calls it makes of the
`onStream` it is handed, as payload and error, and the error it returns). -/
structure StreamWorld where
  STREAM_FINISHED : String
  StringTs : String
  FinishAndRead : List String → ReplyFiles
  genPlanDescriptionJson : Except String PlanDescription
  Marshal : PlanDescription → Except String String
  buildPlan : GoMap String → GoMap Int → List (String × Option String) × Option String

/-- One turn of the `select` of the goroutine: the context is done, the timer has
fired, or (the `default` case) `stream.Recv()` returns a response or an error. -/
inductive Tick where
  | ctxDone
  | timer
  | recv (response : Except String ChatCompletionStreamResponse)

/-- The payload of a call of `onStream`, by the expression that produces it (the text
of the sentinels `shared.STREAM_...` is declared outside `src/`): the proposal id of
line 100, a content chunk of line 419, a sentinel, the JSON of line 398, the empty
payload of an error callback (line 244), or a payload that `buildPlan` sends. -/
inductive Payload where
  | proposalId (proposalId : String)
  | content (content : String)
  | STREAM_DESCRIPTION_PHASE
  | planDescriptionJson (json : String)
  | STREAM_FINISHED
  | STREAM_BUILD_PHASE
  | empty
  | build (payload : String)
  deriving DecidableEq, Repr

/-- The closures handed to `proposals.Update`: `proposal.SetErr(err)`,
`proposal.Finish(planDescription)` and `proposal.Content += content`. -/
inductive ProposalUpdate where
  | SetErr (err : String)
  | Finish (planDescription : PlanDescription)
  | appendContent (content : String)
  deriving DecidableEq, Repr

/-- The actions of `CreateProposal` and of its goroutine on their collaborators, in
program order (printing is left out). -/
inductive Effect (Ctx : Type) where
  | streamLoremIpsum
  | onStream (payload : Payload) (err : Option String)
  | proposalsSet (proposalId : String) (proposal : Proposal Ctx)
  | CreateChatCompletionStream (Messages : List ChatCompletionMessage)
  | proposalsDelete (proposalId : String)
  | proposalsUpdate (proposalId : String) (update : ProposalUpdate)
  | convoSummaryProcsSet (rootId : String)
  | goPlanSummary (rootId : String) (summaryMessages : List ChatCompletionMessage)
      (responseTs : String) (numMessages : Int)
  | buildPlan (proposalId : String) (fileContents : GoMap String)
      (numTokensByFile : GoMap Int)
  | streamClose

/-- What the goroutine closes over: the proposal as built (`proposal.Id`,
`proposal.RootId`), the summary that prompt assembly chose, and the prompt message. -/
structure Describe (Ctx : Type) where
  proposal : Proposal Ctx
  summary : Option ConversationSummary
  promptMessage : ChatCompletionMessage

/-- The error `CreateProposal` returns (`none` for nil), what it did before returning,
and the goroutine it started, if any. -/
structure Outcome (Ctx : Type) where
  err : Option String
  effects : List (Effect Ctx)
  spawned : Option (Describe Ctx)

/-- Lines 84-98: the proposal that `CreateProposal` builds for a generated id. -/
def newProposal {Ctx : Type} (proposalId : String) (req : PromptRequest Ctx) :
    Proposal Ctx :=
  let rootId := if req.RootProposalId = "" then proposalId else req.RootProposalId
  { Id := proposalId,
    ParentId := req.ParentProposalId,
    IsRoot := req.ParentProposalId = "",
    RootId := rootId,
    Request := req,
    Content := "" }

/-- The closure `onError` of lines 238-245. -/
def onError {Ctx : Type} (proposalId : String) (err : String) : List (Effect Ctx) :=
  [.proposalsUpdate proposalId (.SetErr err), .onStream .empty (some err)]

/-- Lines 315-337: the messages the summary goroutine sends to `model.PlanSummary`;
`content` is `proposal.Content` when it runs. -/
def summaryMessages {Ctx : Type} (req : PromptRequest Ctx)
    (promptMessage : ChatCompletionMessage) (content : String) :
    List ChatCompletionMessage :=
  let latestSummary := req.ConversationSummaries.getLast?
  let summaryMessages : List ChatCompletionMessage :=
    match latestSummary with
    | none => req.Conversation.map (fun convoMessage => convoMessage.Message)
    | some latestSummary =>
      [{ Role := openai.ChatMessageRoleAssistant, Content := latestSummary.Summary }]
  summaryMessages ++
    [promptMessage, { Role := openai.ChatMessageRoleAssistant, Content := content }]

/-- Lines 316-321 and 339: the count handed to `model.PlanSummary`,
`numMessagesSummarized + 1`. -/
def summaryNumMessages {Ctx : Type} (req : PromptRequest Ctx) : Int :=
  match req.ConversationSummaries.getLast? with
  | none => GoInt.add 0 1
  | some latestSummary => GoInt.add latestSummary.NumMessages 1

/-- How the goroutine stands after the turns it was given: still in its loop, or
returned at one of its `return` statements. -/
inductive Exit where
  | running
  | cancelled
  | timeout
  | streamError
  | noChoices
  | manyChoices
  | descriptionFailed
  | marshalFailed
  | finishedNoFiles
  | built
  | buildFailed
  deriving DecidableEq, Repr

/-- Lines 296-356: when the request has a conversation, the summary task is registered
and started; `tokens` are the contents received so far, `proposal.Content` being their
concatenation. -/
def startSummary {Ctx : Type} (req : PromptRequest Ctx) (d : Describe Ctx)
    (tokens : List String) (responseTs : String) : List (Effect Ctx) :=
  if req.Conversation.length > 0 then
    [.convoSummaryProcsSet d.proposal.RootId,
      .goPlanSummary d.proposal.RootId
        (summaryMessages req d.promptMessage (String.join tokens)) responseTs
        (summaryNumMessages req)]
  else []

/-- Lines 360-378: the plan description, for the files the reply parser reports. -/
def describe (W : StreamWorld) (reply : ReplyFiles) (responseTs : String) :
    Except String PlanDescription :=
  if reply.files.length = 0 then
    .ok { MadePlan := false, CommitMsg := "", Files := [], ResponseTimestamp := responseTs,
          SummarizedToTimestamp := "" }
  else
    match W.genPlanDescriptionJson with
    | .error err => .error err
    | .ok planDescription =>
      .ok { planDescription with
            MadePlan := true, Files := reply.files, ResponseTimestamp := responseTs }

/-- Lines 380-382: the description is stamped with the timestamp of the summary that
prompt assembly used, if it used one. -/
def summarizedTo (summary : Option ConversationSummary) (planDescription : PlanDescription) :
    PlanDescription :=
  match summary with
  | some summary =>
    { planDescription with SummarizedToTimestamp := summary.LastMessageTimestamp }
  | none => planDescription

/-- Lines 292-410: the branch of a chunk whose single choice has a finish reason;
`tokens` are the contents received so far. The deferred `stream.Close()` is added by
`describeLoop`. -/
def finish {Ctx : Type} (W : StreamWorld) (req : PromptRequest Ctx) (d : Describe Ctx)
    (tokens : List String) : List (Effect Ctx) × Exit :=
  let proposalId := d.proposal.Id
  let responseTs := W.StringTs
  let head : List (Effect Ctx) :=
    .onStream .STREAM_DESCRIPTION_PHASE none :: startSummary req d tokens responseTs
  let reply := W.FinishAndRead tokens
  match describe W reply responseTs with
  | .error err =>
    (head ++ onError proposalId ("failed to generate plan description json: " ++ err),
      .descriptionFailed)
  | .ok planDescription =>
    let planDescription := summarizedTo d.summary planDescription
    match W.Marshal planDescription with
    | .error err =>
      (head ++ onError proposalId ("failed to marshal plan description: " ++ err),
        .marshalFailed)
    | .ok planDescriptionJson =>
      let stored : List (Effect Ctx) := head ++
        [.proposalsUpdate proposalId (.Finish planDescription),
          .onStream (.planDescriptionJson planDescriptionJson) none]
      if reply.files.length = 0 then
        (stored ++ [.onStream .STREAM_FINISHED none], .finishedNoFiles)
      else
        let result := W.buildPlan reply.fileContents reply.numTokensByFile
        let building : List (Effect Ctx) := stored ++
          [.onStream .STREAM_BUILD_PHASE none,
            .buildPlan proposalId reply.fileContents reply.numTokensByFile] ++
          result.1.map (fun callback => .onStream (.build callback.1) callback.2)
        match result.2 with
        | some err =>
          (building ++ onError proposalId ("failed to confirm proposal: " ++ err),
            .buildFailed)
        | none => (building, .built)

/-- The goroutine of lines 247-424 over the turns of its `select`, with the contents
received so far in `tokens`. When it returns, the deferred `stream.Close()` runs last;
when the turns end first it is still in its loop. -/
def describeLoop {Ctx : Type} (W : StreamWorld) (req : PromptRequest Ctx)
    (d : Describe Ctx) : List Tick → List String → List (Effect Ctx) × Exit
  | [], _ => ([], .running)
  | .ctxDone :: _, _ => ([.streamClose], .cancelled)
  | .timer :: _, _ =>
    (onError d.proposal.Id "stream timeout due to inactivity" ++ [.streamClose], .timeout)
  | .recv (.error err) :: _, _ =>
    (onError d.proposal.Id ("stream error: " ++ err) ++ [.streamClose], .streamError)
  | .recv (.ok response) :: rest, tokens =>
    match response.Choices with
    | [] =>
      (onError d.proposal.Id "stream finished with no choices" ++ [.streamClose], .noChoices)
    | _ :: _ :: _ =>
      (onError d.proposal.Id "stream finished with more than one choice" ++ [.streamClose],
        .manyChoices)
    | [choice] =>
      if choice.FinishReason ≠ "" then
        let (effects, exit) := finish W req d tokens
        (effects ++ [.streamClose], exit)
      else
        let content := choice.Content
        let (effects, exit) := describeLoop W req d rest (tokens ++ [content])
        (.proposalsUpdate d.proposal.Id (.appendContent content) ::
          .onStream (.content content) none :: effects, exit)

end CreateProposal

open CreateProposal in
/-- The function `CreateProposal`, lines 66-247 and 426: everything up to the `go`
statement, with the goroutine it starts given by what that closes over. -/
def CreateProposal {Ctx : Type} (E : Externals Ctx) (R : Run) (req : PromptRequest Ctx) :
    Outcome Ctx :=
  if R.goEnv = "test" then
    { err := none, effects := [.streamLoremIpsum], spawned := none }
  else
    match R.NewRandom with
    | .error err => { err := some err, effects := [], spawned := none }
    | .ok proposalId =>
      let proposal := newProposal proposalId req
      let started : List (Effect Ctx) := [.onStream (.proposalId proposalId) none]
      match assemble E req with
      | .error err => { err := some err, effects := started, spawned := none }
      | .ok assembled =>
        let promptMessage : ChatCompletionMessage :=
          { Role := openai.ChatMessageRoleUser, Content := promptWrapperFormatStr req.Prompt }
        let opened := started ++
          [.proposalsSet proposalId proposal, .CreateChatCompletionStream assembled.messages]
        match R.CreateChatCompletionStream with
        | some err =>
          { err := some err, effects := opened ++ [.proposalsDelete proposalId],
            spawned := none }
        | none =>
          { err := none, effects := opened,
            spawned := some
              { proposal := proposal, summary := assembled.summary,
                promptMessage := promptMessage } }

namespace CreateProposal

/-- Everything a run of `CreateProposal` does: its own actions, then those of the
goroutine over the turns `ticks`. -/
def trace {Ctx : Type} (E : Externals Ctx) (R : Run) (W : StreamWorld)
    (req : PromptRequest Ctx) (ticks : List Tick) : List (Effect Ctx) :=
  let outcome := CreateProposal E R req
  match outcome.spawned with
  | none => outcome.effects
  | some d => outcome.effects ++ (describeLoop W req d ticks []).1

/-- The calls of `onStream` in a list of actions, in order. -/
def callbacks {Ctx : Type} : List (Effect Ctx) → List (Payload × Option String)
  | [] => []
  | .onStream payload err :: rest => (payload, err) :: callbacks rest
  | _ :: rest => callbacks rest

/-- A terminal callback: the payload is the sentinel `STREAM_FINISHED`, or the payload is
empty and the error is not nil. A callback made by `buildPlan` is judged by the text it
sends. -/
def isTerminal (W : StreamWorld) : Payload × Option String → Bool
  | (.STREAM_FINISHED, _) => true
  | (.empty, some _) => true
  | (.build payload, err) =>
    decide (payload = W.STREAM_FINISHED) || (decide (payload = "") && err.isSome)
  | _ => false

/-- The state the registry keeps for a proposal: the proposal with its content, the
error `SetErr` records and the description `Finish` records. -/
structure Registered (Ctx : Type) where
  proposal : Proposal Ctx
  Err : Option String
  PlanDescription : Option PlanDescription

/-- Modelled from the spec: the closures that `CreateProposal` hands to
`proposals.Update` call `SetErr` and `Finish`, methods declared outside `src/`; they are
taken to record the error and the description on the proposal. -/
def Registered.update {Ctx : Type} (entry : Registered Ctx) :
    ProposalUpdate → Registered Ctx
  | .SetErr err => { entry with Err := some err }
  | .Finish planDescription => { entry with PlanDescription := some planDescription }
  | .appendContent content =>
    { entry with proposal := { entry.proposal with Content := entry.proposal.Content ++ content } }

/-- The deletion `delete(m, k)` of a Go map. -/
def erase {V : Type} : GoMap V → String → GoMap V
  | [], _ => []
  | (k', v') :: rest, k => if k' = k then rest else (k', v') :: erase rest k

/-- Modelled from the spec: the proposal registry `proposals`, declared outside `src/`, a
map from `proposalId` to the proposal with the operations `set(id, proposal)`,
`update(id, fn)` (`fn` changes the entry of `id` in place) and `delete(id)`. This is one
call of `CreateProposal` or its goroutine applied to the registry; what `buildPlan` does
to the registry once it is called is not in `src/` and is not followed here. -/
def registryStep {Ctx : Type} (registry : GoMap (Registered Ctx)) :
    Effect Ctx → GoMap (Registered Ctx)
  | .proposalsSet proposalId proposal =>
    registry.set proposalId { proposal := proposal, Err := none, PlanDescription := none }
  | .proposalsUpdate proposalId update =>
    match registry.get? proposalId with
    | some entry => registry.set proposalId (entry.update update)
    | none => registry
  | .proposalsDelete proposalId => erase registry proposalId
  | _ => registry

/-- The registry as the calls that `CreateProposal` and its goroutine make on it leave
it, from the empty registry. -/
def registryAfter {Ctx : Type} (effects : List (Effect Ctx)) : GoMap (Registered Ctx) :=
  effects.foldl registryStep []

end CreateProposal

/-! ## Capability sets, in the words of the specification -/

/-- The six capabilities of the specification's data model. -/
inductive Capability where
  | openaiCompatible
  | jsonResponseMode
  | streaming
  | functionCalling
  | streamingFunctionCalls
  | imageSupport
  deriving DecidableEq, Fintype, Repr

/-- Whether a `ModelCompatibility` has a capability: the struct field of that name. -/
def ModelCompatibility.has (c : ModelCompatibility) : Capability → Bool
  | .openaiCompatible => c.IsOpenAICompatible
  | .jsonResponseMode => c.HasJsonResponseMode
  | .streaming => c.HasStreaming
  | .functionCalling => c.HasFunctionCalling
  | .streamingFunctionCalls => c.HasStreamingFunctionCalls
  | .imageSupport => c.HasImageSupport

/-- The capability set of a `ModelCompatibility`. -/
def ModelCompatibility.capabilities (c : ModelCompatibility) : Finset Capability :=
  Finset.univ.filter fun cap => c.has cap = true

/-- A model satisfies a role when its capability set is a superset of the set the role
requires. -/
def Satisfies (model : AvailableModel) (role : ModelRole) : Prop :=
  (RequiredCompatibilityByRole role).capabilities ⊆
    model.BaseModelConfig.ModelCompatibility.capabilities

instance (model : AvailableModel) (role : ModelRole) : Decidable (Satisfies model role) := by
  unfold Satisfies
  infer_instance

/-! ## `fs_helper.go` -/

def maxRetries : Nat := 10

/-- The constant `initialRetryInterval`, in milliseconds. -/
def initialRetryInterval : Nat := 100

/-- What `lockRepo` and the release function it returns read from the database layer:
the result of the `i`-th call of `db.LockRepo` (counted from 0; the lock id, or the
error), and the errors of `db.GitClearUncommittedChanges` and `db.DeleteRepoLock`
(`none` for nil). -/
structure LockWorld where
  LockRepo : Nat → Except String String
  GitClearUncommittedChanges : Option String
  DeleteRepoLock : Option String

/-- The actions of `lockRepo` and of the release function, in program order (log lines
are left out); `Sleep` carries the duration in milliseconds. -/
inductive LockEffect where
  | httpError (message : String) (status : Nat)
  | LockRepo (attempt : Nat)
  | Sleep (ms : Nat)
  | GitClearUncommittedChanges (orgId planId : String)
  | DeleteRepoLock (repoLockId : String)
  deriving DecidableEq, Repr

/-- The retry loop of `lockRepo` with `remaining` iterations to go, entered with loop
counter `i`, the current `backoff`, and the variables `repoLockId` and `err`. It returns
what it did and the two variables as the loop leaves them. -/
def lockRepo.loop (W : LockWorld) :
    (remaining i backoff : Nat) → (repoLockId : String) → (err : Option String) →
      List LockEffect × String × Option String
  | 0, _, _, repoLockId, err => ([], repoLockId, err)
  | remaining + 1, i, backoff, _, _ =>
    match W.LockRepo i with
    | .ok repoLockId => ([.LockRepo i], repoLockId, none)
    | .error err =>
      if i < maxRetries - 1 then
        let (effects, result) := lockRepo.loop W remaining (i + 1) (backoff * 2) "" (some err)
        (.LockRepo i :: .Sleep backoff :: effects, result)
      else
        let (effects, result) := lockRepo.loop W remaining (i + 1) backoff "" (some err)
        (.LockRepo i :: effects, result)

/-- The function `lockRepo`: what it did, and the `repoLockId` the returned release
function has captured (`none` when `lockRepo` returns nil). -/
def lockRepo (W : LockWorld) (branch : String) (requireBranch : Bool) :
    List LockEffect × Option String :=
  if requireBranch && branch == "" then
    ([.httpError "Branch not specified" 400], none)
  else
    match lockRepo.loop W maxRetries 0 initialRetryInterval "" none with
    | (effects, _, some err) =>
      (effects ++ [.httpError ("Error locking repo: " ++ err) 500], none)
    | (effects, repoLockId, none) => (effects, some repoLockId)

/-- The function `RollbackRepoIfErr`: the error it returns and what it did. -/
def RollbackRepoIfErr (W : LockWorld) (orgId planId : String) (err : Option String) :
    Option String × List LockEffect :=
  match err with
  | none => (none, [])
  | some _ =>
    match W.GitClearUncommittedChanges with
    | some err => (some ("error clearing uncommitted changes: " ++ err),
        [.GitClearUncommittedChanges orgId planId])
    | none => (none, [.GitClearUncommittedChanges orgId planId])

/-- The release function `fn` that `lockRepo` returns, closed over `orgId`, `planId` and
`repoLockId`; `recovered` is what `recover()` yields, printed with `%v` (`none` for nil). -/
def lockRepo.fn (W : LockWorld) (orgId planId repoLockId : String) (err : Option String)
    (recovered : Option String) : List LockEffect :=
  let (err, panicEffects) : Option String × List LockEffect :=
    match recovered with
    | some r =>
      (some ("server panic: " ++ r),
        [.httpError ("Error locking repo: " ++ ("server panic: " ++ r)) 500])
    | none => (err, [])
  let (_, rollbackEffects) := RollbackRepoIfErr W orgId planId err
  panicEffects ++ rollbackEffects ++ [.DeleteRepoLock repoLockId]

/-- The attempts `LockRepo 0 .. LockRepo j` with the back-off sleeps between them: after
attempt `k` (the `(k+1)`-th) a sleep of `100 * 2^k` ms. -/
def lockRepo.attemptsUpTo (j : Nat) : List LockEffect :=
  (List.range j).flatMap (fun k => [.LockRepo k, .Sleep (100 * 2 ^ k)]) ++ [.LockRepo j]

/-- The milliseconds slept in a list of actions. -/
def LockEffect.slept : List LockEffect → Nat
  | [] => 0
  | .Sleep ms :: rest => ms + LockEffect.slept rest
  | _ :: rest => LockEffect.slept rest

/-- The attempts made in a list of actions, in order. -/
def LockEffect.attempts : List LockEffect → List Nat
  | [] => []
  | .LockRepo i :: rest => i :: LockEffect.attempts rest
  | _ :: rest => LockEffect.attempts rest

/-- The lock ids handed to `db.DeleteRepoLock` in a list of actions, in order. -/
def LockEffect.deleted : List LockEffect → List String
  | [] => []
  | .DeleteRepoLock repoLockId :: rest => repoLockId :: LockEffect.deleted rest
  | _ :: rest => LockEffect.deleted rest

/-- Whether a list of actions clears the uncommitted changes of the repository. -/
def LockEffect.clears (effects : List LockEffect) : Bool :=
  effects.any fun x => x matches .GitClearUncommittedChanges _ _

/-- A database whose `db.LockRepo` fails on every call, as it does once the lock context
is done. -/
def lockWorldCancelled : LockWorld :=
  { LockRepo := fun _ => .error "context canceled",
    GitClearUncommittedChanges := none,
    DeleteRepoLock := none }

/-- A database whose `db.LockRepo` fails twice and then grants the lock. -/
def lockWorldThird : LockWorld :=
  { LockRepo := fun i => if i < 2 then .error "locked" else .ok "lock-1",
    GitClearUncommittedChanges := none,
    DeleteRepoLock := none }

/-- The columns of the catalog that do not depend on the provider tables: model name,
capabilities, `DefaultMaxConvoTokens`, `DefaultReservedOutputTokens`, `MaxTokens`. -/
def AvailableModel.row (model : AvailableModel) :
    String × ModelCompatibility × Int × Int × Int :=
  (model.BaseModelConfig.ModelName, model.BaseModelConfig.ModelCompatibility,
    model.DefaultMaxConvoTokens, model.DefaultReservedOutputTokens,
    model.BaseModelConfig.MaxTokens)

/-- The rows of `AvailableModels`, written out (`AvailableModels_rows` proves them). -/
def AvailableModels.rows : List (String × ModelCompatibility × Int × Int × Int) :=
  [
    ("gpt-4o-2024-08-06", ⟨true, true, true, true, true, true⟩, 10000, 4096, 128000),
    ("gpt-4o-mini", ⟨true, true, true, true, true, true⟩, 10000, 4096, 128000),
    ("gpt-4o", ⟨true, true, true, true, true, true⟩, 10000, 4096, 128000),
    ("gpt-4o-2024-05-13", ⟨true, true, true, true, true, true⟩, 10000, 4096, 128000),
    ("gpt-4-turbo", ⟨true, true, true, true, true, false⟩, 10000, 4096, 128000),
    ("gpt-4-turbo-2024-04-09", ⟨true, true, true, true, true, false⟩, 10000, 4096, 128000),
    ("gpt-4", ⟨true, false, true, true, true, false⟩, 2500, 1000, 8000),
    ("gpt-3.5-turbo", ⟨true, true, true, true, true, false⟩, 5000, 2000, 16385),
    ("gpt-3.5-turbo-0125", ⟨true, true, true, true, true, false⟩, 5000, 2000, 16385),
    ("gpt-3.5-turbo-1106", ⟨true, true, true, true, true, false⟩, 5000, 2000, 16385),
    ("anthropic/claude-3.5-sonnet", ⟨true, true, true, true, false, true⟩, 15000, 4096, 200000),
    ("anthropic/claude-3-opus", ⟨true, true, true, true, false, false⟩, 15000, 4096, 200000),
    ("anthropic/claude-3-sonnet", ⟨true, true, true, true, false, false⟩, 15000, 4096, 200000),
    ("anthropic/claude-3-haiku", ⟨true, true, true, true, false, true⟩, 15000, 4096, 200000),
    ("mistralai/Mixtral-8x22B-Instruct-v0.1", ⟨true, false, true, false, false, false⟩, 10000, 4096, 65536),
    ("mistralai/Mixtral-8x7B-Instruct-v0.1", ⟨true, true, true, true, false, false⟩, 5000, 4096, 32768),
    ("togethercomputer/CodeLlama-34b-Instruct", ⟨true, true, true, true, false, false⟩, 10000, 4096, 16384),
    ("google/gemini-pro-1.5", ⟨true, true, true, true, false, true⟩, 100000, 22937, 2800000),
    ("google/gemini-pro-1.5-exp", ⟨true, true, true, true, false, true⟩, 100000, 22937, 2800000) ]

/-- The columns of a pack that do not depend on the provider tables: its name, the role,
model name and capabilities of each of its six slots, and the planner's two limits. -/
def ModelPack.row (pack : ModelPack) :
    String × List (ModelRole × String × ModelCompatibility) × Int × Int :=
  (pack.Name,
    pack.slots.map (fun slot =>
      (slot.Role, slot.BaseModelConfig.ModelName, slot.BaseModelConfig.ModelCompatibility)),
    pack.Planner.PlannerModelConfig.MaxConvoTokens,
    pack.Planner.PlannerModelConfig.ReservedOutputTokens)

/-- The rows of the `BuiltInModelPacks` that `init` builds, written out
(`init_rows` proves them). -/
def BuiltInModelPacks.rows :
    List (String × List (ModelRole × String × ModelCompatibility) × Int × Int) :=
  [
    ("GPT-4o Latest",
      [
       (ModelRolePlanner, "gpt-4o-2024-08-06", ⟨true, true, true, true, true, true⟩),
       (ModelRolePlanSummary, "gpt-4o-2024-08-06", ⟨true, true, true, true, true, true⟩),
       (ModelRoleBuilder, "gpt-4o-2024-08-06", ⟨true, true, true, true, true, true⟩),
       (ModelRoleName, "gpt-4o-2024-08-06", ⟨true, true, true, true, true, true⟩),
       (ModelRoleCommitMsg, "gpt-4o-2024-08-06", ⟨true, true, true, true, true, true⟩),
       (ModelRoleExecStatus, "gpt-4o-2024-08-06", ⟨true, true, true, true, true, true⟩) ],
      10000, 4096),
    ("GPT-4 Turbo Latest",
      [
       (ModelRolePlanner, "gpt-4-turbo", ⟨true, true, true, true, true, false⟩),
       (ModelRolePlanSummary, "gpt-4-turbo", ⟨true, true, true, true, true, false⟩),
       (ModelRoleBuilder, "gpt-4-turbo", ⟨true, true, true, true, true, false⟩),
       (ModelRoleName, "gpt-4-turbo", ⟨true, true, true, true, true, false⟩),
       (ModelRoleCommitMsg, "gpt-4-turbo", ⟨true, true, true, true, true, false⟩),
       (ModelRoleExecStatus, "gpt-4-turbo", ⟨true, true, true, true, true, false⟩) ],
      10000, 4096),
    ("Claude 3.5 Sonnet",
      [
       (ModelRolePlanner, "anthropic/claude-3.5-sonnet", ⟨true, true, true, true, false, true⟩),
       (ModelRolePlanSummary, "anthropic/claude-3.5-sonnet", ⟨true, true, true, true, false, true⟩),
       (ModelRoleBuilder, "anthropic/claude-3.5-sonnet", ⟨true, true, true, true, false, true⟩),
       (ModelRoleName, "anthropic/claude-3.5-sonnet", ⟨true, true, true, true, false, true⟩),
       (ModelRoleCommitMsg, "anthropic/claude-3.5-sonnet", ⟨true, true, true, true, false, true⟩),
       (ModelRoleExecStatus, "anthropic/claude-3.5-sonnet", ⟨true, true, true, true, false, true⟩) ],
      15000, 4096),
    ("Claude 3.5 Sonnet + GPT-4o",
      [
       (ModelRolePlanner, "anthropic/claude-3.5-sonnet", ⟨true, true, true, true, false, true⟩),
       (ModelRolePlanSummary, "anthropic/claude-3.5-sonnet", ⟨true, true, true, true, false, true⟩),
       (ModelRoleBuilder, "anthropic/claude-3.5-sonnet", ⟨true, true, true, true, false, true⟩),
       (ModelRoleName, "gpt-4o-2024-08-06", ⟨true, true, true, true, true, true⟩),
       (ModelRoleCommitMsg, "gpt-4o-2024-08-06", ⟨true, true, true, true, true, true⟩),
       (ModelRoleExecStatus, "gpt-4o-2024-08-06", ⟨true, true, true, true, true, true⟩) ],
      15000, 4096),
    ("Mixtral 8x22B",
      [
       (ModelRolePlanner, "mistralai/Mixtral-8x22B-Instruct-v0.1", ⟨true, false, true, false, false, false⟩),
       (ModelRolePlanSummary, "mistralai/Mixtral-8x22B-Instruct-v0.1", ⟨true, false, true, false, false, false⟩),
       (ModelRoleBuilder, "mistralai/Mixtral-8x22B-Instruct-v0.1", ⟨true, false, true, false, false, false⟩),
       (ModelRoleName, "mistralai/Mixtral-8x22B-Instruct-v0.1", ⟨true, false, true, false, false, false⟩),
       (ModelRoleCommitMsg, "mistralai/Mixtral-8x22B-Instruct-v0.1", ⟨true, false, true, false, false, false⟩),
       (ModelRoleExecStatus, "mistralai/Mixtral-8x22B-Instruct-v0.1", ⟨true, false, true, false, false, false⟩) ],
      10000, 4096),
    ("Gemini Pro 1.5 + GPT-4o Mini",
      [
       (ModelRolePlanner, "google/gemini-pro-1.5-exp", ⟨true, true, true, true, false, true⟩),
       (ModelRolePlanSummary, "google/gemini-pro-1.5-exp", ⟨true, true, true, true, false, true⟩),
       (ModelRoleBuilder, "gpt-4o-mini", ⟨true, true, true, true, true, true⟩),
       (ModelRoleName, "gpt-4o-mini", ⟨true, true, true, true, true, true⟩),
       (ModelRoleCommitMsg, "gpt-4o-mini", ⟨true, true, true, true, true, true⟩),
       (ModelRoleExecStatus, "gpt-4o-mini", ⟨true, true, true, true, true, true⟩) ],
      100000, 22937),
    ("Gemini Pro 1.5 Experimental",
      [
       (ModelRolePlanner, "google/gemini-pro-1.5-exp", ⟨true, true, true, true, false, true⟩),
       (ModelRolePlanSummary, "google/gemini-pro-1.5-exp", ⟨true, true, true, true, false, true⟩),
       (ModelRoleBuilder, "google/gemini-pro-1.5-exp", ⟨true, true, true, true, false, true⟩),
       (ModelRoleName, "google/gemini-pro-1.5-exp", ⟨true, true, true, true, false, true⟩),
       (ModelRoleCommitMsg, "google/gemini-pro-1.5-exp", ⟨true, true, true, true, false, true⟩),
       (ModelRoleExecStatus, "google/gemini-pro-1.5-exp", ⟨true, true, true, true, false, true⟩) ],
      100000, 22937),
    ("GPT-4o Mini",
      [
       (ModelRolePlanner, "gpt-4o-mini", ⟨true, true, true, true, true, true⟩),
       (ModelRolePlanSummary, "gpt-4o-mini", ⟨true, true, true, true, true, true⟩),
       (ModelRoleBuilder, "gpt-4o-mini", ⟨true, true, true, true, true, true⟩),
       (ModelRoleName, "gpt-4o-mini", ⟨true, true, true, true, true, true⟩),
       (ModelRoleCommitMsg, "gpt-4o-mini", ⟨true, true, true, true, true, true⟩),
       (ModelRoleExecStatus, "gpt-4o-mini", ⟨true, true, true, true, true, true⟩) ],
      10000, 4096),
    ("Claude 3 Haiku",
      [
       (ModelRolePlanner, "anthropic/claude-3-haiku", ⟨true, true, true, true, false, true⟩),
       (ModelRolePlanSummary, "anthropic/claude-3-haiku", ⟨true, true, true, true, false, true⟩),
       (ModelRoleBuilder, "anthropic/claude-3-haiku", ⟨true, true, true, true, false, true⟩),
       (ModelRoleName, "anthropic/claude-3-haiku", ⟨true, true, true, true, false, true⟩),
       (ModelRoleCommitMsg, "anthropic/claude-3-haiku", ⟨true, true, true, true, false, true⟩),
       (ModelRoleExecStatus, "anthropic/claude-3-haiku", ⟨true, true, true, true, false, true⟩) ],
      15000, 4096) ]

/-- A provider table to evaluate the catalog at: the key variables the specification
names, and the providers' public base URLs. -/
def providerTablesExample : ProviderTables :=
  { ApiKeyByProvider := fun
      | ModelProviderOpenAI => OpenAIEnvVar
      | ModelProviderOpenRouter => "OPENROUTER_API_KEY"
      | ModelProviderTogether => "TOGETHER_API_KEY",
    BaseUrlByProvider := fun
      | ModelProviderOpenAI => OpenAIV1BaseUrl
      | ModelProviderOpenRouter => "https://openrouter.ai/api/v1"
      | ModelProviderTogether => "https://api.together.xyz/v1" }

namespace CreateProposal

/-- The fit test of line 163 for a summary `s`, as the code computes it: its timestamp is
a key of `tokensUpToTimestamp`, and with `tokens` the value there,
`totalTokens + ((conversationTokens - tokens) + s.Tokens) <= MaxTokens` in Go's `int`
arithmetic. -/
def Fits {Ctx : Type} (E : Externals Ctx) (req : PromptRequest Ctx)
    (s : ConversationSummary) : Prop :=
  ∃ tokens, (tokensUpToTimestamp req.Conversation).get? s.LastMessageTimestamp = some tokens ∧
    GoInt.add (totalTokens E req)
        (GoInt.add (GoInt.sub (conversationTokens req.Conversation) tokens) s.Tokens) ≤
      E.MaxTokens

/-- The system message of lines 102-107. -/
def systemMessage {Ctx : Type} (E : Externals Ctx) (req : PromptRequest Ctx) :
    ChatCompletionMessage :=
  { Role := openai.ChatMessageRoleSystem,
    Content := E.systemMessageHead ++ (E.FormatModelContext req.ModelContext).1 }

/-- The prompt message of lines 200-203. -/
def promptMessage {Ctx : Type} (req : PromptRequest Ctx) : ChatCompletionMessage :=
  { Role := openai.ChatMessageRoleUser, Content := promptWrapperFormatStr req.Prompt }

/-- The summary message of lines 187-190. -/
def summaryMessage (s : ConversationSummary) : ChatCompletionMessage :=
  { Role := openai.ChatMessageRoleAssistant, Content := s.Summary }

/-- The history messages whose timestamp is greater than the summary's, in order. -/
def after (s : ConversationSummary) (conversation : List ConversationMessage) :
    List ConversationMessage :=
  conversation.filter (fun convoMessage =>
    stringLess s.LastMessageTimestamp convoMessage.Timestamp)

/-- The sum of the `Tokens` of a list of history messages. -/
def tokenSum (conversation : List ConversationMessage) : Int :=
  (conversation.map (fun convoMessage => convoMessage.Tokens)).sum

/-- Non-decreasing timestamps, in the order `CreateProposal` compares them with: no
message has a timestamp greater than that of a later message. -/
def NonDecreasing (conversation : List ConversationMessage) : Prop :=
  conversation.Pairwise (fun earlier later => stringLess later.Timestamp earlier.Timestamp = false)

instance NonDecreasing.decidable (conversation : List ConversationMessage) :
    Decidable (NonDecreasing conversation) := by
  unfold NonDecreasing
  infer_instance

/-- The number the claims call `base`, as an exact sum:
`systemHeadNumTokens + contextTokens + promptWrapperTokens + tokens(prompt)`. -/
def baseTokens {Ctx : Type} (E : Externals Ctx) (req : PromptRequest Ctx) : Int :=
  systemHeadNumTokens E + (E.FormatModelContext req.ModelContext).2 + promptWrapperTokens E +
    E.GetNumTokens req.Prompt

/-- The number the claims call `tokensUpTo(timestamp)`, as an exact sum: the tokens of the
history up to and including the last message that bears the timestamp; `none` when no
message bears it. -/
def tokenSumUpTo (timestamp : String) : List ConversationMessage → Option Int
  | [] => none
  | convoMessage :: rest =>
    match tokenSumUpTo timestamp rest with
    | some tokens => some (convoMessage.Tokens + tokens)
    | none => if convoMessage.Timestamp = timestamp then some convoMessage.Tokens else none

/-- The fit inequality of the claims for a summary `s`, in exact arithmetic:
`base + (total(history) - tokensUpTo(s.lastMessageTimestamp)) + s.tokens <= MaxTokens`. -/
def FitsBudget {Ctx : Type} (E : Externals Ctx) (req : PromptRequest Ctx)
    (s : ConversationSummary) : Prop :=
  ∃ tokens, tokenSumUpTo s.LastMessageTimestamp req.Conversation = some tokens ∧
    baseTokens E req + (tokenSum req.Conversation - tokens) + s.Tokens ≤ E.MaxTokens

instance FitsBudget.decidable {Ctx : Type} (E : Externals Ctx) (req : PromptRequest Ctx)
    (s : ConversationSummary) : Decidable (FitsBudget E req s) :=
  match h : tokenSumUpTo s.LastMessageTimestamp req.Conversation with
  | none => isFalse (by
      rintro ⟨t, ht, _⟩
      rw [h] at ht
      exact Option.noConfusion ht)
  | some t =>
    if hfit : baseTokens E req + (tokenSum req.Conversation - t) + s.Tokens ≤ E.MaxTokens then
      isTrue ⟨t, h, hfit⟩
    else
      isFalse (by
        rintro ⟨t', ht', hfit'⟩
        rw [h] at ht'
        cases ht'
        exact hfit hfit')

/-- The token counts of the base and of the history are natural numbers, as the
specification has them (`tokens(text) → nat`). -/
def NatCounts {Ctx : Type} (E : Externals Ctx) (req : PromptRequest Ctx) : Prop :=
  0 ≤ systemHeadNumTokens E ∧ 0 ≤ (E.FormatModelContext req.ModelContext).2 ∧
    0 ≤ promptWrapperTokens E ∧ 0 ≤ E.GetNumTokens req.Prompt ∧
    ∀ convoMessage ∈ req.Conversation, 0 ≤ convoMessage.Tokens

instance NatCounts.decidable {Ctx : Type} (E : Externals Ctx) (req : PromptRequest Ctx) :
    Decidable (NatCounts E req) := by
  unfold NatCounts
  infer_instance

/-- No sum that `CreateProposal` takes leaves the range of a Go `int`: all token counts are
natural numbers, and `base + total(history)`, also with the tokens of any one supplied
summary added, stays below `2^63`. -/
def NoWrap {Ctx : Type} (E : Externals Ctx) (req : PromptRequest Ctx) : Prop :=
  NatCounts E req ∧
    baseTokens E req + tokenSum req.Conversation < 2 ^ 63 ∧
    ∀ s ∈ req.ConversationSummaries,
      0 ≤ s.Tokens ∧ baseTokens E req + tokenSum req.Conversation + s.Tokens < 2 ^ 63

instance NoWrap.decidable {Ctx : Type} (E : Externals Ctx) (req : PromptRequest Ctx) :
    Decidable (NoWrap E req) := by
  unfold NoWrap
  infer_instance

instance Fits.decidable {Ctx : Type} (E : Externals Ctx) (req : PromptRequest Ctx)
    (s : ConversationSummary) : Decidable (Fits E req s) :=
  match h : (tokensUpToTimestamp req.Conversation).get? s.LastMessageTimestamp with
  | none => isFalse (by
      rintro ⟨t, ht, _⟩
      rw [h] at ht
      exact Option.noConfusion ht)
  | some t =>
    if hfit : GoInt.add (totalTokens E req)
        (GoInt.add (GoInt.sub (conversationTokens req.Conversation) t) s.Tokens) ≤
        E.MaxTokens then
      isTrue ⟨t, h, hfit⟩
    else
      isFalse (by
        rintro ⟨t', ht', hfit'⟩
        rw [h] at ht'
        cases ht'
        exact hfit hfit')

end CreateProposal

/-- Externals to evaluate `CreateProposal` at: every text counts one token, the context
counts five, so that `totalTokens` is `1 + 5 + (1 + 1) = 8`. -/
def externalsExample (MaxTokens : Int) : Externals Unit :=
  { systemMessageHead := "HEAD",
    GetNumTokens := fun _ => 1,
    FormatModelContext := fun _ => ("ctx", 5),
    MaxTokens := MaxTokens }

/-- A history message with the given timestamp and token count. -/
def historyExample (timestamp : String) (tokens : Int) : ConversationMessage :=
  { Message := { Role := openai.ChatMessageRoleUser, Content := timestamp },
    Tokens := tokens,
    Timestamp := timestamp }

/-- A summary up to the given timestamp, with the given token count. -/
def summaryExample (timestamp : String) (tokens : Int) : ConversationSummary :=
  { LastMessageTimestamp := timestamp, NumMessages := 1, Summary := "summary", Tokens := tokens }

/-- A request with the given history and summaries. -/
def requestExample (conversation : List ConversationMessage)
    (summaries : List ConversationSummary) : PromptRequest Unit :=
  { Prompt := "hi",
    ModelContext := (),
    Conversation := conversation,
    ConversationSummaries := summaries,
    ParentProposalId := "",
    RootProposalId := "" }

/-- A run outside test mode in which the id `id-1` is generated and the stream opens. -/
def runExample : CreateProposal.Run :=
  { goEnv := "", NewRandom := .ok "id-1", CreateChatCompletionStream := none }

/-- A run in test mode. -/
def runTestMode : CreateProposal.Run :=
  { goEnv := "test", NewRandom := .ok "id-1", CreateChatCompletionStream := none }

/-- History of 60 and 50 tokens with one summary of 10 tokens up to timestamp `1`. -/
def requestSummarized : PromptRequest Unit :=
  requestExample [historyExample "1" 60, historyExample "2" 50] [summaryExample "1" 10]

/-- History of three messages, 100 tokens together, and no summary. -/
def requestSmall : PromptRequest Unit :=
  requestExample [historyExample "1" 30, historyExample "2" 30, historyExample "3" 40] []

/-- History of `2^63 - 1` and 1 tokens, the largest Go `int` and one more, with the given
summaries: the exact sum is `2^63`, the sum the code takes is `-2^63`. -/
def requestWrapped (summaries : List ConversationSummary) : PromptRequest Unit :=
  requestExample [historyExample "1" (2 ^ 63 - 1), historyExample "2" 1] summaries

/-- History of `2^63 - 1`, `2^63 - 1` and 10 tokens, with one summary of the given tokens
up to timestamp `1`: the exact sum is `2^64 + 8`, the sum the code takes is 8. -/
def requestWrappedTwice (summaryTokens : Int) : PromptRequest Unit :=
  requestExample
    [historyExample "1" (2 ^ 63 - 1), historyExample "2" (2 ^ 63 - 1), historyExample "3" 10]
    [summaryExample "1" summaryTokens]

/-- History of 60 and 50 tokens with one summary of 100 tokens up to timestamp `1`: the
summary does not bring 8 + 110 tokens under 100. -/
def requestSummaryTooLarge : PromptRequest Unit :=
  requestExample [historyExample "1" 60, historyExample "2" 50] [summaryExample "1" 100]

/-- History of one message of 200 tokens and no summary. -/
def requestNoSummary : PromptRequest Unit :=
  requestExample [historyExample "1" 200] []

/-- History of 500, 100 and 500 tokens with two summaries, in timestamp order: up to `1`
with 100 tokens, up to `2` with 450 tokens. -/
def requestTwoFits : PromptRequest Unit :=
  requestExample [historyExample "1" 500, historyExample "2" 100, historyExample "3" 500]
    [summaryExample "1" 100, summaryExample "2" 450]

/-- History of 60 and 50 tokens with a summary of 100 tokens up to timestamp `1`, which
does not fit, then a summary whose timestamp `9` is not in the history, followed by a
summary that would fit. -/
def requestUnknownTimestamp : PromptRequest Unit :=
  requestExample [historyExample "1" 60, historyExample "2" 50]
    [summaryExample "1" 100, summaryExample "9" 1, summaryExample "1" 10]

namespace CreateProposal

/-- Modelled from the spec: `buildPlan` is declared outside `src/`; the specification has
the build phase send its chunks and markers and then the terminal `STREAM_FINISHED`, an
error ending the stream instead. What is taken of `buildPlan` here: when it returns nil,
exactly one of the callbacks it has made is terminal, and it is the last; when it returns
an error, none of the callbacks it has made is terminal (lines 405-407 report the
error). -/
def buildPlanDelivers (W : StreamWorld) : Prop :=
  ∀ fileContents numTokensByFile,
    ((W.buildPlan fileContents numTokensByFile).2 = none →
      ∃ init last, (W.buildPlan fileContents numTokensByFile).1 = init ++ [last] ∧
        isTerminal W (.build last.1, last.2) = true ∧
        ∀ c ∈ init, isTerminal W (.build c.1, c.2) = false) ∧
    ((W.buildPlan fileContents numTokensByFile).2 ≠ none →
      ∀ c ∈ (W.buildPlan fileContents numTokensByFile).1,
        isTerminal W (.build c.1, c.2) = false)

/-- A stream chunk with one choice, no finish reason, and the given content. -/
def contentTick (content : String) : Tick :=
  .recv (.ok { Choices := [{ FinishReason := "", Content := content }] })

end CreateProposal

/-- A world to evaluate the goroutine at: the reply parser reports the given files, the
description and its JSON are fixed, and `buildPlan` sends one chunk, then the sentinel
`STREAM_FINISHED`, and returns nil. -/
def streamWorldExample (files : List String) : CreateProposal.StreamWorld :=
  { STREAM_FINISHED := "STREAM_FINISHED",
    StringTs := "ts-1",
    FinishAndRead := fun _ => { files := files, fileContents := [], numTokensByFile := [] },
    genPlanDescriptionJson :=
      .ok { MadePlan := false, CommitMsg := "commit", Files := [], ResponseTimestamp := "",
            SummarizedToTimestamp := "" },
    Marshal := fun _ => .ok "json",
    buildPlan := fun _ _ => ([("chunk", none), ("STREAM_FINISHED", none)], none) }

/-- A request without parent whose root proposal id is set. -/
def requestRooted : PromptRequest Unit :=
  { Prompt := "hi",
    ModelContext := (),
    Conversation := [],
    ConversationSummaries := [],
    ParentProposalId := "",
    RootProposalId := "root-1" }

/-- A run outside test mode in which the id `id-1` is generated and the stream fails to
open. -/
def runStreamFails : CreateProposal.Run :=
  { goEnv := "", NewRandom := .ok "id-1", CreateChatCompletionStream := some "status code: 400" }

/-! ## The model catalog -/

theorem Capability.forall_iff (p : Capability → Prop) :
    (∀ cap, p cap) ↔
      p .openaiCompatible ∧ p .jsonResponseMode ∧ p .streaming ∧ p .functionCalling ∧
        p .streamingFunctionCalls ∧ p .imageSupport := by
  constructor
  · intro h
    exact ⟨h _, h _, h _, h _, h _, h _⟩
  · rintro ⟨h1, h2, h3, h4, h5, h6⟩ cap
    cases cap <;> assumption

theorem capabilities_subset_iff (r m : ModelCompatibility) :
    r.capabilities ⊆ m.capabilities ↔ ∀ cap, r.has cap = true → m.has cap = true := by
  simp [ModelCompatibility.capabilities, Finset.subset_iff]

theorem FilterCompatibleModels.keep_eq_true_iff (model : AvailableModel) (role : ModelRole) :
    FilterCompatibleModels.keep (RequiredCompatibilityByRole role) model = true ↔
      Satisfies model role := by
  unfold Satisfies
  rw [capabilities_subset_iff, Capability.forall_iff]
  cases role <;>
    simp [FilterCompatibleModels.keep, RequiredCompatibilityByRole, ModelCompatibility.has]

theorem FilterCompatibleModels.loop_eq (required : ModelCompatibility)
    (models acc : List AvailableModel) :
    FilterCompatibleModels.loop required models acc =
      acc ++ models.filter (FilterCompatibleModels.keep required) := by
  induction models generalizing acc with
  | nil => simp [FilterCompatibleModels.loop]
  | cons model rest ih =>
    by_cases h : FilterCompatibleModels.keep required model = true
    · simp [FilterCompatibleModels.loop, h, ih]
    · simp [FilterCompatibleModels.loop, h, ih]

/-- C9. `FilterCompatibleModels models role` is the sublist of `models`, in input order, of
the models whose capability set (over all six capabilities) is a superset of the set the
role requires; a model is returned if and only if it is in the input and satisfies the
role. -/
theorem FilterCompatibleModels_eq_filter_satisfies (models : List AvailableModel)
    (role : ModelRole) :
    FilterCompatibleModels models role = models.filter (fun model => decide (Satisfies model role))
      ∧ (FilterCompatibleModels models role).Sublist models
      ∧ ∀ model, model ∈ FilterCompatibleModels models role ↔
          model ∈ models ∧ Satisfies model role := by
  have hk : FilterCompatibleModels.keep (RequiredCompatibilityByRole role) =
      fun model => decide (Satisfies model role) := by
    funext model
    by_cases h : Satisfies model role
    · simpa [h] using (FilterCompatibleModels.keep_eq_true_iff model role).2 h
    · have := (FilterCompatibleModels.keep_eq_true_iff model role).not.2 h
      simpa [h] using this
  have heq : FilterCompatibleModels models role =
      models.filter (fun model => decide (Satisfies model role)) := by
    unfold FilterCompatibleModels
    rw [FilterCompatibleModels.loop_eq, hk]
    simp
  refine ⟨heq, ?_, ?_⟩
  · rw [heq]
    exact List.filter_sublist models
  · intro model
    rw [heq]
    simp [List.mem_filter]

/-! ## The repository lock -/

theorem lockRepo.range_flatMap_succ (j : Nat) (f : Nat → List LockEffect) :
    (List.range (j + 1)).flatMap f = f 0 ++ (List.range j).flatMap (fun k => f (k + 1)) := by
  rw [List.range_succ_eq_map]
  simp [List.flatMap_cons, List.flatMap_map]

theorem lockRepo.loop_schedule (W : LockWorld) (remaining : Nat) :
    ∀ (i backoff j : Nat) (repoLockId : String) (err : Option String),
      i + remaining = maxRetries →
      i + j < maxRetries →
      (∀ k, k < j → ∃ e, W.LockRepo (i + k) = .error e) →
      ((∃ id, W.LockRepo (i + j) = .ok id) ∨
        (i + j = maxRetries - 1 ∧ ∃ e, W.LockRepo (i + j) = .error e)) →
      lockRepo.loop W remaining i backoff repoLockId err =
        ((List.range j).flatMap (fun k => [.LockRepo (i + k), .Sleep (backoff * 2 ^ k)]) ++
          [.LockRepo (i + j)],
         match W.LockRepo (i + j) with
         | .ok id => (id, none)
         | .error e => ("", some e)) := by
  induction remaining with
  | zero =>
    intro i backoff j repoLockId err hi hj hfail hend
    omega
  | succ n ih =>
    intro i backoff j repoLockId err hi hj hfail hend
    simp only [maxRetries] at hi hj hend
    rcases j with _ | j
    · simp only [Nat.add_zero] at hend ⊢
      rcases hend with ⟨id, hid⟩ | ⟨h9, e, he⟩
      · simp [lockRepo.loop, hid]
      · have h9i : i = 9 := by omega
        have hn : n = 0 := by omega
        subst hn h9i
        simp [lockRepo.loop, he, maxRetries]
    · obtain ⟨e, he⟩ := hfail 0 (Nat.succ_pos j)
      simp only [Nat.add_zero] at he
      have hlt : i < maxRetries - 1 := by simp only [maxRetries]; omega
      have hrec := ih (i + 1) (backoff * 2) j "" (some e) (by simp only [maxRetries]; omega)
        (by simp only [maxRetries]; omega)
        (fun k hk => by
          obtain ⟨e', he'⟩ := hfail (k + 1) (by omega)
          exact ⟨e', by rw [← he']; congr 1; omega⟩)
        (by
          have h1 : i + 1 + j = i + (j + 1) := by omega
          rw [h1]
          simpa only [maxRetries] using hend)
      rw [lockRepo.range_flatMap_succ]
      simp only [lockRepo.loop, he, hlt, if_true, Nat.add_zero, pow_zero, Nat.mul_one,
        List.cons_append, List.nil_append]
      rw [hrec]
      have hf : (fun k => [LockEffect.LockRepo (i + 1 + k), LockEffect.Sleep (backoff * 2 * 2 ^ k)]) =
          (fun k => [LockEffect.LockRepo (i + (k + 1)), LockEffect.Sleep (backoff * 2 ^ (k + 1))]) := by
        funext k
        have h1 : i + 1 + k = i + (k + 1) := by omega
        have h2 : backoff * 2 * 2 ^ k = backoff * 2 ^ (k + 1) := by ring
        rw [h1, h2]
      rw [hf]
      have h3 : i + 1 + j = i + (j + 1) := by omega
      rw [h3]

theorem LockEffect.attempts_append (xs ys : List LockEffect) :
    LockEffect.attempts (xs ++ ys) = LockEffect.attempts xs ++ LockEffect.attempts ys := by
  induction xs with
  | nil => rfl
  | cons x xs ih => cases x <;> simp [LockEffect.attempts, ih]

theorem lockRepo.attempts_attemptsUpTo (j : Nat) :
    LockEffect.attempts (lockRepo.attemptsUpTo j) = List.range (j + 1) := by
  have h : ∀ n, LockEffect.attempts
      ((List.range n).flatMap (fun k => [LockEffect.LockRepo k, LockEffect.Sleep (100 * 2 ^ k)])) =
      List.range n := by
    intro n
    induction n with
    | zero => rfl
    | succ n ih =>
      rw [List.range_succ, List.flatMap_append, LockEffect.attempts_append, ih]
      simp [LockEffect.attempts]
  unfold lockRepo.attemptsUpTo
  rw [LockEffect.attempts_append, h, List.range_succ]
  simp [LockEffect.attempts]

theorem LockEffect.slept_append (xs ys : List LockEffect) :
    LockEffect.slept (xs ++ ys) = LockEffect.slept xs + LockEffect.slept ys := by
  induction xs with
  | nil => simp [LockEffect.slept]
  | cons x xs ih => cases x <;> simp [LockEffect.slept, ih, Nat.add_assoc]

theorem lockRepo.slept_attemptsUpTo_nine :
    LockEffect.slept (lockRepo.attemptsUpTo 9) = 51100 := by
  decide

theorem lockRepo.eq_of_schedule (W : LockWorld) (branch : String) (requireBranch : Bool)
    (j : Nat) (hstart : (requireBranch && branch == "") = false) (hj : j < maxRetries)
    (hfail : ∀ k, k < j → ∃ e, W.LockRepo k = .error e)
    (hend : (∃ id, W.LockRepo j = .ok id) ∨
      (j = maxRetries - 1 ∧ ∃ e, W.LockRepo j = .error e)) :
    lockRepo W branch requireBranch =
      match W.LockRepo j with
      | .ok id => (lockRepo.attemptsUpTo j, some id)
      | .error e =>
        (lockRepo.attemptsUpTo j ++ [.httpError ("Error locking repo: " ++ e) 500], none) := by
  have h := lockRepo.loop_schedule W maxRetries 0 initialRetryInterval j "" none (by simp)
    (by simpa using hj) (by simpa using hfail) (by simpa using hend)
  simp only [Nat.zero_add] at h
  unfold lockRepo
  rw [hstart, h]
  rcases hend with ⟨id, hid⟩ | ⟨_, e, he⟩
  · simp [hid, lockRepo.attemptsUpTo, initialRetryInterval]
  · simp [he, lockRepo.attemptsUpTo, initialRetryInterval]

/-- C19. An acquisition whose first `j` attempts fail and whose attempt number `j`
(counted from 0, `j < 10`) succeeds, or is the failing tenth, makes exactly the attempts
`0 .. j`, at most ten, and stops at the first success; its database calls and sleeps are
`attemptsUpTo j`: a sleep after each failed attempt but the tenth, of `100 * 2^(k-1)` ms
after the `k`-th failed attempt. When the tenth attempt fails too, ten attempts were
made, `51100` ms were slept in all, and nothing is slept after the tenth attempt. -/
theorem lockRepo_backoff_schedule (W : LockWorld) (branch : String) (requireBranch : Bool)
    (j : Nat) (hstart : (requireBranch && branch == "") = false) (hj : j < maxRetries)
    (hfail : ∀ k, k < j → ∃ e, W.LockRepo k = .error e)
    (hend : (∃ id, W.LockRepo j = .ok id) ∨
      (j = maxRetries - 1 ∧ ∃ e, W.LockRepo j = .error e)) :
    LockEffect.attempts (lockRepo W branch requireBranch).1 = List.range (j + 1) ∧
      (LockEffect.attempts (lockRepo W branch requireBranch).1).length ≤ 10 ∧
      ((∃ id, W.LockRepo j = .ok id ∧
          lockRepo W branch requireBranch = (lockRepo.attemptsUpTo j, some id)) ∨
        (j = 9 ∧ ∃ e, W.LockRepo j = .error e ∧
          lockRepo W branch requireBranch =
            (lockRepo.attemptsUpTo 9 ++ [.httpError ("Error locking repo: " ++ e) 500], none) ∧
          (LockEffect.attempts (lockRepo W branch requireBranch).1).length = 10 ∧
          LockEffect.slept (lockRepo W branch requireBranch).1 = 51100)) := by
  have h := lockRepo.eq_of_schedule W branch requireBranch j hstart hj hfail hend
  have hatt : LockEffect.attempts (lockRepo W branch requireBranch).1 = List.range (j + 1) := by
    rw [h]
    rcases hend with ⟨id, hid⟩ | ⟨_, e, he⟩
    · simp [hid, lockRepo.attempts_attemptsUpTo]
    · simp [he, LockEffect.attempts_append, lockRepo.attempts_attemptsUpTo, LockEffect.attempts]
  refine ⟨hatt, ?_, ?_⟩
  · rw [hatt]
    simp only [List.length_range]
    simp only [maxRetries] at hj
    omega
  · rcases hend with ⟨id, hid⟩ | ⟨h9, e, he⟩
    · left
      exact ⟨id, hid, by rw [h, hid]⟩
    · right
      simp only [maxRetries] at h9
      have h9j : j = 9 := by omega
      subst h9j
      refine ⟨rfl, e, he, by rw [h, he], ?_, ?_⟩
      · rw [hatt]; rfl
      · rw [h, he]
        show LockEffect.slept (lockRepo.attemptsUpTo 9 ++ _) = 51100
        rw [LockEffect.slept_append, lockRepo.slept_attemptsUpTo_nine]
        rfl

/-- Witness of C19: a database that refuses the lock on all ten attempts. -/
theorem lockRepo_backoff_schedule_witness :
    LockEffect.attempts (lockRepo lockWorldCancelled "main" true).1 = List.range (9 + 1) ∧
      (LockEffect.attempts (lockRepo lockWorldCancelled "main" true).1).length ≤ 10 ∧
      ((∃ id, lockWorldCancelled.LockRepo 9 = .ok id ∧
          lockRepo lockWorldCancelled "main" true = (lockRepo.attemptsUpTo 9, some id)) ∨
        (9 = 9 ∧ ∃ e, lockWorldCancelled.LockRepo 9 = .error e ∧
          lockRepo lockWorldCancelled "main" true =
            (lockRepo.attemptsUpTo 9 ++ [.httpError ("Error locking repo: " ++ e) 500], none) ∧
          (LockEffect.attempts (lockRepo lockWorldCancelled "main" true).1).length = 10 ∧
          LockEffect.slept (lockRepo lockWorldCancelled "main" true).1 = 51100)) :=
  lockRepo_backoff_schedule lockWorldCancelled "main" true 9 (by decide) (by decide)
    (fun _ _ => ⟨_, rfl⟩) (Or.inr ⟨rfl, _, rfl⟩)

/-- C20, evaluated: with a lock context that is already done, so that every call of
`db.LockRepo` fails, `lockRepo` still makes all ten attempts and sleeps nine times,
`51100` ms in all, before it gives up. -/
theorem lockRepo_ignores_done_context :
    lockRepo lockWorldCancelled "main" true =
        (lockRepo.attemptsUpTo 9 ++
          [.httpError ("Error locking repo: " ++ "context canceled") 500], none) ∧
      LockEffect.attempts (lockRepo lockWorldCancelled "main" true).1 =
        [0, 1, 2, 3, 4, 5, 6, 7, 8, 9] ∧
      LockEffect.slept (lockRepo lockWorldCancelled "main" true).1 = 51100 := by
  refine ⟨rfl, rfl, ?_⟩
  decide

theorem LockEffect.deleted_append (xs ys : List LockEffect) :
    LockEffect.deleted (xs ++ ys) = LockEffect.deleted xs ++ LockEffect.deleted ys := by
  induction xs with
  | nil => rfl
  | cons x xs ih => cases x <;> simp [LockEffect.deleted, ih]

/-- C21. Every invocation of the release function calls `db.DeleteRepoLock` exactly once,
with the lock id it has captured, as its last action: whatever its error argument,
whether or not a panic was recovered, and whether the rollback succeeds or fails. -/
theorem lockRepo_fn_deletes_lock_once (W : LockWorld) (orgId planId repoLockId : String)
    (err recovered : Option String) :
    LockEffect.deleted (lockRepo.fn W orgId planId repoLockId err recovered) = [repoLockId] ∧
      (lockRepo.fn W orgId planId repoLockId err recovered).getLast? =
        some (.DeleteRepoLock repoLockId) := by
  unfold lockRepo.fn RollbackRepoIfErr
  rcases recovered with _ | r <;> rcases err with _ | e <;>
    rcases hW : W.GitClearUncommittedChanges with _ | g <;>
    simp [LockEffect.deleted]

/-- C22. The release function clears the uncommitted changes of the repository if and
only if it was called with a non-nil error or recovered a panic. `RollbackRepoIfErr` with
a nil error returns nil and does nothing; with a non-nil error it clears the changes once,
and returns nil exactly when the clearing succeeds, otherwise an error that starts with
`error clearing uncommitted changes: `. -/
theorem lockRepo_fn_rolls_back_iff (W : LockWorld) (orgId planId repoLockId : String)
    (err recovered : Option String) :
    (LockEffect.clears (lockRepo.fn W orgId planId repoLockId err recovered) = true ↔
        (err ≠ none ∨ recovered ≠ none)) ∧
      RollbackRepoIfErr W orgId planId none = (none, []) ∧
      (∀ e, (RollbackRepoIfErr W orgId planId (some e)).2 =
          [.GitClearUncommittedChanges orgId planId]) ∧
      (∀ e, ((RollbackRepoIfErr W orgId planId (some e)).1 = none ↔
          W.GitClearUncommittedChanges = none)) ∧
      (∀ e g, W.GitClearUncommittedChanges = some g →
        (RollbackRepoIfErr W orgId planId (some e)).1 =
          some ("error clearing uncommitted changes: " ++ g)) := by
  refine ⟨?_, rfl, ?_, ?_, ?_⟩
  · unfold lockRepo.fn RollbackRepoIfErr
    rcases recovered with _ | r <;> rcases err with _ | e <;>
      rcases hW : W.GitClearUncommittedChanges with _ | g <;>
      simp [LockEffect.clears]
  · intro e
    unfold RollbackRepoIfErr
    rcases hW : W.GitClearUncommittedChanges with _ | g <;> simp
  · intro e
    unfold RollbackRepoIfErr
    rcases hW : W.GitClearUncommittedChanges with _ | g <;> simp
  · intro e g hg
    unfold RollbackRepoIfErr
    simp [hg]

theorem AvailableModels_rows (P : ProviderTables) :
    (AvailableModels P).map AvailableModel.row = AvailableModels.rows :=
  rfl

theorem AvailableModels_names (P : ProviderTables) :
    (AvailableModels P).map (fun model => model.BaseModelConfig.ModelName) =
      AvailableModels.rows.map (fun row => row.1) :=
  rfl

theorem AvailableModels.rows_names_nodup :
    (AvailableModels.rows.map (fun row => row.1)).Nodup := by
  decide

theorem AvailableModelsByName_eq_map (P : ProviderTables) :
    init.AvailableModelsByName P =
      (AvailableModels P).map (fun model => (model.BaseModelConfig.ModelName, model)) :=
  rfl

theorem GoMap.get?_map_of_nodup {V : Type} (key : V → String) :
    ∀ (l : List V), (l.map key).Nodup → ∀ v ∈ l,
      GoMap.get? (l.map (fun v => (key v, v))) (key v) = some v := by
  intro l
  induction l with
  | nil => intro _ v hv; simp at hv
  | cons x rest ih =>
    intro hnd v hv
    rw [List.map_cons, List.nodup_cons] at hnd
    simp only [List.map_cons, GoMap.get?]
    rcases List.mem_cons.1 hv with rfl | hrest
    · simp
    · have hne : key x ≠ key v := by
        intro h
        exact hnd.1 (h ▸ List.mem_map_of_mem key hrest)
      simp only [hne, if_false]
      exact ih hnd.2 v hrest

theorem AvailableModelsByName_get? (P : ProviderTables) (model : AvailableModel)
    (hmodel : model ∈ AvailableModels P) :
    (init.AvailableModelsByName P).get? model.BaseModelConfig.ModelName = some model := by
  rw [AvailableModelsByName_eq_map]
  refine GoMap.get?_map_of_nodup (fun model => model.BaseModelConfig.ModelName) _ ?_ model hmodel
  rw [AvailableModels_names]
  exact AvailableModels.rows_names_nodup

theorem AvailableModels_length (P : ProviderTables) : (AvailableModels P).length = 19 :=
  rfl

theorem AvailableModelsByName_get?_index (P : ProviderTables) (i : Nat) (hi : i < 19) :
    (init.AvailableModelsByName P).get?
        ((AvailableModels P).get ⟨i, (AvailableModels_length P).symm ▸ hi⟩).BaseModelConfig.ModelName =
      some ((AvailableModels P).get ⟨i, (AvailableModels_length P).symm ▸ hi⟩) :=
  AvailableModelsByName_get? P _ (List.get_mem _ _ _)

theorem init.lookup_0 (P : ProviderTables) :
    (init.AvailableModelsByName P).get? "gpt-4o-2024-08-06" = (AvailableModels P)[0]? :=
  AvailableModelsByName_get?_index P 0 (by decide)

theorem init.lookup_1 (P : ProviderTables) :
    (init.AvailableModelsByName P).get? "gpt-4o-mini" = (AvailableModels P)[1]? :=
  AvailableModelsByName_get?_index P 1 (by decide)

theorem init.lookup_4 (P : ProviderTables) :
    (init.AvailableModelsByName P).get? "gpt-4-turbo" = (AvailableModels P)[4]? :=
  AvailableModelsByName_get?_index P 4 (by decide)

theorem init.lookup_10 (P : ProviderTables) :
    (init.AvailableModelsByName P).get? "anthropic/claude-3.5-sonnet" = (AvailableModels P)[10]? :=
  AvailableModelsByName_get?_index P 10 (by decide)

theorem init.lookup_13 (P : ProviderTables) :
    (init.AvailableModelsByName P).get? "anthropic/claude-3-haiku" = (AvailableModels P)[13]? :=
  AvailableModelsByName_get?_index P 13 (by decide)

theorem init.lookup_14 (P : ProviderTables) :
    (init.AvailableModelsByName P).get? "mistralai/Mixtral-8x22B-Instruct-v0.1" = (AvailableModels P)[14]? :=
  AvailableModelsByName_get?_index P 14 (by decide)

theorem init.lookup_18 (P : ProviderTables) :
    (init.AvailableModelsByName P).get? "google/gemini-pro-1.5-exp" = (AvailableModels P)[18]? :=
  AvailableModelsByName_get?_index P 18 (by decide)

theorem init.lookup_GPT4o (P : ProviderTables) :
    (init.AvailableModelsByName P).get? openai.GPT4o = (AvailableModels P)[2]? :=
  AvailableModelsByName_get?_index P 2 (by decide)

theorem init_rows (P : ProviderTables) :
    (init P).map (fun globals => globals.BuiltInModelPacks.map ModelPack.row) =
      some BuiltInModelPacks.rows := by
  simp only [init, init.Gpt4oLatestModelPack, init.Gpt4TurboLatestModelPack,
    init.OpenRouterClaude3Dot5SonnetModelPack, init.OpenRouterClaude3Dot5SonnetGPT4oModelPack,
    init.TogetherMixtral8x22BModelPack, init.GeminiGpt4oMiniModelPack, init.GeminiModelPack,
    init.Gpt4oMiniModelPack, init.Claude3HaikuModelPack, init.modelPack, init.roleConfig,
    getPlannerModelConfig, init.lookup_0, init.lookup_1, init.lookup_4, init.lookup_10,
    init.lookup_13, init.lookup_14, init.lookup_18, init.lookup_GPT4o]
  rfl

theorem init_byName (P : ProviderTables) :
    (init P).map (fun globals => globals.AvailableModelsByName) =
      some (init.AvailableModelsByName P) := by
  simp only [init, init.Gpt4oLatestModelPack, init.Gpt4TurboLatestModelPack,
    init.OpenRouterClaude3Dot5SonnetModelPack, init.OpenRouterClaude3Dot5SonnetGPT4oModelPack,
    init.TogetherMixtral8x22BModelPack, init.GeminiGpt4oMiniModelPack, init.GeminiModelPack,
    init.Gpt4oMiniModelPack, init.Claude3HaikuModelPack, init.modelPack, init.roleConfig,
    getPlannerModelConfig, init.lookup_0, init.lookup_1, init.lookup_4, init.lookup_10,
    init.lookup_13, init.lookup_14, init.lookup_18, init.lookup_GPT4o]
  rfl

theorem init_packs (P : ProviderTables) :
    ∃ globals, init P = some globals ∧
      globals.BuiltInModelPacks.map ModelPack.row = BuiltInModelPacks.rows := by
  have h := init_rows P
  rcases hinit : init P with _ | globals
  · rw [hinit] at h
    simp at h
  · rw [hinit] at h
    exact ⟨globals, rfl, by simpa using h⟩

theorem init_slots_forall (P : ProviderTables)
    (Q : String → ModelRole → String → ModelCompatibility → Prop)
    (h : ∀ r ∈ BuiltInModelPacks.rows, ∀ t ∈ r.2.1, Q r.1 t.1 t.2.1 t.2.2) :
    ∃ globals, init P = some globals ∧
      ∀ pack ∈ globals.BuiltInModelPacks, ∀ slot ∈ pack.slots,
        Q pack.Name slot.Role slot.BaseModelConfig.ModelName
          slot.BaseModelConfig.ModelCompatibility := by
  obtain ⟨globals, hinit, hrows⟩ := init_packs P
  refine ⟨globals, hinit, ?_⟩
  intro pack hpack slot hslot
  have hr : ModelPack.row pack ∈ BuiltInModelPacks.rows := by
    rw [← hrows]
    exact List.mem_map_of_mem _ hpack
  have ht : (slot.Role, slot.BaseModelConfig.ModelName,
      slot.BaseModelConfig.ModelCompatibility) ∈ (ModelPack.row pack).2.1 :=
    List.mem_map_of_mem
      (fun slot : ModelRoleConfig =>
        (slot.Role, slot.BaseModelConfig.ModelName, slot.BaseModelConfig.ModelCompatibility))
      hslot
  exact h _ hr _ ht

theorem AvailableModels_forall (P : ProviderTables)
    (Q : String × ModelCompatibility × Int × Int × Int → Prop)
    (h : ∀ r ∈ AvailableModels.rows, Q r) :
    ∀ model ∈ AvailableModels P, Q (AvailableModel.row model) := by
  intro model hmodel
  apply h
  rw [← AvailableModels_rows P]
  exact List.mem_map_of_mem _ hmodel

/-- C1, evaluated: `init` succeeds, and in the pack `Mixtral 8x22B` it builds (the fifth
of `BuiltInModelPacks`) the builder slot holds the catalog model
`mistralai/Mixtral-8x22B-Instruct-v0.1`, which has no function calling, while
`RequiredCompatibilityByRole` requires function calling of a builder: the model's
capability set is not a superset of the required one. The slots that break the
requirement are exactly the builder, commit-message and exec-status slots of that pack. -/
theorem init_Mixtral8x22B_builder_lacks_function_calling (P : ProviderTables) :
    ∃ globals pack, init P = some globals ∧ globals.BuiltInModelPacks[4]? = some pack ∧
      pack.Name = "Mixtral 8x22B" ∧
      pack.Builder.Role = ModelRoleBuilder ∧
      pack.Builder.BaseModelConfig.ModelName = "mistralai/Mixtral-8x22B-Instruct-v0.1" ∧
      pack.Builder.BaseModelConfig.ModelCompatibility.HasFunctionCalling = false ∧
      (RequiredCompatibilityByRole pack.Builder.Role).HasFunctionCalling = true ∧
      ¬ ((RequiredCompatibilityByRole pack.Builder.Role).capabilities ⊆
          pack.Builder.BaseModelConfig.ModelCompatibility.capabilities) ∧
      ∀ pack ∈ globals.BuiltInModelPacks, ∀ slot ∈ pack.slots,
        (¬ ((RequiredCompatibilityByRole slot.Role).capabilities ⊆
            slot.BaseModelConfig.ModelCompatibility.capabilities) ↔
          (pack.Name = "Mixtral 8x22B" ∧
            slot.Role ∈ [ModelRoleBuilder, ModelRoleCommitMsg, ModelRoleExecStatus])) := by
  obtain ⟨globals, hinit, hall⟩ := init_slots_forall P
    (fun name role _ compat =>
      (¬ ((RequiredCompatibilityByRole role).capabilities ⊆ compat.capabilities) ↔
        (name = "Mixtral 8x22B" ∧
          role ∈ [ModelRoleBuilder, ModelRoleCommitMsg, ModelRoleExecStatus])))
    (by decide)
  obtain ⟨globals', hinit', hrows⟩ := init_packs P
  obtain rfl : globals' = globals := Option.some.inj (hinit'.symm.trans hinit)
  have h4 : (globals'.BuiltInModelPacks.map ModelPack.row)[4]? = BuiltInModelPacks.rows[4]? := by
    rw [hrows]
  rw [List.getElem?_map] at h4
  rcases hp : globals'.BuiltInModelPacks[4]? with _ | pack
  · rw [hp] at h4
    exact absurd h4 (by decide)
  · rw [hp] at h4
    have hrow : ModelPack.row pack = ("Mixtral 8x22B",
        [(ModelRolePlanner, "mistralai/Mixtral-8x22B-Instruct-v0.1", ⟨true, false, true, false, false, false⟩),
         (ModelRolePlanSummary, "mistralai/Mixtral-8x22B-Instruct-v0.1", ⟨true, false, true, false, false, false⟩),
         (ModelRoleBuilder, "mistralai/Mixtral-8x22B-Instruct-v0.1", ⟨true, false, true, false, false, false⟩),
         (ModelRoleName, "mistralai/Mixtral-8x22B-Instruct-v0.1", ⟨true, false, true, false, false, false⟩),
         (ModelRoleCommitMsg, "mistralai/Mixtral-8x22B-Instruct-v0.1", ⟨true, false, true, false, false, false⟩),
         (ModelRoleExecStatus, "mistralai/Mixtral-8x22B-Instruct-v0.1", ⟨true, false, true, false, false, false⟩)],
        10000, 4096) := Option.some.inj h4
    simp only [ModelPack.row, ModelPack.slots, List.map, Prod.mk.injEq, List.cons.injEq] at hrow
    obtain ⟨hname, ⟨-, -, ⟨hrole, hmodel, hcompat⟩, -⟩, -⟩ := hrow
    refine ⟨globals', pack, hinit, hp, hname, hrole, hmodel, ?_, ?_, ?_, hall⟩
    · rw [hcompat]
    · rw [hrole]; rfl
    · rw [hrole, hcompat]; decide

/-- C10. The model names of the catalog are pairwise distinct, the map
`AvailableModelsByName` that `init` builds has one entry per catalog model, its keys are
the catalog names, and looking up the name of a catalog model yields that model. -/
theorem AvailableModels_names_distinct (P : ProviderTables) :
    ((AvailableModels P).map (fun model => model.BaseModelConfig.ModelName)).Nodup ∧
      (init.AvailableModelsByName P).length = (AvailableModels P).length ∧
      (init.AvailableModelsByName P).map (fun entry => entry.1) =
        (AvailableModels P).map (fun model => model.BaseModelConfig.ModelName) ∧
      (∀ model ∈ AvailableModels P,
        (init.AvailableModelsByName P).get? model.BaseModelConfig.ModelName = some model) ∧
      ∃ globals, init P = some globals ∧
        globals.AvailableModelsByName = init.AvailableModelsByName P := by
  refine ⟨?_, ?_, ?_, AvailableModelsByName_get? P, ?_⟩
  · rw [AvailableModels_names]
    exact AvailableModels.rows_names_nodup
  · rw [AvailableModelsByName_eq_map, List.length_map]
  · rw [AvailableModelsByName_eq_map, List.map_map]
    rfl
  · have h := init_byName P
    rcases hinit : init P with _ | globals
    · rw [hinit] at h
      simp at h
    · rw [hinit] at h
      exact ⟨globals, rfl, by simpa using h⟩

/-- C27. Every catalog model has positive `DefaultMaxConvoTokens` and
`DefaultReservedOutputTokens`, and their sum is at most the model's `MaxTokens`: the
maximum context minus the reserved output is a positive budget that holds the default
conversation allowance. -/
theorem AvailableModels_default_budgets (P : ProviderTables) (model : AvailableModel)
    (hmodel : model ∈ AvailableModels P) :
    0 < model.DefaultMaxConvoTokens ∧ 0 < model.DefaultReservedOutputTokens ∧
      model.DefaultMaxConvoTokens + model.DefaultReservedOutputTokens ≤
        model.BaseModelConfig.MaxTokens ∧
      0 < model.BaseModelConfig.MaxTokens - model.DefaultReservedOutputTokens ∧
      model.DefaultMaxConvoTokens ≤
        model.BaseModelConfig.MaxTokens - model.DefaultReservedOutputTokens :=
  AvailableModels_forall P
    (fun r => 0 < r.2.2.1 ∧ 0 < r.2.2.2.1 ∧ r.2.2.1 + r.2.2.2.1 ≤ r.2.2.2.2 ∧
      0 < r.2.2.2.2 - r.2.2.2.1 ∧ r.2.2.1 ≤ r.2.2.2.2 - r.2.2.2.1)
    (by decide) model hmodel

/-- Witness of C27: the catalog model `gpt-4`, with 2500 + 1000 tokens out of 8000. -/
theorem AvailableModels_default_budgets_witness :
    ((AvailableModels providerTablesExample).get ⟨6, by decide⟩).BaseModelConfig.ModelName =
        "gpt-4" ∧
      (0 : Int) < 2500 ∧ (0 : Int) < 1000 ∧ (2500 : Int) + 1000 ≤ 8000 ∧
      (0 : Int) < 8000 - 1000 ∧ (2500 : Int) ≤ 8000 - 1000 :=
  ⟨rfl, AvailableModels_default_budgets providerTablesExample
    ((AvailableModels providerTablesExample).get ⟨6, by decide⟩) (List.get_mem _ _ _)⟩

theorem GoMap.get?_map_isSome_iff {V : Type} (key : V → String) (name : String) :
    ∀ (l : List V), (GoMap.get? (l.map (fun v => (key v, v))) name).isSome = true ↔
      name ∈ l.map key := by
  intro l
  induction l with
  | nil => simp [GoMap.get?]
  | cons x rest ih =>
    simp only [List.map_cons, GoMap.get?, List.mem_cons]
    by_cases h : key x = name
    · simp [h]
    · have h' : ¬ name = key x := fun e => h e.symm
      simp [h, h', ih]

/-- C11. `init` succeeds and builds nine packs; their names, the model names of their
planners and the planners' `MaxConvoTokens` and `ReservedOutputTokens` are the ones
listed; and in every pack the planner's `MaxConvoTokens` and `ReservedOutputTokens` are
the `DefaultMaxConvoTokens` and `DefaultReservedOutputTokens` of the catalog model that
bears the name of the planner's `BaseModelConfig`; there is such a model. -/
theorem init_planner_limits_are_model_defaults (P : ProviderTables) :
    ∃ globals, init P = some globals ∧
      globals.BuiltInModelPacks.map (fun pack =>
          (pack.Name, pack.Planner.ModelRoleConfig.BaseModelConfig.ModelName,
            pack.Planner.PlannerModelConfig.MaxConvoTokens,
            pack.Planner.PlannerModelConfig.ReservedOutputTokens)) =
        [("GPT-4o Latest", "gpt-4o-2024-08-06", 10000, 4096),
          ("GPT-4 Turbo Latest", "gpt-4-turbo", 10000, 4096),
          ("Claude 3.5 Sonnet", "anthropic/claude-3.5-sonnet", 15000, 4096),
          ("Claude 3.5 Sonnet + GPT-4o", "anthropic/claude-3.5-sonnet", 15000, 4096),
          ("Mixtral 8x22B", "mistralai/Mixtral-8x22B-Instruct-v0.1", 10000, 4096),
          ("Gemini Pro 1.5 + GPT-4o Mini", "google/gemini-pro-1.5-exp", 100000, 22937),
          ("Gemini Pro 1.5 Experimental", "google/gemini-pro-1.5-exp", 100000, 22937),
          ("GPT-4o Mini", "gpt-4o-mini", 10000, 4096),
          ("Claude 3 Haiku", "anthropic/claude-3-haiku", 15000, 4096)] ∧
      ∀ pack ∈ globals.BuiltInModelPacks,
        (∃ model ∈ AvailableModels P, model.BaseModelConfig.ModelName =
            pack.Planner.ModelRoleConfig.BaseModelConfig.ModelName) ∧
        ∀ model ∈ AvailableModels P,
          model.BaseModelConfig.ModelName =
              pack.Planner.ModelRoleConfig.BaseModelConfig.ModelName →
            pack.Planner.PlannerModelConfig.MaxConvoTokens = model.DefaultMaxConvoTokens ∧
              pack.Planner.PlannerModelConfig.ReservedOutputTokens =
                model.DefaultReservedOutputTokens := by
  obtain ⟨globals, hinit, hrows⟩ := init_packs P
  refine ⟨globals, hinit, ?_, ?_⟩
  · have hcols : globals.BuiltInModelPacks.map (fun pack =>
          (pack.Name, pack.Planner.ModelRoleConfig.BaseModelConfig.ModelName,
            pack.Planner.PlannerModelConfig.MaxConvoTokens,
            pack.Planner.PlannerModelConfig.ReservedOutputTokens)) =
        (globals.BuiltInModelPacks.map ModelPack.row).map (fun r =>
          (r.1, ((r.2.1.head?.map (fun t => t.2.1)).getD ""), r.2.2.1, r.2.2.2)) := by
      rw [List.map_map]
      rfl
    rw [hcols, hrows]
    decide
  intro pack hpack
  have hr : ModelPack.row pack ∈ BuiltInModelPacks.rows := by
    rw [← hrows]
    exact List.mem_map_of_mem _ hpack
  have hclosed : ∀ r ∈ BuiltInModelPacks.rows,
      (∃ c ∈ AvailableModels.rows, some c.1 = r.2.1.head?.map (fun t => t.2.1)) ∧
      ∀ c ∈ AvailableModels.rows, some c.1 = r.2.1.head?.map (fun t => t.2.1) →
        r.2.2.1 = c.2.2.1 ∧ r.2.2.2 = c.2.2.2.1 := by
    decide
  obtain ⟨⟨c, hc, hcname⟩, hall⟩ := hclosed _ hr
  have hplanner : (ModelPack.row pack).2.1.head?.map (fun t => t.2.1) =
      some pack.Planner.ModelRoleConfig.BaseModelConfig.ModelName := rfl
  constructor
  · rw [← AvailableModels_rows P] at hc
    obtain ⟨model, hmodel, rfl⟩ := List.mem_map.1 hc
    refine ⟨model, hmodel, ?_⟩
    rw [hplanner] at hcname
    exact Option.some.inj hcname
  · intro model hmodel hname
    have hcm : AvailableModel.row model ∈ AvailableModels.rows := by
      rw [← AvailableModels_rows P]
      exact List.mem_map_of_mem _ hmodel
    have := hall _ hcm (by rw [hplanner]; exact congrArg some hname)
    exact this

/-- C26. `init` does not dereference a nil model: it runs to the end. A lookup in
`AvailableModelsByName` succeeds exactly for the names of catalog models, for a role's
`BaseModelConfig` and in `getPlannerModelConfig` alike, and every model name of a slot of
a built pack is a catalog name. -/
theorem init_lookups_succeed (P : ProviderTables) :
    ∃ globals, init P = some globals ∧
      (∀ name, ((init.AvailableModelsByName P).get? name).isSome = true ↔
        name ∈ (AvailableModels P).map (fun model => model.BaseModelConfig.ModelName)) ∧
      (∀ role name, (init.roleConfig (init.AvailableModelsByName P) role name).isSome = true ↔
        name ∈ (AvailableModels P).map (fun model => model.BaseModelConfig.ModelName)) ∧
      (∀ name, (getPlannerModelConfig (init.AvailableModelsByName P) name).isSome = true ↔
        name ∈ (AvailableModels P).map (fun model => model.BaseModelConfig.ModelName)) ∧
      ∀ pack ∈ globals.BuiltInModelPacks, ∀ slot ∈ pack.slots,
        slot.BaseModelConfig.ModelName ∈
          (AvailableModels P).map (fun model => model.BaseModelConfig.ModelName) := by
  obtain ⟨globals, hinit, hall⟩ := init_slots_forall P
    (fun _ _ name _ => name ∈ AvailableModels.rows.map (fun row => row.1)) (by decide)
  have hget : ∀ name, ((init.AvailableModelsByName P).get? name).isSome = true ↔
      name ∈ (AvailableModels P).map (fun model => model.BaseModelConfig.ModelName) := by
    intro name
    rw [AvailableModelsByName_eq_map]
    exact GoMap.get?_map_isSome_iff _ name _
  refine ⟨globals, hinit, hget, ?_, ?_, ?_⟩
  · intro role name
    rw [← hget name]
    simp [init.roleConfig]
  · intro name
    rw [← hget name]
    simp [getPlannerModelConfig]
  · intro pack hpack slot hslot
    rw [AvailableModels_names]
    exact hall pack hpack slot hslot

/-! ## Prompt assembly -/

theorem stringLess.go_irrefl : ∀ l : List Char, stringLess.go l l = false
  | [] => rfl
  | a :: as => by simp [stringLess.go, stringLess.go_irrefl as]

theorem stringLess.go_asymm :
    ∀ a b : List Char, stringLess.go a b = true → stringLess.go b a = false
  | _, [] => by simp [stringLess.go]
  | [], _ :: _ => by simp [stringLess.go]
  | a :: as, b :: bs => by
    intro h
    simp only [stringLess.go] at h ⊢
    by_cases h1 : a.toNat < b.toNat
    · have h2 : ¬ b.toNat < a.toNat := by omega
      have h3 : b.toNat ≠ a.toNat := by omega
      simp [h2, h3]
    · by_cases h2 : a.toNat = b.toNat
      · simp only [h1, h2, if_true, if_false] at h
        have := stringLess.go_asymm as bs (by simpa [h2] using h)
        simp [h2, this]
      · simp [h1, h2] at h

theorem Char.toNat_injective (a b : Char) (h : a.toNat = b.toNat) : a = b := by
  apply Char.ext
  apply UInt32.ext
  exact h

theorem stringLess.go_connected :
    ∀ a b : List Char, stringLess.go a b = false → stringLess.go b a = false → a = b
  | [], [] => fun _ _ => rfl
  | [], _ :: _ => by simp [stringLess.go]
  | _ :: _, [] => by simp [stringLess.go]
  | a :: as, b :: bs => by
    intro h1 h2
    simp only [stringLess.go] at h1 h2
    by_cases hlt : a.toNat < b.toNat
    · simp [hlt] at h1
    · by_cases hgt : b.toNat < a.toNat
      · simp [hgt] at h2
      · have heq : a.toNat = b.toNat := by omega
        have hab : a = b := Char.toNat_injective a b heq
        subst hab
        simp only [lt_self_iff_false, if_false, if_true] at h1 h2
        rw [stringLess.go_connected as bs h1 h2]

theorem stringLess_irrefl (a : String) : stringLess a a = false :=
  stringLess.go_irrefl a.data

theorem stringLess_asymm (a b : String) (h : stringLess a b = true) :
    stringLess b a = false :=
  stringLess.go_asymm a.data b.data h

theorem stringLess_connected (a b : String) (h1 : stringLess a b = false)
    (h2 : stringLess b a = false) : a = b :=
  String.ext (stringLess.go_connected a.data b.data h1 h2)

theorem GoMap.get?_set {V : Type} (k : String) (v : V) (k' : String) :
    ∀ m : GoMap V, (m.set k v).get? k' = if k = k' then some v else m.get? k'
  | [] => by simp [GoMap.set, GoMap.get?]
  | (k0, v0) :: rest => by
    simp only [GoMap.set, GoMap.get?]
    by_cases h0 : k0 = k
    · subst h0
      by_cases h1 : k0 = k' <;> simp [GoMap.get?, h1]
    · by_cases h1 : k0 = k'
      · subst h1
        have : ¬ k = k0 := fun e => h0 e.symm
        simp [GoMap.get?, h0, this]
      · simp [GoMap.get?, h0, h1, GoMap.get?_set k v k' rest]

/-! ## Go integers -/

theorem GoInt.wrap_of_range (x : Int) (h1 : -2 ^ 63 ≤ x) (h2 : x < 2 ^ 63) :
    GoInt.wrap x = x := by
  unfold GoInt.wrap
  omega

theorem GoInt.add_of_nonneg (a b : Int) (h1 : 0 ≤ a + b) (h2 : a + b < 2 ^ 63) :
    GoInt.add a b = a + b :=
  GoInt.wrap_of_range _ (by omega) h2

theorem GoInt.sub_of_nonneg (a b : Int) (h1 : 0 ≤ a - b) (h2 : a - b < 2 ^ 63) :
    GoInt.sub a b = a - b :=
  GoInt.wrap_of_range _ (by omega) h2

/-! ## Prompt assembly: the loops -/

namespace CreateProposal

theorem convoLoop_get?_of_not_mem (k : String) (l : List ConversationMessage) :
    ∀ (acc : Int) (m : GoMap Int), (∀ x ∈ l, x.Timestamp ≠ k) →
      (convoLoop l acc m).2.get? k = m.get? k := by
  induction l with
  | nil => intro acc m _; rfl
  | cons x rest ih =>
    intro acc m h
    simp only [convoLoop]
    rw [ih _ _ (fun y hy => h y (List.mem_cons_of_mem _ hy)), GoMap.get?_set]
    simp [h x (List.mem_cons_self _ _)]

theorem convoLoop_get?_of_mem (k : String) (l : List ConversationMessage) :
    ∀ (acc : Int) (m : GoMap Int), (∃ x ∈ l, x.Timestamp = k) →
      ∃ v, (convoLoop l acc m).2.get? k = some v := by
  induction l with
  | nil => intro acc m h; simp at h
  | cons x rest ih =>
    intro acc m h
    simp only [convoLoop]
    by_cases hrest : ∃ y ∈ rest, y.Timestamp = k
    · exact ih _ _ hrest
    · have hx : x.Timestamp = k := by
        obtain ⟨y, hy, hyk⟩ := h
        rcases List.mem_cons.1 hy with rfl | hy'
        · exact hyk
        · exact absurd ⟨y, hy', hyk⟩ hrest
      refine ⟨GoInt.add acc x.Tokens, ?_⟩
      rw [convoLoop_get?_of_not_mem k rest _ _ (fun y hy hyk => hrest ⟨y, hy, hyk⟩),
        GoMap.get?_set]
      simp [hx]

theorem tokensUpToTimestamp_get?_eq_none (l : List ConversationMessage) (k : String)
    (h : ∀ x ∈ l, x.Timestamp ≠ k) : (tokensUpToTimestamp l).get? k = none := by
  unfold tokensUpToTimestamp
  rw [convoLoop_get?_of_not_mem k l 0 [] h]
  rfl

theorem tokensUpToTimestamp_get?_of_mem (l : List ConversationMessage) (k : String)
    (h : ∃ x ∈ l, x.Timestamp = k) : ∃ v, (tokensUpToTimestamp l).get? k = some v :=
  convoLoop_get?_of_mem k l 0 [] h

theorem tokensUpToTimestamp_mem_of_get? (l : List ConversationMessage) (k : String) (v : Int)
    (h : (tokensUpToTimestamp l).get? k = some v) : ∃ x ∈ l, x.Timestamp = k := by
  by_contra hcon
  have := tokensUpToTimestamp_get?_eq_none l k (fun x hx hxk => hcon ⟨x, hx, hxk⟩)
  rw [this] at h
  exact Option.noConfusion h

theorem appendAll_eq (l : List ConversationMessage) :
    ∀ messages, appendAll l messages = messages ++ l.map (fun x => x.Message) := by
  induction l with
  | nil => intro messages; simp [appendAll]
  | cons x rest ih => intro messages; simp [appendAll, ih]

theorem appendAfter_eq (s : ConversationSummary) (l : List ConversationMessage) :
    ∀ messages, appendAfter s l messages =
      messages ++ (after s l).map (fun x => x.Message) := by
  induction l with
  | nil => intro messages; simp [appendAfter, after]
  | cons x rest ih =>
    intro messages
    unfold after at ih ⊢
    by_cases h : stringLess s.LastMessageTimestamp x.Timestamp = true
    · simp [appendAfter, h, ih, List.filter_cons]
    · simp [appendAfter, h, ih, List.filter_cons]

theorem selectSummary_of_first_fit (M total conv : Int) (m : GoMap Int)
    (pre : List ConversationSummary) (s : ConversationSummary)
    (post : List ConversationSummary)
    (hpre : ∀ s' ∈ pre, ∃ t, m.get? s'.LastMessageTimestamp = some t ∧
      ¬ GoInt.add total (GoInt.add (GoInt.sub conv t) s'.Tokens) ≤ M)
    (hs : ∃ t, m.get? s.LastMessageTimestamp = some t ∧
      GoInt.add total (GoInt.add (GoInt.sub conv t) s.Tokens) ≤ M) :
    selectSummary M total conv m (pre ++ s :: post) = .ok (some s) := by
  induction pre with
  | nil =>
    obtain ⟨t, ht, hfit⟩ := hs
    simp [selectSummary, ht, hfit]
  | cons s' rest ih =>
    obtain ⟨t, ht, hfit⟩ := hpre s' (List.mem_cons_self _ _)
    simp only [List.cons_append, selectSummary, ht, hfit, if_false]
    exact ih (fun x hx => hpre x (List.mem_cons_of_mem _ hx))

theorem selectSummary_of_missing (M total conv : Int) (m : GoMap Int)
    (pre : List ConversationSummary) (s : ConversationSummary)
    (post : List ConversationSummary)
    (hpre : ∀ s' ∈ pre, ∃ t, m.get? s'.LastMessageTimestamp = some t ∧
      ¬ GoInt.add total (GoInt.add (GoInt.sub conv t) s'.Tokens) ≤ M)
    (hs : m.get? s.LastMessageTimestamp = none) :
    selectSummary M total conv m (pre ++ s :: post) =
      .error "conversation summary timestamp not found in conversation" := by
  induction pre with
  | nil => simp [selectSummary, hs]
  | cons s' rest ih =>
    obtain ⟨t, ht, hfit⟩ := hpre s' (List.mem_cons_self _ _)
    simp only [List.cons_append, selectSummary, ht, hfit, if_false]
    exact ih (fun x hx => hpre x (List.mem_cons_of_mem _ hx))

theorem selectSummary_of_none_fit (M total conv : Int) (m : GoMap Int)
    (summaries : List ConversationSummary)
    (h : ∀ s' ∈ summaries, ∃ t, m.get? s'.LastMessageTimestamp = some t ∧
      ¬ GoInt.add total (GoInt.add (GoInt.sub conv t) s'.Tokens) ≤ M) :
    selectSummary M total conv m summaries = .ok none := by
  induction summaries with
  | nil => rfl
  | cons s' rest ih =>
    obtain ⟨t, ht, hfit⟩ := h s' (List.mem_cons_self _ _)
    simp only [selectSummary, ht, hfit, if_false]
    exact ih (fun x hx => h x (List.mem_cons_of_mem _ hx))

theorem selectSummary_ok_some (M total conv : Int) (m : GoMap Int)
    (summaries : List ConversationSummary) (s : ConversationSummary)
    (h : selectSummary M total conv m summaries = .ok (some s)) :
    ∃ pre post, summaries = pre ++ s :: post ∧
      (∀ s' ∈ pre, ∃ t, m.get? s'.LastMessageTimestamp = some t ∧
        ¬ GoInt.add total (GoInt.add (GoInt.sub conv t) s'.Tokens) ≤ M) ∧
      ∃ t, m.get? s.LastMessageTimestamp = some t ∧
        GoInt.add total (GoInt.add (GoInt.sub conv t) s.Tokens) ≤ M := by
  induction summaries with
  | nil => simp [selectSummary] at h
  | cons s' rest ih =>
    simp only [selectSummary] at h
    rcases hget : m.get? s'.LastMessageTimestamp with _ | t
    · simp [hget] at h
    · simp only [hget] at h
      by_cases hfit : GoInt.add total (GoInt.add (GoInt.sub conv t) s'.Tokens) ≤ M
      · simp only [hfit, if_true, Except.ok.injEq, Option.some.injEq] at h
        subst h
        exact ⟨[], rest, rfl, by simp, t, hget, hfit⟩
      · simp only [hfit, if_false] at h
        obtain ⟨pre, post, hsplit, hpre, hs⟩ := ih h
        refine ⟨s' :: pre, post, by simp [hsplit], ?_, hs⟩
        intro x hx
        rcases List.mem_cons.1 hx with rfl | hx'
        · exact ⟨t, hget, hfit⟩
        · exact hpre x hx'

theorem selectSummary_error (M total conv : Int) (m : GoMap Int)
    (summaries : List ConversationSummary) (err : String)
    (h : selectSummary M total conv m summaries = .error err) :
    err = "conversation summary timestamp not found in conversation" := by
  induction summaries with
  | nil => simp [selectSummary] at h
  | cons s' rest ih =>
    simp only [selectSummary] at h
    rcases hget : m.get? s'.LastMessageTimestamp with _ | t
    · simp only [hget, Except.error.injEq] at h
      exact h.symm
    · simp only [hget] at h
      by_cases hfit : GoInt.add total (GoInt.add (GoInt.sub conv t) s'.Tokens) ≤ M
      · simp [hfit] at h
      · simp only [hfit, if_false] at h
        exact ih h

theorem assemble_of_base_exceeded {Ctx : Type} (E : Externals Ctx) (req : PromptRequest Ctx)
    (h : totalTokens E req > E.MaxTokens) :
    assemble E req = .error "token limit exceeded before adding conversation" := by
  simp [assemble, h]

theorem assemble_of_fit {Ctx : Type} (E : Externals Ctx) (req : PromptRequest Ctx)
    (hbase : totalTokens E req ≤ E.MaxTokens)
    (hfit : GoInt.add (totalTokens E req) (conversationTokens req.Conversation) ≤
      E.MaxTokens) :
    assemble E req =
      .ok { messages := [systemMessage E req] ++
              req.Conversation.map (fun x => x.Message) ++ [promptMessage req],
            summary := none } := by
  have h1 : ¬ totalTokens E req > E.MaxTokens := not_lt.2 hbase
  have h2 : ¬ GoInt.add (totalTokens E req) (conversationTokens req.Conversation) >
      E.MaxTokens := not_lt.2 hfit
  simp [assemble, h1, h2, appendAll_eq, systemMessage, promptMessage]

theorem assemble_of_over {Ctx : Type} (E : Externals Ctx) (req : PromptRequest Ctx)
    (hbase : totalTokens E req ≤ E.MaxTokens)
    (hover : GoInt.add (totalTokens E req) (conversationTokens req.Conversation) >
      E.MaxTokens) :
    assemble E req =
      match selectSummary E.MaxTokens (totalTokens E req) (conversationTokens req.Conversation)
          (tokensUpToTimestamp req.Conversation) req.ConversationSummaries with
      | .error err => .error err
      | .ok none => .error "couldn't get under token limit with conversation summary"
      | .ok (some s) =>
        if GoInt.add (totalTokens E req) s.Tokens > E.MaxTokens then
          .error "token limit still exceeded after summarizing conversation"
        else
          .ok { messages := [systemMessage E req, summaryMessage s] ++
                  (after s req.Conversation).map (fun x => x.Message) ++ [promptMessage req],
                summary := some s } := by
  have h1 : ¬ totalTokens E req > E.MaxTokens := not_lt.2 hbase
  simp only [assemble, h1, hover, if_true, if_false]
  rcases hsel : selectSummary E.MaxTokens (totalTokens E req)
      (conversationTokens req.Conversation) (tokensUpToTimestamp req.Conversation)
      req.ConversationSummaries with err | sel
  · rfl
  · rcases sel with _ | s
    · rfl
    · simp only
      by_cases h3 : GoInt.add (totalTokens E req) s.Tokens > E.MaxTokens
      · simp [h3]
      · simp [h3, appendAfter_eq, systemMessage, promptMessage, summaryMessage]

theorem assemble_ok_some {Ctx : Type} (E : Externals Ctx) (req : PromptRequest Ctx)
    (a : Assembled) (s : ConversationSummary) (ha : assemble E req = .ok a)
    (hs : a.summary = some s) :
    totalTokens E req ≤ E.MaxTokens ∧
      GoInt.add (totalTokens E req) (conversationTokens req.Conversation) > E.MaxTokens ∧
      selectSummary E.MaxTokens (totalTokens E req) (conversationTokens req.Conversation)
        (tokensUpToTimestamp req.Conversation) req.ConversationSummaries = .ok (some s) ∧
      GoInt.add (totalTokens E req) s.Tokens ≤ E.MaxTokens ∧
      a.messages = [systemMessage E req, summaryMessage s] ++
        (after s req.Conversation).map (fun x => x.Message) ++ [promptMessage req] := by
  by_cases hbase : totalTokens E req > E.MaxTokens
  · rw [assemble_of_base_exceeded E req hbase] at ha
    exact Except.noConfusion ha
  · have hbase' := not_lt.1 hbase
    by_cases hfit : GoInt.add (totalTokens E req) (conversationTokens req.Conversation) ≤
        E.MaxTokens
    · rw [assemble_of_fit E req hbase' hfit, Except.ok.injEq] at ha
      subst ha
      exact Option.noConfusion hs
    · have hover := not_le.1 hfit
      rw [assemble_of_over E req hbase' hover] at ha
      rcases hsel : selectSummary E.MaxTokens (totalTokens E req)
          (conversationTokens req.Conversation) (tokensUpToTimestamp req.Conversation)
          req.ConversationSummaries with err | sel
      · rw [hsel] at ha
        exact Except.noConfusion ha
      · rcases sel with _ | s'
        · rw [hsel] at ha
          exact Except.noConfusion ha
        · rw [hsel] at ha
          by_cases h3 : GoInt.add (totalTokens E req) s'.Tokens > E.MaxTokens
          · simp [h3] at ha
          · simp only [h3, if_false, Except.ok.injEq] at ha
            subst ha
            simp only [Option.some.injEq] at hs
            subst hs
            exact ⟨hbase', hover, rfl, not_lt.1 h3, rfl⟩

theorem assemble_ok_none {Ctx : Type} (E : Externals Ctx) (req : PromptRequest Ctx)
    (a : Assembled) (ha : assemble E req = .ok a) (hs : a.summary = none) :
    totalTokens E req ≤ E.MaxTokens ∧
      GoInt.add (totalTokens E req) (conversationTokens req.Conversation) ≤ E.MaxTokens ∧
      a.messages = [systemMessage E req] ++
        req.Conversation.map (fun x => x.Message) ++ [promptMessage req] := by
  by_cases hbase : totalTokens E req > E.MaxTokens
  · rw [assemble_of_base_exceeded E req hbase] at ha
    exact Except.noConfusion ha
  · have hbase' := not_lt.1 hbase
    by_cases hfit : GoInt.add (totalTokens E req) (conversationTokens req.Conversation) ≤
        E.MaxTokens
    · rw [assemble_of_fit E req hbase' hfit, Except.ok.injEq] at ha
      subst ha
      exact ⟨hbase', hfit, rfl⟩
    · have hover := not_le.1 hfit
      rw [assemble_of_over E req hbase' hover] at ha
      rcases hsel : selectSummary E.MaxTokens (totalTokens E req)
          (conversationTokens req.Conversation) (tokensUpToTimestamp req.Conversation)
          req.ConversationSummaries with err | sel
      · rw [hsel] at ha
        exact Except.noConfusion ha
      · rcases sel with _ | s'
        · rw [hsel] at ha
          exact Except.noConfusion ha
        · rw [hsel] at ha
          by_cases h3 : GoInt.add (totalTokens E req) s'.Tokens > E.MaxTokens
          · simp [h3] at ha
          · simp only [h3, if_false, Except.ok.injEq] at ha
            subst ha
            exact Option.noConfusion hs

end CreateProposal

theorem CreateProposal_of_test {Ctx : Type} (E : Externals Ctx) (R : CreateProposal.Run)
    (req : PromptRequest Ctx) (hgo : R.goEnv = "test") :
    CreateProposal E R req =
      { err := none, effects := [.streamLoremIpsum], spawned := none } := by
  simp [CreateProposal, hgo]

theorem CreateProposal_of_assemble_error {Ctx : Type} (E : Externals Ctx)
    (R : CreateProposal.Run) (req : PromptRequest Ctx) (proposalId err : String)
    (hgo : R.goEnv ≠ "test") (hid : R.NewRandom = .ok proposalId)
    (h : CreateProposal.assemble E req = .error err) :
    CreateProposal E R req =
      { err := some err, effects := [.onStream (.proposalId proposalId) none],
        spawned := none } := by
  simp [CreateProposal, hgo, hid, h]

theorem CreateProposal_of_accepted {Ctx : Type} (E : Externals Ctx) (R : CreateProposal.Run)
    (req : PromptRequest Ctx) (proposalId : String) (a : CreateProposal.Assembled)
    (hgo : R.goEnv ≠ "test") (hid : R.NewRandom = .ok proposalId)
    (ha : CreateProposal.assemble E req = .ok a)
    (hopen : R.CreateChatCompletionStream = none) :
    CreateProposal E R req =
      { err := none,
        effects := [.onStream (.proposalId proposalId) none,
          .proposalsSet proposalId (CreateProposal.newProposal proposalId req),
          .CreateChatCompletionStream a.messages],
        spawned := some
          { proposal := CreateProposal.newProposal proposalId req,
            summary := a.summary,
            promptMessage := CreateProposal.promptMessage req } } := by
  simp [CreateProposal, hgo, hid, ha, hopen, CreateProposal.promptMessage]

theorem CreateProposal_of_stream_error {Ctx : Type} (E : Externals Ctx)
    (R : CreateProposal.Run) (req : PromptRequest Ctx) (proposalId err : String)
    (a : CreateProposal.Assembled)
    (hgo : R.goEnv ≠ "test") (hid : R.NewRandom = .ok proposalId)
    (ha : CreateProposal.assemble E req = .ok a)
    (hopen : R.CreateChatCompletionStream = some err) :
    CreateProposal E R req =
      { err := some err,
        effects := [.onStream (.proposalId proposalId) none,
          .proposalsSet proposalId (CreateProposal.newProposal proposalId req),
          .CreateChatCompletionStream a.messages, .proposalsDelete proposalId],
        spawned := none } := by
  simp [CreateProposal, hgo, hid, ha, hopen]

theorem CreateProposal_opens_with {Ctx : Type} (E : Externals Ctx) (R : CreateProposal.Run)
    (req : PromptRequest Ctx) (proposalId : String) (a : CreateProposal.Assembled)
    (hgo : R.goEnv ≠ "test") (hid : R.NewRandom = .ok proposalId)
    (ha : CreateProposal.assemble E req = .ok a) :
    (CreateProposal E R req).effects.take 3 =
      [.onStream (.proposalId proposalId) none,
        .proposalsSet proposalId (CreateProposal.newProposal proposalId req),
        .CreateChatCompletionStream a.messages] := by
  rcases hopen : R.CreateChatCompletionStream with _ | err
  · rw [CreateProposal_of_accepted E R req proposalId a hgo hid ha hopen]
    rfl
  · rw [CreateProposal_of_stream_error E R req proposalId err a hgo hid ha hopen]
    rfl
/-! ## Prompt assembly: Go sums against exact sums -/

namespace CreateProposal

theorem tokenSum_cons (x : ConversationMessage) (rest : List ConversationMessage) :
    tokenSum (x :: rest) = x.Tokens + tokenSum rest := by
  simp [tokenSum]

theorem tokenSum_nonneg (l : List ConversationMessage) (h : ∀ x ∈ l, 0 ≤ x.Tokens) :
    0 ≤ tokenSum l := by
  induction l with
  | nil => simp [tokenSum]
  | cons x rest ih =>
    have h1 := h x (List.mem_cons_self _ _)
    have h2 := ih (fun y hy => h y (List.mem_cons_of_mem _ hy))
    rw [tokenSum_cons]
    omega

theorem tokenSumUpTo_of_mem (k : String) (l : List ConversationMessage)
    (h : ∃ x ∈ l, x.Timestamp = k) : ∃ v, tokenSumUpTo k l = some v := by
  induction l with
  | nil => simp at h
  | cons x rest ih =>
    simp only [tokenSumUpTo]
    rcases hrest : tokenSumUpTo k rest with _ | v
    · have hx : x.Timestamp = k := by
        obtain ⟨y, hy, hyk⟩ := h
        rcases List.mem_cons.1 hy with rfl | hy'
        · exact hyk
        · obtain ⟨v, hv⟩ := ih ⟨y, hy', hyk⟩
          rw [hrest] at hv
          exact Option.noConfusion hv
      exact ⟨x.Tokens, by simp [hx]⟩
    · exact ⟨x.Tokens + v, rfl⟩

theorem tokenSumUpTo_mem (k : String) (l : List ConversationMessage) :
    ∀ v, tokenSumUpTo k l = some v → ∃ x ∈ l, x.Timestamp = k := by
  induction l with
  | nil => intro v h; simp [tokenSumUpTo] at h
  | cons x rest ih =>
    intro v h
    simp only [tokenSumUpTo] at h
    rcases hrest : tokenSumUpTo k rest with _ | v'
    · rw [hrest] at h
      by_cases hx : x.Timestamp = k
      · exact ⟨x, List.mem_cons_self _ _, hx⟩
      · simp [hx] at h
    · obtain ⟨y, hy, hyk⟩ := ih v' hrest
      exact ⟨y, List.mem_cons_of_mem _ hy, hyk⟩

theorem tokenSumUpTo_le (k : String) (l : List ConversationMessage)
    (hnonneg : ∀ x ∈ l, 0 ≤ x.Tokens) :
    ∀ v, tokenSumUpTo k l = some v → 0 ≤ v ∧ v ≤ tokenSum l := by
  induction l with
  | nil => intro v h; simp [tokenSumUpTo] at h
  | cons x rest ih =>
    intro v h
    have hx := hnonneg x (List.mem_cons_self _ _)
    have hrest : ∀ y ∈ rest, 0 ≤ y.Tokens := fun y hy => hnonneg y (List.mem_cons_of_mem _ hy)
    have hsum := tokenSum_nonneg rest hrest
    rw [tokenSum_cons]
    simp only [tokenSumUpTo] at h
    rcases hup : tokenSumUpTo k rest with _ | v'
    · rw [hup] at h
      by_cases hk : x.Timestamp = k
      · simp only [hk, if_true, Option.some.injEq] at h
        omega
      · simp [hk] at h
    · rw [hup] at h
      simp only [Option.some.injEq] at h
      have := ih hrest v' hup
      omega

theorem tokenSumUpTo_sorted (k : String) (l : List ConversationMessage) :
    NonDecreasing l → ∀ v, tokenSumUpTo k l = some v →
      tokenSum l - v = tokenSum (l.filter (fun x => stringLess k x.Timestamp)) := by
  induction l with
  | nil => intro _ v h; simp [tokenSumUpTo] at h
  | cons x rest ih =>
    intro hsorted v h
    have hsorted' := List.pairwise_cons.1 hsorted
    simp only [tokenSumUpTo] at h
    rcases hup : tokenSumUpTo k rest with _ | v'
    · rw [hup] at h
      by_cases hxk : x.Timestamp = k
      · simp only [hxk, if_true, Option.some.injEq] at h
        subst h
        have hall : rest.filter (fun y => stringLess k y.Timestamp) = rest := by
          apply List.filter_eq_self.2
          intro y hy
          have h1 := hsorted'.1 y hy
          rw [hxk] at h1
          cases hb : stringLess k y.Timestamp
          · have hyk := stringLess_connected _ _ h1 hb
            obtain ⟨w, hw⟩ := tokenSumUpTo_of_mem k rest ⟨y, hy, hyk⟩
            rw [hup] at hw
            exact Option.noConfusion hw
          · rfl
        have hx : stringLess k x.Timestamp = false := by rw [hxk]; exact stringLess_irrefl k
        rw [tokenSum_cons]
        simp only [List.filter_cons, hx, hall]
        simp
      · simp [hxk] at h
    · rw [hup] at h
      simp only [Option.some.injEq] at h
      subst h
      obtain ⟨y, hy, hyk⟩ := tokenSumUpTo_mem k rest v' hup
      have hx : stringLess k x.Timestamp = false := by
        have := hsorted'.1 y hy
        rw [hyk] at this
        exact this
      rw [tokenSum_cons]
      have := ih hsorted'.2 v' hup
      simp only [List.filter_cons, hx]
      simp only [Bool.false_eq_true, if_false]
      omega

theorem tokenSum_after_of_sorted (l : List ConversationMessage) (s : ConversationSummary)
    (v : Int) (hsorted : NonDecreasing l)
    (h : tokenSumUpTo s.LastMessageTimestamp l = some v) :
    tokenSum (after s l) = tokenSum l - v :=
  (tokenSumUpTo_sorted s.LastMessageTimestamp l hsorted v h).symm

/-- While the running sum stays in the range of a Go `int`, the loop of lines 131-135
computes the exact sums. -/
theorem convoLoop_exact (l : List ConversationMessage) :
    ∀ (acc : Int) (m : GoMap Int), 0 ≤ acc → (∀ x ∈ l, 0 ≤ x.Tokens) →
      acc + tokenSum l < 2 ^ 63 →
      (convoLoop l acc m).1 = acc + tokenSum l ∧
      ∀ k, (convoLoop l acc m).2.get? k =
        match tokenSumUpTo k l with
        | some v => some (acc + v)
        | none => m.get? k := by
  induction l with
  | nil =>
    intro acc m _ _ _
    simp [convoLoop, tokenSum, tokenSumUpTo]
  | cons x rest ih =>
    intro acc m hacc hnonneg hlt
    have hx := hnonneg x (List.mem_cons_self _ _)
    have hrest : ∀ y ∈ rest, 0 ≤ y.Tokens := fun y hy => hnonneg y (List.mem_cons_of_mem _ hy)
    have hsum := tokenSum_nonneg rest hrest
    rw [tokenSum_cons] at hlt ⊢
    have hadd : GoInt.add acc x.Tokens = acc + x.Tokens :=
      GoInt.add_of_nonneg _ _ (by omega) (by omega)
    simp only [convoLoop, hadd]
    obtain ⟨h1, h2⟩ := ih (acc + x.Tokens) (m.set x.Timestamp (acc + x.Tokens))
      (by omega) hrest (by omega)
    refine ⟨by rw [h1]; ring, fun k => ?_⟩
    rw [h2 k]
    simp only [tokenSumUpTo]
    rcases tokenSumUpTo k rest with _ | v
    · simp only [GoMap.get?_set]
      by_cases hk : x.Timestamp = k <;> simp [hk]
    · simp only [Option.some.injEq]
      ring

theorem totalTokens_exact {Ctx : Type} (E : Externals Ctx) (req : PromptRequest Ctx)
    (hnat : NatCounts E req) (hlt : baseTokens E req < 2 ^ 63) :
    totalTokens E req = baseTokens E req := by
  obtain ⟨h1, h2, h3, h4, -⟩ := hnat
  unfold baseTokens at hlt
  unfold totalTokens baseTokens
  simp only
  rw [GoInt.add_of_nonneg (promptWrapperTokens E) _ (by omega) (by omega),
    GoInt.add_of_nonneg (systemHeadNumTokens E) _ (by omega) (by omega),
    GoInt.add_of_nonneg _ _ (by omega) (by omega)]
  ring

/-- What `NatCounts` and a bound on `base + total(history)` give: the Go sums of lines
113-140 are the exact sums. -/
theorem exact_of_bound {Ctx : Type} (E : Externals Ctx) (req : PromptRequest Ctx)
    (hnat : NatCounts E req) (hlt : baseTokens E req + tokenSum req.Conversation < 2 ^ 63) :
    0 ≤ baseTokens E req ∧ 0 ≤ tokenSum req.Conversation ∧
      totalTokens E req = baseTokens E req ∧
      conversationTokens req.Conversation = tokenSum req.Conversation ∧
      (∀ k, (tokensUpToTimestamp req.Conversation).get? k =
        tokenSumUpTo k req.Conversation) ∧
      GoInt.add (totalTokens E req) (conversationTokens req.Conversation) =
        baseTokens E req + tokenSum req.Conversation := by
  have hsum := tokenSum_nonneg req.Conversation hnat.2.2.2.2
  have hbase : 0 ≤ baseTokens E req := by
    obtain ⟨h1, h2, h3, h4, -⟩ := hnat
    unfold baseTokens
    omega
  have htotal := totalTokens_exact E req hnat (by omega)
  obtain ⟨hc1, hc2⟩ := convoLoop_exact req.Conversation 0 [] (le_refl 0) hnat.2.2.2.2 (by omega)
  have hconv : conversationTokens req.Conversation = tokenSum req.Conversation := by
    unfold conversationTokens
    rw [hc1]
    ring
  refine ⟨hbase, hsum, htotal, hconv, ?_, ?_⟩
  · intro k
    unfold tokensUpToTimestamp
    rw [hc2 k]
    rcases tokenSumUpTo k req.Conversation with _ | v
    · rfl
    · simp
  · rw [htotal, hconv]
    exact GoInt.add_of_nonneg _ _ (by omega) hlt

/-- Under `NoWrap`, the fit test the code computes for a supplied summary is the fit
inequality in exact arithmetic, and so is the test of line 182. -/
theorem NoWrap.fits_iff {Ctx : Type} (E : Externals Ctx) (req : PromptRequest Ctx)
    (h : NoWrap E req) (s : ConversationSummary) (hs : s ∈ req.ConversationSummaries) :
    (Fits E req s ↔ FitsBudget E req s) ∧
      GoInt.add (totalTokens E req) s.Tokens = baseTokens E req + s.Tokens ∧
      ∀ t, (tokensUpToTimestamp req.Conversation).get? s.LastMessageTimestamp = some t →
        GoInt.add (totalTokens E req)
            (GoInt.add (GoInt.sub (conversationTokens req.Conversation) t) s.Tokens) =
          baseTokens E req + (tokenSum req.Conversation - t) + s.Tokens := by
  obtain ⟨hnat, hlt, hsum⟩ := h
  obtain ⟨hs0, hslt⟩ := hsum s hs
  obtain ⟨hbase, htok, htotal, hconv, hmap, -⟩ := exact_of_bound E req hnat hlt
  have hcode : ∀ t, tokenSumUpTo s.LastMessageTimestamp req.Conversation = some t →
      GoInt.add (baseTokens E req)
          (GoInt.add (GoInt.sub (tokenSum req.Conversation) t) s.Tokens) =
        baseTokens E req + (tokenSum req.Conversation - t) + s.Tokens := by
    intro t ht
    obtain ⟨ht0, htle⟩ := tokenSumUpTo_le _ _ hnat.2.2.2.2 t ht
    rw [GoInt.sub_of_nonneg _ _ (by omega) (by omega),
      GoInt.add_of_nonneg (tokenSum req.Conversation - t) _ (by omega) (by omega),
      GoInt.add_of_nonneg _ _ (by omega) (by omega)]
    ring
  refine ⟨?_, ?_, ?_⟩
  · unfold Fits FitsBudget
    constructor
    · rintro ⟨t, ht, hfit⟩
      rw [hmap] at ht
      rw [htotal, hconv, hcode t ht] at hfit
      exact ⟨t, ht, hfit⟩
    · rintro ⟨t, ht, hfit⟩
      refine ⟨t, by rw [hmap]; exact ht, ?_⟩
      rw [htotal, hconv, hcode t ht]
      exact hfit
  · rw [htotal]
    exact GoInt.add_of_nonneg _ _ (by omega) (by omega)
  · intro t ht
    rw [hmap] at ht
    rw [htotal, hconv, hcode t ht]

end CreateProposal
/-! ## Prompt assembly: the budget -/

open CreateProposal in
/-- C2, as amended. On a run outside test mode in which the proposal id is generated, for
a request whose history timestamps are non-decreasing and whose token counts are natural
numbers small enough that no sum wraps around (`NoWrap`): if prompt assembly succeeds,
then `base` plus the tokens of the summary (if one is used) plus the tokens of the
history messages put in the message list is at most `MaxTokens`, in exact arithmetic, the
list being the system message, the summary message if any, those history messages, and
the prompt message; otherwise `CreateProposal` returns the error of prompt assembly,
having done nothing but the callback with the proposal id: no proposal is registered, no
stream is opened. -/
theorem CreateProposal_assembles_within_budget {Ctx : Type} (E : Externals Ctx)
    (R : CreateProposal.Run) (req : PromptRequest Ctx) (proposalId : String)
    (hgo : R.goEnv ≠ "test") (hid : R.NewRandom = .ok proposalId)
    (hsorted : NonDecreasing req.Conversation) (hnowrap : NoWrap E req) :
    (∃ a, assemble E req = .ok a ∧
      ((a.summary = none ∧
          a.messages = [systemMessage E req] ++
            req.Conversation.map (fun x => x.Message) ++ [promptMessage req] ∧
          baseTokens E req + tokenSum req.Conversation ≤ E.MaxTokens) ∨
        (∃ s, a.summary = some s ∧
          a.messages = [systemMessage E req, summaryMessage s] ++
            (after s req.Conversation).map (fun x => x.Message) ++ [promptMessage req] ∧
          baseTokens E req + s.Tokens + tokenSum (after s req.Conversation) ≤
            E.MaxTokens))) ∨
      (∃ err, assemble E req = .error err ∧
        CreateProposal E R req =
          { err := some err, effects := [.onStream (.proposalId proposalId) none],
            spawned := none }) := by
  rcases ha : assemble E req with err | a
  · right
    exact ⟨err, rfl, CreateProposal_of_assemble_error E R req proposalId err hgo hid ha⟩
  · left
    refine ⟨a, rfl, ?_⟩
    obtain ⟨-, -, -, -, -, hadd⟩ := exact_of_bound E req hnowrap.1 hnowrap.2.1
    rcases hs : a.summary with _ | s
    · left
      obtain ⟨-, hfit, hmsgs⟩ := assemble_ok_none E req a ha hs
      rw [hadd] at hfit
      exact ⟨rfl, hmsgs, hfit⟩
    · right
      obtain ⟨-, -, hsel, -, hmsgs⟩ := assemble_ok_some E req a s ha hs
      obtain ⟨pre, post, hsplit, -, t, ht, hfit⟩ := selectSummary_ok_some _ _ _ _ _ _ hsel
      have hmem : s ∈ req.ConversationSummaries := by
        rw [hsplit]
        exact List.mem_append_right _ (List.mem_cons_self _ _)
      obtain ⟨-, -, hcode⟩ := NoWrap.fits_iff E req hnowrap s hmem
      rw [hcode t ht] at hfit
      obtain ⟨-, -, -, -, hmap, -⟩ := exact_of_bound E req hnowrap.1 hnowrap.2.1
      rw [hmap] at ht
      refine ⟨s, rfl, hmsgs, ?_⟩
      rw [tokenSum_after_of_sorted req.Conversation s t hsorted ht]
      linarith

/-- Witness of C2: 8 + 110 tokens against a budget of 100; the summary up to timestamp
`1` (10 tokens) is used, and 8 + 10 + 50 tokens are sent. -/
theorem CreateProposal_assembles_within_budget_witness :
    (∃ a, CreateProposal.assemble (externalsExample 100) requestSummarized = .ok a ∧
      ((a.summary = none ∧
          a.messages = [CreateProposal.systemMessage (externalsExample 100) requestSummarized] ++
            requestSummarized.Conversation.map (fun x => x.Message) ++
            [CreateProposal.promptMessage requestSummarized] ∧
          CreateProposal.baseTokens (externalsExample 100) requestSummarized +
              CreateProposal.tokenSum requestSummarized.Conversation ≤
            (externalsExample 100).MaxTokens) ∨
        (∃ s, a.summary = some s ∧
          a.messages = [CreateProposal.systemMessage (externalsExample 100) requestSummarized,
              CreateProposal.summaryMessage s] ++
            (CreateProposal.after s requestSummarized.Conversation).map
              (fun x => x.Message) ++
            [CreateProposal.promptMessage requestSummarized] ∧
          CreateProposal.baseTokens (externalsExample 100) requestSummarized + s.Tokens +
              CreateProposal.tokenSum
                (CreateProposal.after s requestSummarized.Conversation) ≤
            (externalsExample 100).MaxTokens))) ∨
      (∃ err, CreateProposal.assemble (externalsExample 100) requestSummarized = .error err ∧
        CreateProposal (externalsExample 100) runExample requestSummarized =
          { err := some err, effects := [.onStream (.proposalId "id-1") none],
            spawned := none }) :=
  CreateProposal_assembles_within_budget (externalsExample 100) runExample requestSummarized
    "id-1" (by decide) rfl (by decide) (by decide)

/-- Counterexample to C2 as stated. In test mode, for a request that is over budget
before the conversation (8 tokens against 5), prompt assembly does not succeed, yet
`CreateProposal` returns no error. And outside test mode, for a history of `2^63 - 1` and
1 tokens against a budget of 100, the sum the code takes wraps around to `-2^63`: prompt
assembly succeeds with the whole history, `CreateProposal` returns no error, and
`base` plus the tokens of the history is not within the budget. -/
theorem CreateProposal_budget_not_kept :
    (CreateProposal.NonDecreasing (requestExample [] []).Conversation ∧
      CreateProposal.assemble (externalsExample 5) (requestExample [] []) =
        .error "token limit exceeded before adding conversation" ∧
      (CreateProposal (externalsExample 5) runTestMode (requestExample [] [])).err = none) ∧
    (CreateProposal.NonDecreasing (requestWrapped []).Conversation ∧
      CreateProposal.assemble (externalsExample 100) (requestWrapped []) =
        .ok { messages := [CreateProposal.systemMessage (externalsExample 100)
                  (requestWrapped [])] ++
                (requestWrapped []).Conversation.map (fun x => x.Message) ++
                [CreateProposal.promptMessage (requestWrapped [])],
              summary := none } ∧
      (CreateProposal (externalsExample 100) runExample (requestWrapped [])).err = none ∧
      ¬ CreateProposal.baseTokens (externalsExample 100) (requestWrapped []) +
          CreateProposal.tokenSum (requestWrapped []).Conversation ≤
        (externalsExample 100).MaxTokens) := by
  refine ⟨⟨by decide, rfl, rfl⟩, by decide, rfl, rfl, by decide⟩

open CreateProposal in
/-- C3, as amended. For token counts that are natural numbers small enough that no sum
wraps around (`NoWrap`): when `base + total(history) > MaxTokens` and the timestamp of
every supplied summary occurs in the history, the summary that prompt assembly uses is
the first one, in the order of `req.ConversationSummaries`, that satisfies the fit
inequality, no earlier summary satisfying it; and whenever some summary is the first to
satisfy it, prompt assembly succeeds and uses that summary. -/
theorem CreateProposal_uses_first_fitting_summary {Ctx : Type} (E : Externals Ctx)
    (req : PromptRequest Ctx) (hnowrap : NoWrap E req)
    (hover : baseTokens E req + tokenSum req.Conversation > E.MaxTokens)
    (hocc : ∀ s ∈ req.ConversationSummaries,
      ∃ x ∈ req.Conversation, x.Timestamp = s.LastMessageTimestamp) :
    (∀ a, assemble E req = .ok a →
      ∃ s pre post, a.summary = some s ∧ req.ConversationSummaries = pre ++ s :: post ∧
        FitsBudget E req s ∧ ∀ s' ∈ pre, ¬ FitsBudget E req s') ∧
      (∀ s pre post, req.ConversationSummaries = pre ++ s :: post → FitsBudget E req s →
        (∀ s' ∈ pre, ¬ FitsBudget E req s') →
        assemble E req =
          .ok { messages := [systemMessage E req, summaryMessage s] ++
                  (after s req.Conversation).map (fun x => x.Message) ++ [promptMessage req],
                summary := some s }) := by
  obtain ⟨hbase0, hsum0, htotal, hconv, hmap, hadd⟩ :=
    exact_of_bound E req hnowrap.1 hnowrap.2.1
  have hover' : GoInt.add (totalTokens E req) (conversationTokens req.Conversation) >
      E.MaxTokens := by
    rw [hadd]
    exact hover
  constructor
  · intro a ha
    rcases hs : a.summary with _ | s
    · have := (assemble_ok_none E req a ha hs).2.1
      exact absurd this (not_le.2 hover')
    · obtain ⟨-, -, hsel, -, -⟩ := assemble_ok_some E req a s ha hs
      obtain ⟨pre, post, hsplit, hpre, hfit⟩ := selectSummary_ok_some _ _ _ _ _ _ hsel
      have hmem : s ∈ req.ConversationSummaries := by
        rw [hsplit]
        exact List.mem_append_right _ (List.mem_cons_self _ _)
      refine ⟨s, pre, post, rfl, hsplit, (NoWrap.fits_iff E req hnowrap s hmem).1.1 hfit, ?_⟩
      intro s' hs' hfits
      have hmem' : s' ∈ req.ConversationSummaries := by
        rw [hsplit]
        exact List.mem_append_left _ hs'
      obtain ⟨t, ht, hnot⟩ := hpre s' hs'
      obtain ⟨t', ht', hyes⟩ := (NoWrap.fits_iff E req hnowrap s' hmem').1.2 hfits
      rw [ht] at ht'
      cases ht'
      exact hnot hyes
  · intro s pre post hsplit hfit hpre
    have hmem : s ∈ req.ConversationSummaries := by
      rw [hsplit]
      exact List.mem_append_right _ (List.mem_cons_self _ _)
    obtain ⟨hiff, hroom, -⟩ := NoWrap.fits_iff E req hnowrap s hmem
    have hs0 := (hnowrap.2.2 s hmem).1
    obtain ⟨t, ht, hle⟩ := hfit
    obtain ⟨ht0, htle⟩ := tokenSumUpTo_le _ _ hnowrap.1.2.2.2.2 t ht
    have hbase : totalTokens E req ≤ E.MaxTokens := by
      rw [htotal]
      omega
    have hsel : selectSummary E.MaxTokens (totalTokens E req)
        (conversationTokens req.Conversation) (tokensUpToTimestamp req.Conversation)
        req.ConversationSummaries = .ok (some s) := by
      rw [hsplit]
      refine selectSummary_of_first_fit _ _ _ _ pre s post ?_ (hiff.2 ⟨t, ht, hle⟩)
      intro s' hs'
      have hmem' : s' ∈ req.ConversationSummaries := by
        rw [hsplit]
        exact List.mem_append_left _ hs'
      obtain ⟨t', ht'⟩ := tokensUpToTimestamp_get?_of_mem req.Conversation _ (hocc s' hmem')
      exact ⟨t', ht', fun hyes =>
        hpre s' hs' ((NoWrap.fits_iff E req hnowrap s' hmem').1.1 ⟨t', ht', hyes⟩)⟩
    rw [assemble_of_over E req hbase hover', hsel]
    have hroom' : ¬ GoInt.add (totalTokens E req) s.Tokens > E.MaxTokens := by
      rw [hroom]
      omega
    simp [hroom']

/-- Witness of C3: 8 + 1100 tokens against 1000; both summaries fit, the first is used. -/
theorem CreateProposal_uses_first_fitting_summary_witness :
    (∀ a, CreateProposal.assemble (externalsExample 1000) requestTwoFits = .ok a →
      ∃ s pre post, a.summary = some s ∧
        requestTwoFits.ConversationSummaries = pre ++ s :: post ∧
        CreateProposal.FitsBudget (externalsExample 1000) requestTwoFits s ∧
        ∀ s' ∈ pre, ¬ CreateProposal.FitsBudget (externalsExample 1000) requestTwoFits s') ∧
      CreateProposal.assemble (externalsExample 1000) requestTwoFits =
        .ok { messages := [CreateProposal.systemMessage (externalsExample 1000) requestTwoFits,
                  CreateProposal.summaryMessage (summaryExample "1" 100)] ++
                (CreateProposal.after (summaryExample "1" 100)
                  requestTwoFits.Conversation).map (fun x => x.Message) ++
                [CreateProposal.promptMessage requestTwoFits],
              summary := some (summaryExample "1" 100) } :=
  ⟨(CreateProposal_uses_first_fitting_summary (externalsExample 1000) requestTwoFits
      (by decide) (by decide) (by decide)).1,
    (CreateProposal_uses_first_fitting_summary (externalsExample 1000) requestTwoFits
      (by decide) (by decide) (by decide)).2 (summaryExample "1" 100) []
      [summaryExample "2" 450] rfl (by decide) (by simp)⟩

/-- Counterexample to C3 as stated: a history of `2^63 - 1`, `2^63 - 1` and 10 tokens with
a summary of 2 tokens up to the first message, 8 tokens before the conversation and a
budget of 10. `base + total(history)` is over the budget and the summary's timestamp
occurs in the history; the sums the code takes wrap around, prompt assembly uses the
summary, and the summary does not satisfy the fit inequality:
`8 + (2^64 + 8 - (2^63 - 1)) + 2` is not at most 10. -/
theorem CreateProposal_uses_summary_that_does_not_fit :
    CreateProposal.baseTokens (externalsExample 10) (requestWrappedTwice 2) +
          CreateProposal.tokenSum (requestWrappedTwice 2).Conversation >
        (externalsExample 10).MaxTokens ∧
      (∀ s ∈ (requestWrappedTwice 2).ConversationSummaries,
        ∃ x ∈ (requestWrappedTwice 2).Conversation, x.Timestamp = s.LastMessageTimestamp) ∧
      CreateProposal.assemble (externalsExample 10) (requestWrappedTwice 2) =
        .ok { messages := [CreateProposal.systemMessage (externalsExample 10)
                  (requestWrappedTwice 2),
                  CreateProposal.summaryMessage (summaryExample "1" 2)] ++
                (CreateProposal.after (summaryExample "1" 2)
                  (requestWrappedTwice 2).Conversation).map (fun x => x.Message) ++
                [CreateProposal.promptMessage (requestWrappedTwice 2)],
              summary := some (summaryExample "1" 2) } ∧
      ¬ CreateProposal.FitsBudget (externalsExample 10) (requestWrappedTwice 2)
          (summaryExample "1" 2) := by
  refine ⟨by decide, by decide, rfl, by decide⟩
open CreateProposal in
/-- C4, as amended. On a run outside test mode in which the proposal id is generated, if
`totalTokens` is greater than `MaxTokens` then `CreateProposal` returns the error
`token limit exceeded before adding conversation`, whatever the conversation and the
summaries are, having done nothing but the callback with the proposal id: no proposal is
registered, no stream is opened. -/
theorem CreateProposal_rejects_base_over_budget {Ctx : Type} (E : Externals Ctx)
    (R : CreateProposal.Run) (req : PromptRequest Ctx) (proposalId : String)
    (hgo : R.goEnv ≠ "test") (hid : R.NewRandom = .ok proposalId)
    (hbase : totalTokens E req > E.MaxTokens) :
    CreateProposal E R req =
      { err := some "token limit exceeded before adding conversation",
        effects := [.onStream (.proposalId proposalId) none],
        spawned := none } :=
  CreateProposal_of_assemble_error E R req proposalId _ hgo hid
    (assemble_of_base_exceeded E req hbase)

/-- Witness of C4: 8 tokens before the conversation against a budget of 5. -/
theorem CreateProposal_rejects_base_over_budget_witness :
    CreateProposal (externalsExample 5) runExample requestSummarized =
      { err := some "token limit exceeded before adding conversation",
        effects := [.onStream (.proposalId "id-1") none],
        spawned := none } :=
  CreateProposal_rejects_base_over_budget (externalsExample 5) runExample requestSummarized
    "id-1" (by decide) rfl (by decide)

/-- Counterexample to C4 as stated: in test mode `CreateProposal` streams the test text
and returns nil although `totalTokens` (8) is greater than `MaxTokens` (5). -/
theorem CreateProposal_test_mode_accepts_base_over_budget :
    CreateProposal.totalTokens (externalsExample 5) requestSummarized >
        (externalsExample 5).MaxTokens ∧
      CreateProposal (externalsExample 5) runTestMode requestSummarized =
        { err := none, effects := [.streamLoremIpsum], spawned := none } := by
  refine ⟨by decide, rfl⟩

open CreateProposal in
/-- C5. For token counts that are natural numbers, as the specification has them, and a
budget that a Go `int` holds: if `base` plus the tokens of all history messages is at most
`MaxTokens`, the assembled message list is the system message (`systemMessageHead`
followed by the formatted context), every history message in its order, and the wrapped
prompt as a user message, of length `len(history) + 2`, and no summary is used, whatever
summaries were supplied. It is the list with which `CreateProposal` opens the stream. -/
theorem CreateProposal_assembles_whole_history {Ctx : Type} (E : Externals Ctx)
    (req : PromptRequest Ctx) (hnat : NatCounts E req) (hmax : E.MaxTokens < 2 ^ 63)
    (hfit : baseTokens E req + tokenSum req.Conversation ≤ E.MaxTokens) :
    assemble E req =
        .ok { messages := [systemMessage E req] ++
                req.Conversation.map (fun x => x.Message) ++ [promptMessage req],
              summary := none } ∧
      ([systemMessage E req] ++ req.Conversation.map (fun x => x.Message) ++
        [promptMessage req]).length = req.Conversation.length + 2 ∧
      (systemMessage E req).Role = "system" ∧
      (systemMessage E req).Content =
        E.systemMessageHead ++ (E.FormatModelContext req.ModelContext).1 ∧
      (promptMessage req).Role = "user" ∧
      (promptMessage req).Content = promptWrapperFormatStr req.Prompt ∧
      ∀ (R : Run) (proposalId : String), R.goEnv ≠ "test" → R.NewRandom = .ok proposalId →
        (CreateProposal E R req).effects.take 3 =
          [.onStream (.proposalId proposalId) none,
            .proposalsSet proposalId (newProposal proposalId req),
            .CreateChatCompletionStream ([systemMessage E req] ++
              req.Conversation.map (fun x => x.Message) ++ [promptMessage req])] := by
  obtain ⟨hbase0, hsum0, htotal, -, -, hadd⟩ := exact_of_bound E req hnat (by omega)
  have ha : assemble E req =
      .ok { messages := [systemMessage E req] ++
              req.Conversation.map (fun x => x.Message) ++ [promptMessage req],
            summary := none } := by
    apply assemble_of_fit
    · rw [htotal]
      omega
    · rw [hadd]
      exact hfit
  refine ⟨ha, by simp, rfl, rfl, rfl, rfl, ?_⟩
  intro R proposalId hgo hid
  exact CreateProposal_opens_with E R req proposalId _ hgo hid ha

/-- Witness of C5: 8 tokens, a history of 100 tokens in three messages, a budget of
4000. -/
theorem CreateProposal_assembles_whole_history_witness :
    CreateProposal.assemble (externalsExample 4000) requestSmall =
      .ok { messages := [CreateProposal.systemMessage (externalsExample 4000) requestSmall] ++
              requestSmall.Conversation.map (fun x => x.Message) ++
              [CreateProposal.promptMessage requestSmall],
            summary := none } :=
  (CreateProposal_assembles_whole_history (externalsExample 4000) requestSmall
    (by decide) (by decide) (by decide)).1

open CreateProposal in
/-- C6, as amended. When the selection loop has run (`totalTokens <= MaxTokens`, and
`totalTokens + conversationTokens > MaxTokens` as line 140 computes it) and has accepted a
summary `s`: if the test of lines 182-185 passes (`totalTokens + s.Tokens <= MaxTokens`),
the assembled message list is the system message, one assistant message with `s.Summary`,
the history messages whose timestamp is greater than `s.LastMessageTimestamp` in their
order, and the prompt message, and no history message whose timestamp is not greater is
among those; if that test fails, prompt assembly stops with the error `token limit still
exceeded after summarizing conversation`, and `CreateProposal`, outside test mode with
the id generated, returns it having done nothing but the callback with the proposal
id. -/
theorem CreateProposal_assembles_with_summary {Ctx : Type} (E : Externals Ctx)
    (req : PromptRequest Ctx) (s : ConversationSummary)
    (hbase : totalTokens E req ≤ E.MaxTokens)
    (hover : GoInt.add (totalTokens E req) (conversationTokens req.Conversation) >
      E.MaxTokens)
    (hsel : selectSummary E.MaxTokens (totalTokens E req)
      (conversationTokens req.Conversation) (tokensUpToTimestamp req.Conversation)
      req.ConversationSummaries = .ok (some s)) :
    (GoInt.add (totalTokens E req) s.Tokens ≤ E.MaxTokens →
        assemble E req =
          .ok { messages := [systemMessage E req, summaryMessage s] ++
                  (after s req.Conversation).map (fun x => x.Message) ++ [promptMessage req],
                summary := some s }) ∧
      (GoInt.add (totalTokens E req) s.Tokens > E.MaxTokens →
        assemble E req =
            .error "token limit still exceeded after summarizing conversation" ∧
          ∀ (R : Run) (proposalId : String), R.goEnv ≠ "test" →
            R.NewRandom = .ok proposalId →
            CreateProposal E R req =
              { err := some "token limit still exceeded after summarizing conversation",
                effects := [.onStream (.proposalId proposalId) none],
                spawned := none }) ∧
      (summaryMessage s).Role = "assistant" ∧ (summaryMessage s).Content = s.Summary ∧
      (after s req.Conversation).Sublist req.Conversation ∧
      (∀ x ∈ req.Conversation,
        x ∈ after s req.Conversation ↔ stringLess s.LastMessageTimestamp x.Timestamp = true) := by
  refine ⟨?_, ?_, rfl, rfl, List.filter_sublist _, ?_⟩
  · intro hroom
    rw [assemble_of_over E req hbase hover, hsel]
    simp [not_lt.2 hroom]
  · intro hroom
    have ha : assemble E req =
        .error "token limit still exceeded after summarizing conversation" := by
      rw [assemble_of_over E req hbase hover, hsel]
      simp [hroom]
    exact ⟨ha, fun R proposalId hgo hid =>
      CreateProposal_of_assemble_error E R req proposalId _ hgo hid ha⟩
  · intro x hx
    simp [after, List.mem_filter, hx]

/-- Witness of C6: 8 + 110 tokens against 100; the summary up to `1` is accepted, and
the message with timestamp `2` follows it. -/
theorem CreateProposal_assembles_with_summary_witness :
    CreateProposal.assemble (externalsExample 100) requestSummarized =
      .ok { messages := [CreateProposal.systemMessage (externalsExample 100) requestSummarized,
                CreateProposal.summaryMessage (summaryExample "1" 10)] ++
              (CreateProposal.after (summaryExample "1" 10)
                requestSummarized.Conversation).map (fun x => x.Message) ++
              [CreateProposal.promptMessage requestSummarized],
            summary := some (summaryExample "1" 10) } :=
  (CreateProposal_assembles_with_summary (externalsExample 100) requestSummarized
    (summaryExample "1" 10) (by decide) (by decide) rfl).1 (by decide)

/-- Counterexample to C6 as stated: a history of `2^63 - 1`, `2^63 - 1` and 10 tokens, all
natural numbers, with a summary of 6 tokens up to the first message, 8 tokens before the
conversation and a budget of 10. The sums the code takes wrap around: `conversationTokens`
is 8, the selection loop runs and accepts the summary, and yet no message list is
assembled: line 182 finds 8 + 6 over the budget and the request is rejected. -/
theorem CreateProposal_accepted_summary_rejected :
    CreateProposal.NatCounts (externalsExample 10) (requestWrappedTwice 6) ∧
      CreateProposal.totalTokens (externalsExample 10) (requestWrappedTwice 6) ≤
        (externalsExample 10).MaxTokens ∧
      GoInt.add (CreateProposal.totalTokens (externalsExample 10) (requestWrappedTwice 6))
          (CreateProposal.conversationTokens (requestWrappedTwice 6).Conversation) >
        (externalsExample 10).MaxTokens ∧
      CreateProposal.selectSummary (externalsExample 10).MaxTokens
        (CreateProposal.totalTokens (externalsExample 10) (requestWrappedTwice 6))
        (CreateProposal.conversationTokens (requestWrappedTwice 6).Conversation)
        (CreateProposal.tokensUpToTimestamp (requestWrappedTwice 6).Conversation)
        (requestWrappedTwice 6).ConversationSummaries = .ok (some (summaryExample "1" 6)) ∧
      CreateProposal.assemble (externalsExample 10) (requestWrappedTwice 6) =
        .error "token limit still exceeded after summarizing conversation" := by
  refine ⟨by decide, by decide, by decide, rfl, rfl⟩

open CreateProposal in
/-- C7, as amended. On a run outside test mode in which the proposal id is generated, for
token counts that are natural numbers small enough that no sum wraps around (`NoWrap`):
when `base <= MaxTokens < base + total(history)`, the timestamp of every supplied summary
occurs in the history, and no supplied summary satisfies the fit inequality (in
particular when there is none), `CreateProposal` returns the error `couldn't get under
token limit with conversation summary`, having done nothing but the callback with the
proposal id: no proposal is registered, no stream is opened. -/
theorem CreateProposal_rejects_when_no_summary_fits {Ctx : Type} (E : Externals Ctx)
    (R : CreateProposal.Run) (req : PromptRequest Ctx) (proposalId : String)
    (hgo : R.goEnv ≠ "test") (hid : R.NewRandom = .ok proposalId)
    (hnowrap : NoWrap E req)
    (hbase : baseTokens E req ≤ E.MaxTokens)
    (hover : baseTokens E req + tokenSum req.Conversation > E.MaxTokens)
    (hocc : ∀ s ∈ req.ConversationSummaries,
      ∃ x ∈ req.Conversation, x.Timestamp = s.LastMessageTimestamp)
    (hnone : ∀ s ∈ req.ConversationSummaries, ¬ FitsBudget E req s) :
    CreateProposal E R req =
      { err := some "couldn't get under token limit with conversation summary",
        effects := [.onStream (.proposalId proposalId) none],
        spawned := none } := by
  obtain ⟨-, -, htotal, -, -, hadd⟩ := exact_of_bound E req hnowrap.1 hnowrap.2.1
  apply CreateProposal_of_assemble_error E R req proposalId _ hgo hid
  rw [assemble_of_over E req (by rw [htotal]; exact hbase) (by rw [hadd]; exact hover),
    selectSummary_of_none_fit]
  intro s hs
  obtain ⟨t, ht⟩ := tokensUpToTimestamp_get?_of_mem req.Conversation _ (hocc s hs)
  exact ⟨t, ht, fun hyes =>
    hnone s hs ((NoWrap.fits_iff E req hnowrap s hs).1.1 ⟨t, ht, hyes⟩)⟩

/-- Witness of C7: 8 + 110 tokens against 100, with a summary of 100 tokens up to
timestamp `1`, which leaves 8 + 50 + 100. -/
theorem CreateProposal_rejects_when_no_summary_fits_witness :
    CreateProposal (externalsExample 100) runExample requestSummaryTooLarge =
      { err := some "couldn't get under token limit with conversation summary",
        effects := [.onStream (.proposalId "id-1") none],
        spawned := none } :=
  CreateProposal_rejects_when_no_summary_fits (externalsExample 100) runExample
    requestSummaryTooLarge "id-1" (by decide) rfl (by decide) (by decide) (by decide)
    (by decide) (by decide)

/-- Counterexample to C7 as stated. In test mode `CreateProposal` returns nil for a
request of 8 + 200 tokens against 100 with no summary. And outside test mode, for a
history of `2^63 - 1` and 1 tokens against a budget of 100 with a summary of 200 tokens up
to timestamp `1`, which does not satisfy the fit inequality (`8 + 1 + 200`), the sum the
code takes wraps around to `-2^63`, the summaries are not looked at, and `CreateProposal`
returns nil, the stream opened and the goroutine started. -/
theorem CreateProposal_over_budget_accepted :
    (CreateProposal.baseTokens (externalsExample 100) requestNoSummary ≤
        (externalsExample 100).MaxTokens ∧
      (externalsExample 100).MaxTokens <
        CreateProposal.baseTokens (externalsExample 100) requestNoSummary +
          CreateProposal.tokenSum requestNoSummary.Conversation ∧
      requestNoSummary.ConversationSummaries = [] ∧
      (CreateProposal (externalsExample 100) runTestMode requestNoSummary).err = none) ∧
    (CreateProposal.baseTokens (externalsExample 100)
          (requestWrapped [summaryExample "1" 200]) ≤ (externalsExample 100).MaxTokens ∧
      (externalsExample 100).MaxTokens <
        CreateProposal.baseTokens (externalsExample 100)
            (requestWrapped [summaryExample "1" 200]) +
          CreateProposal.tokenSum (requestWrapped [summaryExample "1" 200]).Conversation ∧
      (∀ s ∈ (requestWrapped [summaryExample "1" 200]).ConversationSummaries,
        (∃ x ∈ (requestWrapped [summaryExample "1" 200]).Conversation,
          x.Timestamp = s.LastMessageTimestamp) ∧
        ¬ CreateProposal.FitsBudget (externalsExample 100)
            (requestWrapped [summaryExample "1" 200]) s) ∧
      (CreateProposal (externalsExample 100) runExample
        (requestWrapped [summaryExample "1" 200])).err = none ∧
      (CreateProposal (externalsExample 100) runExample
        (requestWrapped [summaryExample "1" 200])).spawned.isSome = true) := by
  refine ⟨⟨by decide, by decide, rfl, rfl⟩, by decide, by decide, by decide, rfl, rfl⟩

open CreateProposal in
/-- C8, as amended. For summaries supplied in increasing order of `LastMessageTimestamp`,
the summary that prompt assembly uses passes the fit test and has the least timestamp
among the supplied summaries that pass it: it is the first that fits, replacing the
shortest part of the history. -/
theorem CreateProposal_uses_earliest_fitting_summary {Ctx : Type} (E : Externals Ctx)
    (req : PromptRequest Ctx) (a : Assembled) (s : ConversationSummary)
    (hinc : req.ConversationSummaries.Pairwise
      (fun s1 s2 => stringLess s1.LastMessageTimestamp s2.LastMessageTimestamp = true))
    (ha : assemble E req = .ok a) (hs : a.summary = some s) :
    Fits E req s ∧
      ∀ s' ∈ req.ConversationSummaries, Fits E req s' →
        stringLess s'.LastMessageTimestamp s.LastMessageTimestamp = false := by
  obtain ⟨-, -, hsel, -, -⟩ := assemble_ok_some E req a s ha hs
  obtain ⟨pre, post, hsplit, hpre, hfit⟩ := selectSummary_ok_some _ _ _ _ _ _ hsel
  refine ⟨hfit, ?_⟩
  intro s' hs' hfits
  rw [hsplit] at hs' hinc
  rcases List.mem_append.1 hs' with hin | hin
  · obtain ⟨t, ht, hnot⟩ := hpre s' hin
    obtain ⟨t', ht', hyes⟩ := hfits
    rw [ht] at ht'
    cases ht'
    exact absurd hyes hnot
  · rcases List.mem_cons.1 hin with rfl | hpost
    · exact stringLess_irrefl _
    · have h2 := (List.pairwise_append.1 hinc).2.1
      exact stringLess_asymm _ _ ((List.pairwise_cons.1 h2).1 s' hpost)

/-- Witness of C8: of the two fitting summaries the one up to timestamp `1` is used. -/
theorem CreateProposal_uses_earliest_fitting_summary_witness :
    CreateProposal.Fits (externalsExample 1000) requestTwoFits (summaryExample "1" 100) ∧
      ∀ s' ∈ requestTwoFits.ConversationSummaries,
        CreateProposal.Fits (externalsExample 1000) requestTwoFits s' →
        stringLess s'.LastMessageTimestamp (summaryExample "1" 100).LastMessageTimestamp =
          false :=
  CreateProposal_uses_earliest_fitting_summary (externalsExample 1000) requestTwoFits
    { messages := [CreateProposal.systemMessage (externalsExample 1000) requestTwoFits,
          CreateProposal.summaryMessage (summaryExample "1" 100)] ++
        (CreateProposal.after (summaryExample "1" 100) requestTwoFits.Conversation).map
          (fun x => x.Message) ++ [CreateProposal.promptMessage requestTwoFits],
      summary := some (summaryExample "1" 100) }
    (summaryExample "1" 100) (by decide) rfl rfl

/-- Counterexample to C8 as stated: with 8 + 1100 tokens against 1000 and the summaries
supplied in timestamp order, the summary up to `1` is used, saving 500 - 100 = 400
tokens, although the summary up to `2` fits too and saves only 600 - 450 = 150. -/
theorem CreateProposal_first_fit_is_not_least_saving :
    requestTwoFits.ConversationSummaries.Pairwise
        (fun s1 s2 => stringLess s1.LastMessageTimestamp s2.LastMessageTimestamp = true) ∧
      (∃ a, CreateProposal.assemble (externalsExample 1000) requestTwoFits = .ok a ∧
        a.summary = some (summaryExample "1" 100)) ∧
      CreateProposal.Fits (externalsExample 1000) requestTwoFits (summaryExample "2" 450) ∧
      (CreateProposal.tokensUpToTimestamp requestTwoFits.Conversation).get? "1" = some 500 ∧
      (CreateProposal.tokensUpToTimestamp requestTwoFits.Conversation).get? "2" = some 600 ∧
      (600 : Int) - (summaryExample "2" 450).Tokens < 500 - (summaryExample "1" 100).Tokens := by
  refine ⟨by decide, ⟨_, rfl, rfl⟩, by decide, rfl, rfl, by decide⟩

open CreateProposal in
/-- C24, as amended. If every token count is a natural number and no sum wraps around
(`NoWrap`), then whenever the selection loop accepts a summary `s`, the tokens up to its
timestamp are at most the history tokens and `base + s.Tokens <= MaxTokens` holds
already; prompt assembly never returns the error `token limit still exceeded after
summarizing conversation`. -/
theorem CreateProposal_still_exceeded_unreachable {Ctx : Type} (E : Externals Ctx)
    (req : PromptRequest Ctx) (hnowrap : NoWrap E req) :
    (∀ s, selectSummary E.MaxTokens (totalTokens E req) (conversationTokens req.Conversation)
        (tokensUpToTimestamp req.Conversation) req.ConversationSummaries = .ok (some s) →
      (∃ tokens, tokenSumUpTo s.LastMessageTimestamp req.Conversation = some tokens ∧
        tokens ≤ tokenSum req.Conversation) ∧
      baseTokens E req + s.Tokens ≤ E.MaxTokens ∧
      GoInt.add (totalTokens E req) s.Tokens ≤ E.MaxTokens) ∧
      assemble E req ≠ .error "token limit still exceeded after summarizing conversation" := by
  obtain ⟨hbase0, hsum0, htotal, hconv, hmap, hadd⟩ :=
    exact_of_bound E req hnowrap.1 hnowrap.2.1
  have hfirst : ∀ s, selectSummary E.MaxTokens (totalTokens E req)
      (conversationTokens req.Conversation) (tokensUpToTimestamp req.Conversation)
      req.ConversationSummaries = .ok (some s) →
      (∃ tokens, tokenSumUpTo s.LastMessageTimestamp req.Conversation = some tokens ∧
        tokens ≤ tokenSum req.Conversation) ∧
      baseTokens E req + s.Tokens ≤ E.MaxTokens ∧
      GoInt.add (totalTokens E req) s.Tokens ≤ E.MaxTokens := by
    intro s hsel
    obtain ⟨pre, post, hsplit, -, t, ht, hfit⟩ := selectSummary_ok_some _ _ _ _ _ _ hsel
    have hmem : s ∈ req.ConversationSummaries := by
      rw [hsplit]
      exact List.mem_append_right _ (List.mem_cons_self _ _)
    obtain ⟨-, hroom, hcode⟩ := NoWrap.fits_iff E req hnowrap s hmem
    rw [hcode t ht] at hfit
    rw [hmap] at ht
    obtain ⟨-, hle⟩ := tokenSumUpTo_le _ _ hnowrap.1.2.2.2.2 t ht
    refine ⟨⟨t, ht, hle⟩, by omega, ?_⟩
    rw [hroom]
    omega
  refine ⟨hfirst, ?_⟩
  by_cases hbase : totalTokens E req > E.MaxTokens
  · rw [assemble_of_base_exceeded E req hbase]
    exact fun h => absurd (Except.error.inj h) (by decide)
  · have hbase' := not_lt.1 hbase
    by_cases hfit : GoInt.add (totalTokens E req) (conversationTokens req.Conversation) ≤
        E.MaxTokens
    · rw [assemble_of_fit E req hbase' hfit]
      exact fun h => Except.noConfusion h
    · rw [assemble_of_over E req hbase' (not_le.1 hfit)]
      rcases hsel : selectSummary E.MaxTokens (totalTokens E req)
          (conversationTokens req.Conversation) (tokensUpToTimestamp req.Conversation)
          req.ConversationSummaries with err | sel
      · rw [selectSummary_error _ _ _ _ _ _ hsel]
        exact fun h => absurd (Except.error.inj h) (by decide)
      · rcases sel with _ | s
        · exact fun h => absurd (Except.error.inj h) (by decide)
        · have := (hfirst s hsel).2.2
          simp only [not_lt.2 this, if_false]
          exact fun h => Except.noConfusion h

/-- Witness of C24: the request of 8 + 110 tokens against 100, all counts positive. -/
theorem CreateProposal_still_exceeded_unreachable_witness :
    (∀ s, CreateProposal.selectSummary (externalsExample 100).MaxTokens
        (CreateProposal.totalTokens (externalsExample 100) requestSummarized)
        (CreateProposal.conversationTokens requestSummarized.Conversation)
        (CreateProposal.tokensUpToTimestamp requestSummarized.Conversation)
        requestSummarized.ConversationSummaries = .ok (some s) →
      (∃ tokens, CreateProposal.tokenSumUpTo s.LastMessageTimestamp
          requestSummarized.Conversation = some tokens ∧
        tokens ≤ CreateProposal.tokenSum requestSummarized.Conversation) ∧
      CreateProposal.baseTokens (externalsExample 100) requestSummarized + s.Tokens ≤
        (externalsExample 100).MaxTokens ∧
      GoInt.add (CreateProposal.totalTokens (externalsExample 100) requestSummarized)
        s.Tokens ≤ (externalsExample 100).MaxTokens) ∧
      CreateProposal.assemble (externalsExample 100) requestSummarized ≠
        .error "token limit still exceeded after summarizing conversation" :=
  CreateProposal_still_exceeded_unreachable (externalsExample 100) requestSummarized
    (by decide)

/-- Counterexample to C24 as stated: a history of `2^63 - 1`, `2^63 - 1` and 10 tokens,
none negative, with a summary of 6 tokens up to the first message, 8 tokens before the
conversation and a budget of 10. Outside test mode `CreateProposal` returns the error
`token limit still exceeded after summarizing conversation`: the sums of line 132 wrap
around, so that the tokens up to timestamp `1` (`2^63 - 1`) exceed `conversationTokens`
(8). -/
theorem CreateProposal_still_exceeded_reached :
    (∀ x ∈ (requestWrappedTwice 6).Conversation, 0 ≤ x.Tokens) ∧
      CreateProposal (externalsExample 10) runExample (requestWrappedTwice 6) =
        { err := some "token limit still exceeded after summarizing conversation",
          effects := [.onStream (.proposalId "id-1") none],
          spawned := none } ∧
      (CreateProposal.tokensUpToTimestamp (requestWrappedTwice 6).Conversation).get? "1" =
        some (2 ^ 63 - 1) ∧
      CreateProposal.conversationTokens (requestWrappedTwice 6).Conversation = 8 := by
  refine ⟨by decide, rfl, rfl, rfl⟩

open CreateProposal in
/-- C25. On a run outside test mode in which the proposal id is generated, for a request
with `totalTokens <= MaxTokens` that line 140 finds over budget
(`totalTokens + conversationTokens > MaxTokens`), so that the summaries are scanned in
list order: if a summary `s` is reached before any fitting summary (every summary before
it has its timestamp in the history and does not pass the fit test), then, when the
timestamp of `s` is the timestamp of no history message, `CreateProposal` returns the
error `conversation summary timestamp not found in conversation`, whatever the summaries
after `s` are, having done nothing but the callback with the proposal id; and when `s`
passes the fit test, the loop stops at `s` and this error is not returned, whatever the
summaries after `s` are. -/
theorem CreateProposal_unknown_summary_timestamp {Ctx : Type} (E : Externals Ctx)
    (R : CreateProposal.Run) (req : PromptRequest Ctx) (proposalId : String)
    (pre : List ConversationSummary) (s : ConversationSummary)
    (post : List ConversationSummary)
    (hgo : R.goEnv ≠ "test") (hid : R.NewRandom = .ok proposalId)
    (hbase : totalTokens E req ≤ E.MaxTokens)
    (hover : GoInt.add (totalTokens E req) (conversationTokens req.Conversation) >
      E.MaxTokens)
    (hsplit : req.ConversationSummaries = pre ++ s :: post)
    (hpre : ∀ s' ∈ pre, (∃ x ∈ req.Conversation, x.Timestamp = s'.LastMessageTimestamp) ∧
      ¬ Fits E req s') :
    ((∀ x ∈ req.Conversation, x.Timestamp ≠ s.LastMessageTimestamp) →
        CreateProposal E R req =
          { err := some "conversation summary timestamp not found in conversation",
            effects := [.onStream (.proposalId proposalId) none],
            spawned := none }) ∧
      (Fits E req s →
        selectSummary E.MaxTokens (totalTokens E req) (conversationTokens req.Conversation)
          (tokensUpToTimestamp req.Conversation) req.ConversationSummaries = .ok (some s) ∧
        assemble E req ≠ .error "conversation summary timestamp not found in conversation") := by
  have hpre' : ∀ s' ∈ pre, ∃ t,
      (tokensUpToTimestamp req.Conversation).get? s'.LastMessageTimestamp = some t ∧
      ¬ GoInt.add (totalTokens E req)
          (GoInt.add (GoInt.sub (conversationTokens req.Conversation) t) s'.Tokens) ≤
        E.MaxTokens := by
    intro s' hs'
    obtain ⟨t, ht⟩ := tokensUpToTimestamp_get?_of_mem req.Conversation _ (hpre s' hs').1
    exact ⟨t, ht, fun hyes => (hpre s' hs').2 ⟨t, ht, hyes⟩⟩
  constructor
  · intro hunknown
    apply CreateProposal_of_assemble_error E R req proposalId _ hgo hid
    rw [assemble_of_over E req hbase hover, hsplit,
      selectSummary_of_missing _ _ _ _ pre s post hpre'
        (tokensUpToTimestamp_get?_eq_none _ _ hunknown)]
  · intro hfits
    have hsel := selectSummary_of_first_fit E.MaxTokens (totalTokens E req)
      (conversationTokens req.Conversation) (tokensUpToTimestamp req.Conversation)
      pre s post hpre' hfits
    rw [← hsplit] at hsel
    refine ⟨hsel, ?_⟩
    rw [assemble_of_over E req hbase hover, hsel]
    by_cases h3 : GoInt.add (totalTokens E req) s.Tokens > E.MaxTokens
    · simp only [h3, if_true]
      exact fun h => absurd (Except.error.inj h) (by decide)
    · simp only [h3, if_false]
      exact fun h => Except.noConfusion h

/-- Witness of C25: the first summary is in the history and does not fit, the second has
the timestamp `9`, which no history message has; the third summary would fit. -/
theorem CreateProposal_unknown_summary_timestamp_witness :
    CreateProposal.Fits (externalsExample 100) requestUnknownTimestamp
        (summaryExample "1" 10) ∧
      CreateProposal (externalsExample 100) runExample requestUnknownTimestamp =
        { err := some "conversation summary timestamp not found in conversation",
          effects := [.onStream (.proposalId "id-1") none],
          spawned := none } :=
  ⟨by decide, (CreateProposal_unknown_summary_timestamp (externalsExample 100) runExample
    requestUnknownTimestamp "id-1" [summaryExample "1" 100] (summaryExample "9" 1)
    [summaryExample "1" 10] (by decide) rfl (by decide) (by decide) rfl (by decide)).1
    (by decide)⟩

/-! ## The describe phase -/

namespace CreateProposal

theorem callbacks_append {Ctx : Type} (xs ys : List (Effect Ctx)) :
    callbacks (xs ++ ys) = callbacks xs ++ callbacks ys := by
  induction xs with
  | nil => rfl
  | cons x xs ih => cases x <;> simp [callbacks, ih]

theorem callbacks_onError {Ctx : Type} (proposalId err : String) :
    callbacks (onError proposalId err : List (Effect Ctx)) = [(.empty, some err)] :=
  rfl

theorem callbacks_build {Ctx : Type} (l : List (String × Option String)) :
    callbacks (l.map (fun callback => (.onStream (.build callback.1) callback.2 : Effect Ctx))) =
      l.map (fun callback => (Payload.build callback.1, callback.2)) := by
  induction l with
  | nil => rfl
  | cons x rest ih => simp [callbacks, ih]

theorem callbacks_startSummary {Ctx : Type} (req : PromptRequest Ctx) (d : Describe Ctx)
    (tokens : List String) (responseTs : String) :
    callbacks (startSummary req d tokens responseTs) = [] := by
  unfold startSummary
  split <;> rfl

/-- The callbacks of the finish branch, by the way it ends. -/
theorem finish_callbacks {Ctx : Type} (W : StreamWorld) (req : PromptRequest Ctx)
    (d : Describe Ctx) (tokens : List String) :
    (∃ err, ((finish W req d tokens).2 = .descriptionFailed ∨
          (finish W req d tokens).2 = .marshalFailed) ∧
        callbacks (finish W req d tokens).1 =
          [(.STREAM_DESCRIPTION_PHASE, none), (.empty, some err)]) ∨
      (∃ json, (finish W req d tokens).2 = .finishedNoFiles ∧
        callbacks (finish W req d tokens).1 =
          [(.STREAM_DESCRIPTION_PHASE, none), (.planDescriptionJson json, none),
            (.STREAM_FINISHED, none)]) ∨
      (∃ json, (finish W req d tokens).2 = .built ∧
        (W.buildPlan (W.FinishAndRead tokens).fileContents
          (W.FinishAndRead tokens).numTokensByFile).2 = none ∧
        callbacks (finish W req d tokens).1 =
          [(.STREAM_DESCRIPTION_PHASE, none), (.planDescriptionJson json, none),
            (.STREAM_BUILD_PHASE, none)] ++
          (W.buildPlan (W.FinishAndRead tokens).fileContents
            (W.FinishAndRead tokens).numTokensByFile).1.map
              (fun callback => (Payload.build callback.1, callback.2))) ∨
      (∃ json err, (finish W req d tokens).2 = .buildFailed ∧
        (W.buildPlan (W.FinishAndRead tokens).fileContents
          (W.FinishAndRead tokens).numTokensByFile).2 ≠ none ∧
        callbacks (finish W req d tokens).1 =
          [(.STREAM_DESCRIPTION_PHASE, none), (.planDescriptionJson json, none),
            (.STREAM_BUILD_PHASE, none)] ++
          (W.buildPlan (W.FinishAndRead tokens).fileContents
            (W.FinishAndRead tokens).numTokensByFile).1.map
              (fun callback => (Payload.build callback.1, callback.2)) ++
          [(.empty, some err)]) := by
  rcases hdesc : describe W (W.FinishAndRead tokens) W.StringTs with err | pd
  · refine Or.inl ⟨"failed to generate plan description json: " ++ err, Or.inl ?_, ?_⟩
    · simp [finish, hdesc]
    · simp [finish, hdesc, callbacks, callbacks_append, callbacks_startSummary,
        callbacks_onError]
  · rcases hm : W.Marshal (summarizedTo d.summary pd) with err | json
    · refine Or.inl ⟨"failed to marshal plan description: " ++ err, Or.inr ?_, ?_⟩
      · simp [finish, hdesc, hm]
      · simp [finish, hdesc, hm, callbacks, callbacks_append, callbacks_startSummary,
          callbacks_onError]
    · by_cases hfiles : (W.FinishAndRead tokens).files.length = 0
      · refine Or.inr (Or.inl ⟨json, ?_, ?_⟩)
        · simp [finish, hdesc, hm, hfiles]
        · simp [finish, hdesc, hm, hfiles, callbacks, callbacks_append,
            callbacks_startSummary]
      · rcases herr : (W.buildPlan (W.FinishAndRead tokens).fileContents
            (W.FinishAndRead tokens).numTokensByFile).2 with _ | err
        · refine Or.inr (Or.inr (Or.inl ⟨json, ?_, rfl, ?_⟩))
          · simp [finish, hdesc, hm, hfiles, herr]
          · simp [finish, hdesc, hm, hfiles, herr, callbacks, callbacks_append,
              callbacks_startSummary, callbacks_build]
        · refine Or.inr (Or.inr (Or.inr ⟨json, "failed to confirm proposal: " ++ err, ?_,
            by simp, ?_⟩))
          · simp [finish, hdesc, hm, hfiles, herr]
          · simp [finish, hdesc, hm, hfiles, herr, callbacks, callbacks_append,
              callbacks_startSummary, callbacks_build, callbacks_onError]

/-- No callback of the finish branch carries the proposal id. -/
theorem finish_no_proposalId {Ctx : Type} (W : StreamWorld) (req : PromptRequest Ctx)
    (d : Describe Ctx) (tokens : List String) :
    ∀ c ∈ callbacks (finish W req d tokens).1, ∀ id, c.1 ≠ .proposalId id := by
  intro c hc id
  rcases finish_callbacks W req d tokens with ⟨err, -, h⟩ | ⟨json, -, h⟩ | ⟨json, -, -, h⟩ |
    ⟨json, err, -, -, h⟩
  all_goals
    rw [h] at hc
    simp only [List.mem_append, List.mem_cons, List.mem_singleton, List.not_mem_nil, or_false,
      List.mem_map] at hc
  · rcases hc with rfl | rfl <;> simp
  · rcases hc with rfl | rfl | rfl <;> simp
  · rcases hc with (rfl | rfl | rfl) | ⟨x, -, rfl⟩ <;> simp
  · rcases hc with ((rfl | rfl | rfl) | ⟨x, -, rfl⟩) | rfl <;> simp

/-- The finish branch ends with exactly one terminal callback, its last; on the paths
that call `buildPlan`, provided `buildPlan` delivers as the specification has it. -/
theorem finish_terminal {Ctx : Type} (W : StreamWorld) (req : PromptRequest Ctx)
    (d : Describe Ctx) (tokens : List String)
    (hbuild : ((finish W req d tokens).2 = .built ∨ (finish W req d tokens).2 = .buildFailed) →
      buildPlanDelivers W) :
    ∃ init last, callbacks (finish W req d tokens).1 = init ++ [last] ∧
      isTerminal W last = true ∧ ∀ c ∈ init, isTerminal W c = false := by
  rcases finish_callbacks W req d tokens with ⟨err, -, h⟩ | ⟨json, -, h⟩ |
    ⟨json, hexit, hres, h⟩ | ⟨json, err, hexit, hres, h⟩
  · refine ⟨[(.STREAM_DESCRIPTION_PHASE, none)], (.empty, some err), by rw [h]; rfl, rfl, ?_⟩
    intro c hc
    rw [List.mem_singleton.1 hc]
    rfl
  · refine ⟨[(.STREAM_DESCRIPTION_PHASE, none), (.planDescriptionJson json, none)],
      (.STREAM_FINISHED, none), by rw [h]; rfl, rfl, ?_⟩
    intro c hc
    simp only [List.mem_cons, List.mem_singleton, List.not_mem_nil, or_false] at hc
    rcases hc with rfl | rfl <;> rfl
  · obtain ⟨hnil, -⟩ := hbuild (Or.inl hexit) (W.FinishAndRead tokens).fileContents
      (W.FinishAndRead tokens).numTokensByFile
    obtain ⟨init, last, hsplit, hlast, hinit⟩ := hnil hres
    refine ⟨[(.STREAM_DESCRIPTION_PHASE, none), (.planDescriptionJson json, none),
        (.STREAM_BUILD_PHASE, none)] ++
        init.map (fun callback => (Payload.build callback.1, callback.2)),
      (.build last.1, last.2), ?_, hlast, ?_⟩
    · rw [h, hsplit]
      simp
    · intro c hc
      simp only [List.mem_append, List.mem_cons, List.mem_singleton, List.not_mem_nil,
        or_false, List.mem_map] at hc
      rcases hc with (rfl | rfl | rfl) | ⟨x, hx, rfl⟩
      · rfl
      · rfl
      · rfl
      · exact hinit x hx
  · obtain ⟨-, herr⟩ := hbuild (Or.inr hexit) (W.FinishAndRead tokens).fileContents
      (W.FinishAndRead tokens).numTokensByFile
    refine ⟨[(.STREAM_DESCRIPTION_PHASE, none), (.planDescriptionJson json, none),
        (.STREAM_BUILD_PHASE, none)] ++
        (W.buildPlan (W.FinishAndRead tokens).fileContents
          (W.FinishAndRead tokens).numTokensByFile).1.map
            (fun callback => (Payload.build callback.1, callback.2)),
      (.empty, some err), h, rfl, ?_⟩
    intro c hc
    simp only [List.mem_append, List.mem_cons, List.mem_singleton, List.not_mem_nil,
      or_false, List.mem_map] at hc
    rcases hc with (rfl | rfl | rfl) | ⟨x, hx, rfl⟩
    · rfl
    · rfl
    · rfl
    · exact herr hres x hx

/-- No callback of the goroutine carries the proposal id. -/
theorem describeLoop_no_proposalId {Ctx : Type} (W : StreamWorld) (req : PromptRequest Ctx)
    (d : Describe Ctx) (ticks : List Tick) :
    ∀ tokens : List String, ∀ c ∈ callbacks (describeLoop W req d ticks tokens).1,
      ∀ id, c.1 ≠ .proposalId id := by
  induction ticks with
  | nil =>
    intro tokens c hc
    simp [describeLoop, callbacks] at hc
  | cons tick rest ih =>
    intro tokens c hc id
    rcases tick with _ | _ | ⟨err | response⟩
    · simp [describeLoop, callbacks] at hc
    · simp [describeLoop, callbacks, onError] at hc
      rw [hc]
      simp
    · simp [describeLoop, callbacks, onError] at hc
      rw [hc]
      simp
    · rcases response with ⟨choices⟩
      rcases choices with _ | ⟨choice, _ | ⟨choice2, more⟩⟩
      · simp [describeLoop, callbacks, onError] at hc
        rw [hc]
        simp
      · by_cases hfin : choice.FinishReason = ""
        · simp only [describeLoop, hfin, ne_eq, not_true_eq_false, if_false, callbacks,
            List.mem_cons] at hc
          rcases hc with rfl | hc
          · simp
          · exact ih _ c hc id
        · have hcb : callbacks (describeLoop W req d
              (.recv (.ok { Choices := [choice] }) :: rest) tokens).1 =
              callbacks (finish W req d tokens).1 := by
            simp [describeLoop, hfin, callbacks_append, callbacks]
          rw [hcb] at hc
          exact finish_no_proposalId W req d tokens c hc id
      · simp [describeLoop, callbacks, onError] at hc
        rw [hc]
        simp

/-- The callbacks of the goroutine: while it is in its loop, and when it has returned on
cancellation, none of them is terminal; when it has returned in any other way, exactly
one is terminal, and it is the last, on the paths that call `buildPlan` provided
`buildPlan` delivers as the specification has it. -/
theorem describeLoop_terminal {Ctx : Type} (W : StreamWorld) (req : PromptRequest Ctx)
    (d : Describe Ctx) (ticks : List Tick) :
    ∀ tokens : List String,
      (((describeLoop W req d ticks tokens).2 = .running ∨
          (describeLoop W req d ticks tokens).2 = .cancelled) ∧
        ∀ c ∈ callbacks (describeLoop W req d ticks tokens).1, isTerminal W c = false) ∨
      ((describeLoop W req d ticks tokens).2 ≠ .running ∧
        (describeLoop W req d ticks tokens).2 ≠ .cancelled ∧
        ((((describeLoop W req d ticks tokens).2 = .built ∨
            (describeLoop W req d ticks tokens).2 = .buildFailed) → buildPlanDelivers W) →
          ∃ init last, callbacks (describeLoop W req d ticks tokens).1 = init ++ [last] ∧
            isTerminal W last = true ∧ ∀ c ∈ init, isTerminal W c = false)) := by
  induction ticks with
  | nil =>
    intro tokens
    exact Or.inl ⟨Or.inl rfl, by simp [describeLoop, callbacks]⟩
  | cons tick rest ih =>
    intro tokens
    rcases tick with _ | _ | ⟨err | response⟩
    · exact Or.inl ⟨Or.inr rfl, by simp [describeLoop, callbacks]⟩
    · exact Or.inr ⟨by simp [describeLoop], by simp [describeLoop], fun _ =>
        ⟨[], (.empty, some "stream timeout due to inactivity"), rfl, rfl, by simp⟩⟩
    · exact Or.inr ⟨by simp [describeLoop], by simp [describeLoop], fun _ =>
        ⟨[], (.empty, some ("stream error: " ++ err)), rfl, rfl, by simp⟩⟩
    · rcases response with ⟨choices⟩
      rcases choices with _ | ⟨choice, _ | ⟨choice2, more⟩⟩
      · exact Or.inr ⟨by simp [describeLoop], by simp [describeLoop], fun _ =>
          ⟨[], (.empty, some "stream finished with no choices"), rfl, rfl, by simp⟩⟩
      · by_cases hfin : choice.FinishReason = ""
        · have hexit : (describeLoop W req d
              (.recv (.ok { Choices := [choice] }) :: rest) tokens).2 =
              (describeLoop W req d rest (tokens ++ [choice.Content])).2 := by
            simp [describeLoop, hfin]
          have hcb : callbacks (describeLoop W req d
              (.recv (.ok { Choices := [choice] }) :: rest) tokens).1 =
              (.content choice.Content, none) ::
                callbacks (describeLoop W req d rest (tokens ++ [choice.Content])).1 := by
            simp [describeLoop, hfin, callbacks]
          rw [hexit, hcb]
          rcases ih (tokens ++ [choice.Content]) with ⟨hrun, hnone⟩ | ⟨h1, h2, hterm⟩
          · refine Or.inl ⟨hrun, ?_⟩
            intro c hc
            rcases List.mem_cons.1 hc with rfl | hc'
            · rfl
            · exact hnone c hc'
          · refine Or.inr ⟨h1, h2, fun hbuild => ?_⟩
            obtain ⟨init, last, hsplit, hlast, hinit⟩ := hterm hbuild
            refine ⟨(.content choice.Content, none) :: init, last, ?_, hlast, ?_⟩
            · rw [hsplit]
              rfl
            · intro c hc
              rcases List.mem_cons.1 hc with rfl | hc'
              · rfl
              · exact hinit c hc'
        · have hexit : (describeLoop W req d
              (.recv (.ok { Choices := [choice] }) :: rest) tokens).2 =
              (finish W req d tokens).2 := by
            simp [describeLoop, hfin]
          have hcb : callbacks (describeLoop W req d
              (.recv (.ok { Choices := [choice] }) :: rest) tokens).1 =
              callbacks (finish W req d tokens).1 := by
            simp [describeLoop, hfin, callbacks_append, callbacks]
          rw [hexit, hcb]
          refine Or.inr ⟨?_, ?_, fun hbuild => finish_terminal W req d tokens hbuild⟩
          · rcases finish_callbacks W req d tokens with ⟨_, h | h, -⟩ | ⟨_, h, -⟩ |
              ⟨_, h, -⟩ | ⟨_, _, h, -⟩ <;> rw [h] <;> simp
          · rcases finish_callbacks W req d tokens with ⟨_, h | h, -⟩ | ⟨_, h, -⟩ |
              ⟨_, h, -⟩ | ⟨_, _, h, -⟩ <;> rw [h] <;> simp
      · exact Or.inr ⟨by simp [describeLoop], by simp [describeLoop], fun _ =>
          ⟨[], (.empty, some "stream finished with more than one choice"), rfl, rfl, by simp⟩⟩

theorem trace_of_accepted {Ctx : Type} (E : Externals Ctx) (R : Run) (W : StreamWorld)
    (req : PromptRequest Ctx) (proposalId : String) (a : Assembled) (ticks : List Tick)
    (hgo : R.goEnv ≠ "test") (hid : R.NewRandom = .ok proposalId)
    (ha : assemble E req = .ok a) (hopen : R.CreateChatCompletionStream = none) :
    trace E R W req ticks =
      [.onStream (.proposalId proposalId) none,
        .proposalsSet proposalId (newProposal proposalId req),
        .CreateChatCompletionStream a.messages] ++
      (describeLoop W req
        { proposal := newProposal proposalId req, summary := a.summary,
          promptMessage := promptMessage req } ticks []).1 := by
  unfold trace
  rw [CreateProposal_of_accepted E R req proposalId a hgo hid ha hopen]

end CreateProposal

open CreateProposal in
/-- C12, as amended. The proposal that `CreateProposal` builds has the generated id as
its `Id`; its `RootId` is that id when the request's `RootProposalId` is empty, and the
request's `RootProposalId` otherwise; `IsRoot` says whether the request's
`ParentProposalId` is empty, and `ParentId` is that parent id. It is this proposal that an
accepted request registers. -/
theorem CreateProposal_root_id {Ctx : Type} (proposalId : String) (req : PromptRequest Ctx) :
    (newProposal proposalId req).Id = proposalId ∧
      (req.RootProposalId = "" → (newProposal proposalId req).RootId = proposalId) ∧
      (req.RootProposalId ≠ "" → (newProposal proposalId req).RootId = req.RootProposalId) ∧
      (newProposal proposalId req).ParentId = req.ParentProposalId ∧
      ((newProposal proposalId req).IsRoot = true ↔ req.ParentProposalId = "") ∧
      ∀ (E : Externals Ctx) (R : Run) (a : Assembled), R.goEnv ≠ "test" →
        R.NewRandom = .ok proposalId → assemble E req = .ok a →
        (CreateProposal E R req).effects.take 2 =
          [.onStream (.proposalId proposalId) none,
            .proposalsSet proposalId (newProposal proposalId req)] := by
  refine ⟨rfl, ?_, ?_, rfl, by simp [newProposal], ?_⟩
  · intro h
    simp [newProposal, h]
  · intro h
    simp [newProposal, h]
  · intro E R a hgo hid ha
    rcases hopen : R.CreateChatCompletionStream with _ | err
    · rw [CreateProposal_of_accepted E R req proposalId a hgo hid ha hopen]
      rfl
    · rw [CreateProposal_of_stream_error E R req proposalId err a hgo hid ha hopen]
      rfl

/-- Counterexample to C12 as stated: a request with an empty parent proposal id and the
root proposal id `root-1` gets a proposal whose `RootId` is `root-1`, not its own id. -/
theorem CreateProposal_root_id_not_own_id :
    requestRooted.ParentProposalId = "" ∧
      (CreateProposal.newProposal "id-1" requestRooted).Id = "id-1" ∧
      (CreateProposal.newProposal "id-1" requestRooted).RootId = "root-1" ∧
      (CreateProposal.newProposal "id-1" requestRooted).RootId ≠
        (CreateProposal.newProposal "id-1" requestRooted).Id := by
  refine ⟨rfl, rfl, rfl, by decide⟩

open CreateProposal in
/-- C13. On a run outside test mode in which the proposal id is generated, the first
callback is `onStream(proposalId, nil)`; no later callback, whether content chunk,
sentinel, JSON, error or one made by `buildPlan`, carries the proposal id, so it is made
once and before all others; and it is made when prompt assembly fails, as the only
action of the run. -/
theorem CreateProposal_first_callback_is_proposal_id {Ctx : Type} (E : Externals Ctx)
    (R : Run) (W : StreamWorld) (req : PromptRequest Ctx) (proposalId : String)
    (ticks : List Tick) (hgo : R.goEnv ≠ "test") (hid : R.NewRandom = .ok proposalId) :
    (∃ rest, callbacks (trace E R W req ticks) = (.proposalId proposalId, none) :: rest ∧
      ∀ c ∈ rest, ∀ id, c.1 ≠ .proposalId id) ∧
      ∀ err, assemble E req = .error err →
        trace E R W req ticks = [.onStream (.proposalId proposalId) none] ∧
        (CreateProposal E R req).err = some err := by
  constructor
  · rcases ha : assemble E req with err | a
    · refine ⟨[], ?_, by simp⟩
      unfold trace
      rw [CreateProposal_of_assemble_error E R req proposalId err hgo hid ha]
      rfl
    · rcases hopen : R.CreateChatCompletionStream with _ | err
      · rw [trace_of_accepted E R W req proposalId a ticks hgo hid ha hopen]
        refine ⟨callbacks (describeLoop W req
          { proposal := newProposal proposalId req, summary := a.summary,
            promptMessage := promptMessage req } ticks []).1, ?_, ?_⟩
        · rw [callbacks_append]
          rfl
        · exact describeLoop_no_proposalId W req _ ticks []
      · refine ⟨[], ?_, by simp⟩
        unfold trace
        rw [CreateProposal_of_stream_error E R req proposalId err a hgo hid ha hopen]
        rfl
  · intro err ha
    unfold trace
    rw [CreateProposal_of_assemble_error E R req proposalId err hgo hid ha]
    exact ⟨rfl, rfl⟩

/-- Witness of C13: an accepted request whose stream delivers two content chunks. -/
theorem CreateProposal_first_callback_is_proposal_id_witness :
    (∃ rest, CreateProposal.callbacks
        (CreateProposal.trace (externalsExample 4000) runExample (streamWorldExample [])
          requestSmall [CreateProposal.contentTick "a", CreateProposal.contentTick "b"]) =
          (.proposalId "id-1", none) :: rest ∧
      ∀ c ∈ rest, ∀ id, c.1 ≠ .proposalId id) ∧
      ∀ err, CreateProposal.assemble (externalsExample 4000) requestSmall = .error err →
        CreateProposal.trace (externalsExample 4000) runExample (streamWorldExample [])
            requestSmall [CreateProposal.contentTick "a", CreateProposal.contentTick "b"] =
          [.onStream (.proposalId "id-1") none] ∧
        (CreateProposal (externalsExample 4000) runExample requestSmall).err = some err :=
  CreateProposal_first_callback_is_proposal_id (externalsExample 4000) runExample
    (streamWorldExample []) requestSmall "id-1"
    [CreateProposal.contentTick "a", CreateProposal.contentTick "b"] (by decide) rfl

open CreateProposal in
/-- C14, as amended. For an accepted request (outside test mode, id generated, prompt
assembled, stream opened): whenever the goroutine has returned in any way other than on
cancellation of the context (stream error, chunk with no or several choices, inactivity
timeout, failure to generate or to marshal the plan description, clean finish without
files, clean finish with files, build failure), the callbacks of the run contain exactly
one terminal callback, and it is the last callback; on the two paths that call
`buildPlan` this is so provided `buildPlan` delivers as the specification has it
(`buildPlanDelivers`: exactly one terminal callback, its last, when it returns nil; none
when it returns an error). When the goroutine has returned on cancellation, and while it
is in its loop, the run has made no terminal callback. -/
theorem CreateProposal_terminal_callback {Ctx : Type} (E : Externals Ctx) (R : Run)
    (W : StreamWorld) (req : PromptRequest Ctx) (proposalId : String) (a : Assembled)
    (ticks : List Tick) (hgo : R.goEnv ≠ "test") (hid : R.NewRandom = .ok proposalId)
    (ha : assemble E req = .ok a) (hopen : R.CreateChatCompletionStream = none) :
    (((describeLoop W req
            { proposal := newProposal proposalId req, summary := a.summary,
              promptMessage := promptMessage req } ticks []).2 ≠ .running ∧
        (describeLoop W req
            { proposal := newProposal proposalId req, summary := a.summary,
              promptMessage := promptMessage req } ticks []).2 ≠ .cancelled ∧
        (((describeLoop W req
              { proposal := newProposal proposalId req, summary := a.summary,
                promptMessage := promptMessage req } ticks []).2 = .built ∨
            (describeLoop W req
              { proposal := newProposal proposalId req, summary := a.summary,
                promptMessage := promptMessage req } ticks []).2 = .buildFailed) →
          buildPlanDelivers W)) →
        ∃ init last, callbacks (trace E R W req ticks) = init ++ [last] ∧
          isTerminal W last = true ∧ ∀ c ∈ init, isTerminal W c = false) ∧
      (((describeLoop W req
            { proposal := newProposal proposalId req, summary := a.summary,
              promptMessage := promptMessage req } ticks []).2 = .running ∨
        (describeLoop W req
            { proposal := newProposal proposalId req, summary := a.summary,
              promptMessage := promptMessage req } ticks []).2 = .cancelled) →
        ∀ c ∈ callbacks (trace E R W req ticks), isTerminal W c = false) := by
  rw [trace_of_accepted E R W req proposalId a ticks hgo hid ha hopen, callbacks_append]
  have hhead : callbacks ([.onStream (.proposalId proposalId) none,
      .proposalsSet proposalId (newProposal proposalId req),
      .CreateChatCompletionStream a.messages] : List (Effect Ctx)) =
      [(.proposalId proposalId, none)] := rfl
  rw [hhead]
  rcases describeLoop_terminal W req
      { proposal := newProposal proposalId req, summary := a.summary,
        promptMessage := promptMessage req } ticks [] with
    ⟨hrun, hnone⟩ | ⟨h1, h2, hterm⟩
  · constructor
    · rintro ⟨h1, h2, -⟩
      rcases hrun with h | h
      · exact absurd h h1
      · exact absurd h h2
    · intro _ c hc
      rcases List.mem_append.1 hc with h | h
      · rw [List.mem_singleton.1 h]
        rfl
      · exact hnone c h
  · constructor
    · rintro ⟨-, -, hbuild⟩
      obtain ⟨init, last, hsplit, hlast, hinit⟩ := hterm hbuild
      refine ⟨(.proposalId proposalId, none) :: init, last, ?_, hlast, ?_⟩
      · rw [hsplit]
        rfl
      · intro c hc
        rcases List.mem_cons.1 hc with rfl | h
        · rfl
        · exact hinit c h
    · rintro (h | h)
      · exact absurd h h1
      · exact absurd h h2

/-- Witness of C14: an accepted request whose reply names one file; `buildPlan` sends a
chunk and then `STREAM_FINISHED`, the last callback of the run and its only terminal
one. -/
theorem CreateProposal_terminal_callback_witness :
    CreateProposal.callbacks
        (CreateProposal.trace (externalsExample 4000) runExample (streamWorldExample ["a.go"])
          requestSmall [CreateProposal.contentTick "a",
            .recv (.ok { Choices := [{ FinishReason := "stop", Content := "" }] })]) =
      [(.proposalId "id-1", none), (.content "a", none), (.STREAM_DESCRIPTION_PHASE, none),
        (.planDescriptionJson "json", none), (.STREAM_BUILD_PHASE, none),
        (.build "chunk", none)] ++ [(.build "STREAM_FINISHED", none)] ∧
    ∃ init last, CreateProposal.callbacks
        (CreateProposal.trace (externalsExample 4000) runExample (streamWorldExample ["a.go"])
          requestSmall [CreateProposal.contentTick "a",
            .recv (.ok { Choices := [{ FinishReason := "stop", Content := "" }] })]) =
          init ++ [last] ∧
      CreateProposal.isTerminal (streamWorldExample ["a.go"]) last = true ∧
      ∀ c ∈ init, CreateProposal.isTerminal (streamWorldExample ["a.go"]) c = false :=
  ⟨by decide, (CreateProposal_terminal_callback (externalsExample 4000) runExample
    (streamWorldExample ["a.go"]) requestSmall "id-1"
    { messages := [CreateProposal.systemMessage (externalsExample 4000) requestSmall] ++
        requestSmall.Conversation.map (fun x => x.Message) ++
        [CreateProposal.promptMessage requestSmall],
      summary := none }
    [CreateProposal.contentTick "a",
      .recv (.ok { Choices := [{ FinishReason := "stop", Content := "" }] })]
    (by decide) rfl rfl rfl).1
    ⟨by decide, by decide, fun _ _ _ =>
      ⟨fun _ => ⟨[("chunk", none)], ("STREAM_FINISHED", none), rfl, by decide, by decide⟩,
        fun h => absurd rfl h⟩⟩⟩

/-- Counterexample to C14 as stated: an accepted request whose context is cancelled
before the first chunk. `CreateProposal` returned nil, the goroutine ran and returned,
and the only callback of the run is the one with the proposal id: no terminal callback
is made. -/
theorem CreateProposal_cancelled_without_terminal_callback :
    (CreateProposal (externalsExample 4000) runExample requestSmall).err = none ∧
      (∃ d, (CreateProposal (externalsExample 4000) runExample requestSmall).spawned = some d ∧
        CreateProposal.describeLoop (streamWorldExample []) requestSmall d [.ctxDone] [] =
          ([.streamClose], .cancelled)) ∧
      CreateProposal.callbacks
          (CreateProposal.trace (externalsExample 4000) runExample (streamWorldExample [])
            requestSmall [.ctxDone]) = [(.proposalId "id-1", none)] ∧
      (CreateProposal.callbacks
          (CreateProposal.trace (externalsExample 4000) runExample (streamWorldExample [])
            requestSmall [.ctxDone])).filter
              (CreateProposal.isTerminal (streamWorldExample [])) = [] := by
  refine ⟨rfl, ⟨_, rfl, rfl⟩, by decide, by decide⟩

namespace CreateProposal

theorem failed_ne_stream (detail err rest : String)
    (h : "failed to " ++ detail ++ err = "stream finished with " ++ rest) : False := by
  have h2 := congrArg (fun s : String => s.data.head?) h
  simp [String.data_append] at h2

/-- The two calls of `onError` in the finish branch carry messages that begin with
`failed to`: none is one of the two errors about the number of choices. -/
theorem finish_errors {Ctx : Type} (W : StreamWorld) (req : PromptRequest Ctx)
    (d : Describe Ctx) (tokens : List String) (rest : String) :
    ∀ e ∈ (finish W req d tokens).1,
      e ≠ .onStream .empty (some ("stream finished with " ++ rest)) ∧
      ∀ id, e ≠ .proposalsUpdate id (.SetErr ("stream finished with " ++ rest)) := by
  intro e he
  have hs : ∀ e ∈ startSummary req d tokens W.StringTs,
      e ≠ .onStream .empty (some ("stream finished with " ++ rest)) ∧
      ∀ id, e ≠ .proposalsUpdate id (.SetErr ("stream finished with " ++ rest)) := by
    intro e he
    unfold startSummary at he
    split at he
    · simp only [List.mem_cons, List.mem_singleton, List.not_mem_nil, or_false] at he
      rcases he with rfl | rfl <;> simp
    · simp at he
  have herr : ∀ (detail err : String), ∀ e ∈ (onError d.proposal.Id
      ("failed to " ++ detail ++ err) : List (Effect Ctx)),
      e ≠ .onStream .empty (some ("stream finished with " ++ rest)) ∧
      ∀ id, e ≠ .proposalsUpdate id (.SetErr ("stream finished with " ++ rest)) := by
    intro detail err e he
    simp only [onError, List.mem_cons, List.mem_singleton, List.not_mem_nil, or_false] at he
    rcases he with rfl | rfl
    · refine ⟨by simp, fun id h => ?_⟩
      injection h with _ h2
      injection h2 with h3
      exact failed_ne_stream detail err rest h3
    · refine ⟨fun h => ?_, by simp⟩
      injection h with _ h2
      injection h2 with h3
      exact failed_ne_stream detail err rest h3
  unfold finish at he
  simp only at he
  split at he
  · rcases List.mem_append.1 he with h | h
    · rcases List.mem_cons.1 h with rfl | h
      · simp
      · exact hs e h
    · exact herr "generate plan description json: " _ e h
  · split at he
    · rcases List.mem_append.1 he with h | h
      · rcases List.mem_cons.1 h with rfl | h
        · simp
        · exact hs e h
      · exact herr "marshal plan description: " _ e h
    · split at he
      · simp only [List.mem_append, List.mem_cons, List.mem_singleton, List.not_mem_nil,
          or_false] at he
        rcases he with ((rfl | h) | rfl | rfl) | rfl
        · simp
        · exact hs e h
        · simp
        · simp
        · simp
      · split at he
        · simp only [List.mem_append, List.mem_cons, List.mem_singleton, List.not_mem_nil,
            or_false, List.mem_map] at he
          rcases he with ((((rfl | h) | rfl | rfl) | rfl | rfl) | ⟨x, -, rfl⟩) | h
          · simp
          · exact hs e h
          · simp
          · simp
          · simp
          · simp
          · simp
          · exact herr "confirm proposal: " _ e (by simpa [onError] using h)
        · simp only [List.mem_append, List.mem_cons, List.mem_singleton, List.not_mem_nil,
            or_false, List.mem_map] at he
          rcases he with (((rfl | h) | rfl | rfl) | rfl | rfl) | ⟨x, -, rfl⟩
          · simp
          · exact hs e h
          · simp
          · simp
          · simp
          · simp
          · simp

theorem finish_exit {Ctx : Type} (W : StreamWorld) (req : PromptRequest Ctx)
    (d : Describe Ctx) (tokens : List String) :
    (finish W req d tokens).2 ≠ .noChoices ∧ (finish W req d tokens).2 ≠ .manyChoices := by
  unfold finish
  simp only
  split
  · exact ⟨by simp, by simp⟩
  · split
    · exact ⟨by simp, by simp⟩
    · split
      · exact ⟨by simp, by simp⟩
      · split
        · exact ⟨by simp, by simp⟩
        · exact ⟨by simp, by simp⟩

end CreateProposal

open CreateProposal in
/-- C15. The describe loop requires exactly one choice in a received chunk. A chunk
with no choice ends the loop with `stream finished with no choices`, a chunk with two or
more choices ends it with `stream finished with more than one choice`; in both cases the
loop does just this: it records the error on the proposal, calls `onStream("", err)` and
closes the stream, so no content is appended and no sentinel is emitted. A chunk with
exactly one choice is either a content chunk (its content is appended and forwarded, and
the loop goes on) or the finishing chunk, and the finish branch neither ends in one of
these two ways nor reports one of the two errors. -/
theorem describeLoop_requires_one_choice {Ctx : Type} (W : StreamWorld)
    (req : PromptRequest Ctx) (d : Describe Ctx) (rest : List Tick) (tokens : List String) :
    describeLoop W req d (.recv (.ok { Choices := [] }) :: rest) tokens =
        ([.proposalsUpdate d.proposal.Id (.SetErr "stream finished with no choices"),
          .onStream .empty (some "stream finished with no choices"), .streamClose],
          .noChoices) ∧
      (∀ c1 c2 more, describeLoop W req d
          (.recv (.ok { Choices := c1 :: c2 :: more }) :: rest) tokens =
        ([.proposalsUpdate d.proposal.Id (.SetErr "stream finished with more than one choice"),
          .onStream .empty (some "stream finished with more than one choice"), .streamClose],
          .manyChoices)) ∧
      ∀ choice,
        (choice.FinishReason = "" →
          describeLoop W req d (.recv (.ok { Choices := [choice] }) :: rest) tokens =
            (.proposalsUpdate d.proposal.Id (.appendContent choice.Content) ::
              .onStream (.content choice.Content) none ::
              (describeLoop W req d rest (tokens ++ [choice.Content])).1,
             (describeLoop W req d rest (tokens ++ [choice.Content])).2)) ∧
        (choice.FinishReason ≠ "" →
          describeLoop W req d (.recv (.ok { Choices := [choice] }) :: rest) tokens =
            ((finish W req d tokens).1 ++ [.streamClose], (finish W req d tokens).2) ∧
          (finish W req d tokens).2 ≠ .noChoices ∧
          (finish W req d tokens).2 ≠ .manyChoices ∧
          ∀ e ∈ (finish W req d tokens).1 ++ [.streamClose],
            e ≠ .onStream .empty (some "stream finished with no choices") ∧
            e ≠ .onStream .empty (some "stream finished with more than one choice") ∧
            e ≠ .proposalsUpdate d.proposal.Id (.SetErr "stream finished with no choices") ∧
            e ≠ .proposalsUpdate d.proposal.Id
              (.SetErr "stream finished with more than one choice")) := by
  refine ⟨rfl, fun _ _ _ => rfl, fun choice => ⟨fun hfin => ?_, fun hfin => ⟨?_, ?_, ?_, ?_⟩⟩⟩
  · simp [describeLoop, hfin]
  · simp [describeLoop, hfin]
  · exact (finish_exit W req d tokens).1
  · exact (finish_exit W req d tokens).2
  · intro e he
    rcases List.mem_append.1 he with h | h
    · have h1 := finish_errors W req d tokens "no choices" e h
      have h2 := finish_errors W req d tokens "more than one choice" e h
      exact ⟨h1.1, h2.1, h1.2 _, h2.2 _⟩
    · rw [List.mem_singleton.1 h]
      simp

open CreateProposal in
/-- C16. On the chunk whose single choice has a non-empty finish reason, when the reply
parser reports no files (and `json.Marshal` returns the JSON `json` for the description
built), the goroutine does exactly this: the `DESCRIPTION_PHASE` callback, the start of
the summary task when the request has a conversation, the record of the description on
the proposal, the callback with the JSON of a description with `MadePlan = false` and an
empty `Files`, the `STREAM_FINISHED` callback, the close of the stream. Its callbacks are
these three in this order; `BUILD_PHASE` is not emitted and `buildPlan` is not called. -/
theorem describeLoop_finish_without_files {Ctx : Type} (W : StreamWorld)
    (req : PromptRequest Ctx) (d : Describe Ctx) (rest : List Tick) (tokens : List String)
    (choice : ChatCompletionStreamChoice) (json : String)
    (hfin : choice.FinishReason ≠ "")
    (hfiles : (W.FinishAndRead tokens).files = [])
    (hjson : W.Marshal (summarizedTo d.summary
      { MadePlan := false, CommitMsg := "", Files := [], ResponseTimestamp := W.StringTs,
        SummarizedToTimestamp := "" }) = .ok json) :
    describeLoop W req d (.recv (.ok { Choices := [choice] }) :: rest) tokens =
        (.onStream .STREAM_DESCRIPTION_PHASE none :: startSummary req d tokens W.StringTs ++
          [.proposalsUpdate d.proposal.Id (.Finish (summarizedTo d.summary
              { MadePlan := false, CommitMsg := "", Files := [],
                ResponseTimestamp := W.StringTs, SummarizedToTimestamp := "" })),
            .onStream (.planDescriptionJson json) none,
            .onStream .STREAM_FINISHED none,
            .streamClose],
          .finishedNoFiles) ∧
      callbacks (describeLoop W req d (.recv (.ok { Choices := [choice] }) :: rest) tokens).1 =
        [(.STREAM_DESCRIPTION_PHASE, none), (.planDescriptionJson json, none),
          (.STREAM_FINISHED, none)] ∧
      (summarizedTo d.summary
        { MadePlan := false, CommitMsg := "", Files := [], ResponseTimestamp := W.StringTs,
          SummarizedToTimestamp := "" }).MadePlan = false ∧
      (summarizedTo d.summary
        { MadePlan := false, CommitMsg := "", Files := [], ResponseTimestamp := W.StringTs,
          SummarizedToTimestamp := "" }).Files = [] ∧
      ∀ e ∈ (describeLoop W req d (.recv (.ok { Choices := [choice] }) :: rest) tokens).1,
        e ≠ .onStream .STREAM_BUILD_PHASE none ∧
        ∀ id fileContents numTokensByFile, e ≠ .buildPlan id fileContents numTokensByFile := by
  have hdesc : describe W (W.FinishAndRead tokens) W.StringTs =
      .ok { MadePlan := false, CommitMsg := "", Files := [], ResponseTimestamp := W.StringTs,
            SummarizedToTimestamp := "" } := by
    simp [describe, hfiles]
  have hrun : describeLoop W req d (.recv (.ok { Choices := [choice] }) :: rest) tokens =
      (.onStream .STREAM_DESCRIPTION_PHASE none :: startSummary req d tokens W.StringTs ++
        [.proposalsUpdate d.proposal.Id (.Finish (summarizedTo d.summary
            { MadePlan := false, CommitMsg := "", Files := [],
              ResponseTimestamp := W.StringTs, SummarizedToTimestamp := "" })),
          .onStream (.planDescriptionJson json) none,
          .onStream .STREAM_FINISHED none,
          .streamClose],
        .finishedNoFiles) := by
    simp [describeLoop, hfin, finish, hdesc, hjson, hfiles]
  refine ⟨hrun, ?_, ?_, ?_, ?_⟩
  · rw [hrun]
    show callbacks (.onStream .STREAM_DESCRIPTION_PHASE none ::
      (startSummary req d tokens W.StringTs ++ _)) = _
    simp [callbacks, callbacks_append, callbacks_startSummary]
  · cases d.summary <;> rfl
  · cases d.summary <;> rfl
  · rw [hrun]
    intro e he
    simp only [List.cons_append, List.mem_cons, List.mem_append, List.mem_singleton,
      List.not_mem_nil, or_false] at he
    rcases he with rfl | h | rfl | rfl | rfl | rfl
    · simp
    · unfold startSummary at h
      split at h
      · simp only [List.mem_cons, List.mem_singleton, List.not_mem_nil, or_false] at h
        rcases h with rfl | rfl <;> simp
      · simp at h
    · simp
    · simp
    · simp
    · simp

/-- Witness of C16: a request with a conversation whose reply names no file. -/
theorem describeLoop_finish_without_files_witness :
    CreateProposal.callbacks (CreateProposal.describeLoop (streamWorldExample []) requestSmall
        { proposal := CreateProposal.newProposal "id-1" requestSmall, summary := none,
          promptMessage := CreateProposal.promptMessage requestSmall }
        [.recv (.ok { Choices := [{ FinishReason := "stop", Content := "" }] })] ["a"]).1 =
      [(.STREAM_DESCRIPTION_PHASE, none), (.planDescriptionJson "json", none),
        (.STREAM_FINISHED, none)] :=
  (describeLoop_finish_without_files (streamWorldExample []) requestSmall
    { proposal := CreateProposal.newProposal "id-1" requestSmall, summary := none,
      promptMessage := CreateProposal.promptMessage requestSmall }
    [] ["a"] { FinishReason := "stop", Content := "" } "json" (by decide) rfl rfl).2.1

namespace CreateProposal

theorem describeLoop_content {Ctx : Type} (W : StreamWorld) (req : PromptRequest Ctx)
    (d : Describe Ctx) (cs : List String) :
    ∀ tokens, describeLoop W req d (cs.map contentTick) tokens =
      (cs.flatMap (fun c =>
        [.proposalsUpdate d.proposal.Id (.appendContent c), .onStream (.content c) none]),
       .running) := by
  induction cs with
  | nil => intro tokens; rfl
  | cons c cs ih =>
    intro tokens
    simp [contentTick, describeLoop] at ih ⊢
    rw [ih]
    simp

theorem callbacks_content {Ctx : Type} (proposalId : String) (cs : List String) :
    callbacks (cs.flatMap (fun c =>
      ([.proposalsUpdate proposalId (.appendContent c), .onStream (.content c) none] :
        List (Effect Ctx)))) = cs.map (fun c => (Payload.content c, none)) := by
  induction cs with
  | nil => rfl
  | cons c cs ih =>
    rw [List.flatMap_cons, callbacks_append, ih]
    rfl

theorem registry_content {Ctx : Type} (proposalId : String) (cs : List String) :
    ∀ (registry : GoMap (Registered Ctx)) (entry : Registered Ctx),
      registry.get? proposalId = some entry →
      ∃ entry', ((cs.flatMap (fun c =>
          ([.proposalsUpdate proposalId (.appendContent c), .onStream (.content c) none] :
            List (Effect Ctx)))).foldl registryStep registry).get? proposalId = some entry' ∧
        entry'.proposal.Content = cs.foldl (fun r s => r ++ s) entry.proposal.Content ∧
        entry'.proposal.Id = entry.proposal.Id ∧ entry'.Err = entry.Err := by
  induction cs with
  | nil =>
    intro registry entry h
    exact ⟨entry, h, rfl, rfl, rfl⟩
  | cons c cs ih =>
    intro registry entry h
    have hstep : (registryStep (registryStep registry
        (.proposalsUpdate proposalId (.appendContent c)))
        (.onStream (.content c) none)).get? proposalId =
        some (entry.update (.appendContent c)) := by
      simp [registryStep, h, GoMap.get?_set]
    obtain ⟨entry', h1, h2, h3, h4⟩ := ih _ _ hstep
    refine ⟨entry', ?_, ?_, ?_, ?_⟩
    · simpa [List.flatMap_cons] using h1
    · simpa [Registered.update] using h2
    · simpa [Registered.update] using h3
    · simpa [Registered.update] using h4

end CreateProposal

open CreateProposal in
/-- C17. For an accepted request (outside test mode, id generated, prompt assembled,
stream opened), after the describe loop has processed the content chunks `c1..cn`, each
with one choice and an empty finish reason: the callbacks made are the proposal id
followed by `c1..cn` in order, and the registry holds for the proposal id an entry whose
`Content` is the concatenation `c1 ++ ... ++ cn`. -/
theorem CreateProposal_content_chunks {Ctx : Type} (E : Externals Ctx) (R : Run)
    (W : StreamWorld) (req : PromptRequest Ctx) (proposalId : String) (a : Assembled)
    (cs : List String) (hgo : R.goEnv ≠ "test") (hid : R.NewRandom = .ok proposalId)
    (ha : assemble E req = .ok a) (hopen : R.CreateChatCompletionStream = none) :
    callbacks (trace E R W req (cs.map contentTick)) =
        (.proposalId proposalId, none) :: cs.map (fun c => (Payload.content c, none)) ∧
      ∃ entry, (registryAfter (trace E R W req (cs.map contentTick))).get? proposalId =
          some entry ∧
        entry.proposal.Content = String.join cs ∧ entry.proposal.Id = proposalId := by
  rw [trace_of_accepted E R W req proposalId a _ hgo hid ha hopen, describeLoop_content]
  constructor
  · rw [callbacks_append, callbacks_content]
    rfl
  · have hset : (([.onStream (.proposalId proposalId) none,
        .proposalsSet proposalId (newProposal proposalId req),
        .CreateChatCompletionStream a.messages] : List (Effect Ctx)).foldl
          registryStep []).get? proposalId =
        some { proposal := newProposal proposalId req, Err := none, PlanDescription := none } := by
      simp [registryStep, GoMap.set, GoMap.get?]
    obtain ⟨entry, h1, h2, h3, -⟩ := registry_content proposalId cs _ _ hset
    refine ⟨entry, ?_, ?_, ?_⟩
    · unfold registryAfter
      rw [List.foldl_append]
      exact h1
    · rw [h2]
      rfl
    · rw [h3]
      rfl

/-- Witness of C17: the chunks `a`, `b`, `c` give the content `abc`. -/
theorem CreateProposal_content_chunks_witness :
    CreateProposal.callbacks
        (CreateProposal.trace (externalsExample 4000) runExample (streamWorldExample [])
          requestSmall (["a", "b", "c"].map CreateProposal.contentTick)) =
        (.proposalId "id-1", none) ::
          ["a", "b", "c"].map (fun c => (CreateProposal.Payload.content c, none)) ∧
      ∃ entry, (CreateProposal.registryAfter
          (CreateProposal.trace (externalsExample 4000) runExample (streamWorldExample [])
            requestSmall (["a", "b", "c"].map CreateProposal.contentTick))).get? "id-1" =
          some entry ∧
        entry.proposal.Content = String.join ["a", "b", "c"] ∧ entry.proposal.Id = "id-1" :=
  CreateProposal_content_chunks (externalsExample 4000) runExample (streamWorldExample [])
    requestSmall "id-1"
    { messages := [CreateProposal.systemMessage (externalsExample 4000) requestSmall] ++
        requestSmall.Conversation.map (fun x => x.Message) ++
        [CreateProposal.promptMessage requestSmall],
      summary := none }
    ["a", "b", "c"] (by decide) rfl rfl rfl

/-- C18, evaluated. When the stream fails to open, the registry has no entry for the
proposal id after the run. When the stream opens, the entry that line 213 registers is
still in the registry after the goroutine has returned on a stream error (with the error
recorded on it), on the inactivity timeout, on a chunk without choices, on cancellation,
and on a clean finish without files: on none of these paths is `proposals.Delete`
called. -/
theorem CreateProposal_registry_entry_remains :
    ((CreateProposal.registryAfter
        (CreateProposal.trace (externalsExample 4000) runStreamFails (streamWorldExample [])
          requestSmall [])).get? "id-1").isSome = false ∧
      (∃ d, (CreateProposal (externalsExample 4000) runExample requestSmall).spawned = some d ∧
        (CreateProposal.describeLoop (streamWorldExample []) requestSmall d
          [.recv (.error "EOF")] []).2 = .streamError ∧
        (CreateProposal.describeLoop (streamWorldExample []) requestSmall d
          [.timer] []).2 = .timeout ∧
        (CreateProposal.describeLoop (streamWorldExample []) requestSmall d
          [.recv (.ok { Choices := [] })] []).2 = .noChoices ∧
        (CreateProposal.describeLoop (streamWorldExample []) requestSmall d
          [.ctxDone] []).2 = .cancelled ∧
        (CreateProposal.describeLoop (streamWorldExample []) requestSmall d
          [.recv (.ok { Choices := [{ FinishReason := "stop", Content := "" }] })] []).2 =
            .finishedNoFiles) ∧
      ((CreateProposal.registryAfter
          (CreateProposal.trace (externalsExample 4000) runExample (streamWorldExample [])
            requestSmall [.recv (.error "EOF")])).get? "id-1").map (fun entry => entry.Err) =
        some (some "stream error: EOF") ∧
      ((CreateProposal.registryAfter
          (CreateProposal.trace (externalsExample 4000) runExample (streamWorldExample [])
            requestSmall [.timer])).get? "id-1").isSome = true ∧
      ((CreateProposal.registryAfter
          (CreateProposal.trace (externalsExample 4000) runExample (streamWorldExample [])
            requestSmall [.recv (.ok { Choices := [] })])).get? "id-1").isSome = true ∧
      ((CreateProposal.registryAfter
          (CreateProposal.trace (externalsExample 4000) runExample (streamWorldExample [])
            requestSmall [.ctxDone])).get? "id-1").isSome = true ∧
      ((CreateProposal.registryAfter
          (CreateProposal.trace (externalsExample 4000) runExample (streamWorldExample [])
            requestSmall
            [.recv (.ok { Choices := [{ FinishReason := "stop", Content := "" }] })])).get?
              "id-1").isSome = true := by
  refine ⟨by decide, ⟨_, rfl, rfl, rfl, rfl, rfl, rfl⟩, by decide, by decide, by decide,
    by decide, by decide⟩

open CreateProposal in
/-- C23, as amended. The summary task is started exactly when the request has a
conversation. The messages it sends to the plan-summary model are: when the request
carries at least one summary, the last of them as an assistant message, the prompt
message and the assistant reply with the proposal's content, three messages; when it
carries none, every message of the conversation in order, then the prompt message and
the assistant reply, `len(Conversation) + 2` messages. -/
theorem summaryMessages_shape {Ctx : Type} (req : PromptRequest Ctx)
    (promptMessage : ChatCompletionMessage) (content : String) :
    (∀ latestSummary, req.ConversationSummaries.getLast? = some latestSummary →
        summaryMessages req promptMessage content =
          [{ Role := openai.ChatMessageRoleAssistant, Content := latestSummary.Summary },
            promptMessage,
            { Role := openai.ChatMessageRoleAssistant, Content := content }]) ∧
      (req.ConversationSummaries = [] →
        summaryMessages req promptMessage content =
          req.Conversation.map (fun convoMessage => convoMessage.Message) ++
            [promptMessage, { Role := openai.ChatMessageRoleAssistant, Content := content }] ∧
        (summaryMessages req promptMessage content).length = req.Conversation.length + 2) ∧
      ∀ (d : Describe Ctx) (tokens : List String) (responseTs : String),
        (req.Conversation ≠ [] →
          startSummary req d tokens responseTs =
            [.convoSummaryProcsSet d.proposal.RootId,
              .goPlanSummary d.proposal.RootId
                (summaryMessages req d.promptMessage (String.join tokens)) responseTs
                (summaryNumMessages req)]) ∧
        (req.Conversation = [] → startSummary req d tokens responseTs = []) := by
  refine ⟨fun latestSummary h => ?_, fun h => ?_, fun d tokens responseTs => ⟨fun h => ?_, fun h => ?_⟩⟩
  · simp [summaryMessages, h]
  · simp [summaryMessages, h]
  · have hlen : req.Conversation.length > 0 := List.length_pos.2 h
    simp [startSummary, hlen]
  · simp [startSummary, h]

/-- Counterexample to C23 as stated: for a request with a conversation of three messages
and no summary, the summary task is handed five messages, not two. -/
theorem summaryMessages_without_summary_has_history :
    requestSmall.ConversationSummaries = [] ∧
      CreateProposal.startSummary requestSmall
          { proposal := CreateProposal.newProposal "id-1" requestSmall, summary := none,
            promptMessage := CreateProposal.promptMessage requestSmall } ["a"] "ts-1" =
        [.convoSummaryProcsSet "id-1",
          .goPlanSummary "id-1"
            [{ Role := openai.ChatMessageRoleUser, Content := "1" },
              { Role := openai.ChatMessageRoleUser, Content := "2" },
              { Role := openai.ChatMessageRoleUser, Content := "3" },
              CreateProposal.promptMessage requestSmall,
              { Role := openai.ChatMessageRoleAssistant, Content := "a" }] "ts-1" 1] ∧
      (CreateProposal.summaryMessages requestSmall (CreateProposal.promptMessage requestSmall)
        "a").length = 5 ∧
      (CreateProposal.summaryMessages requestSmall (CreateProposal.promptMessage requestSmall)
        "a").length ≠ 2 := by
  refine ⟨rfl, rfl, rfl, by decide⟩

end Plandex
